import Mathlib

/-!
# Verification of the R650X/R651X 6502 emulator core

A shallow embedding of the emulator's CPU, memory and instruction
semantics (src/CPU.cpp, src/Instructions.cpp, src/Memory.cpp), with
theorems settling the frozen claims about the specification.

Machine integers are embedded as `Nat` with explicit truncation:
`% 256` where the C++ stores into a `Byte` (uint8_t), `% 65536` where it
stores into a `Word`/`Address` (uint16_t).  Signed intermediate values
(int arithmetic in C++) go through `Int` and are truncated with `u16`;
bitwise operations commute with 2-adic truncation, so operands of
bitwise operators are pre-truncated where the C++ operates on a
possibly-negative int.
-/

namespace M6502

/-- Flat 65,536-byte store, embedded as a function from addresses to
byte values.  Reads truncate the address to 16 bits and the stored
value to 8 bits, mirroring `std::array<Byte, 65536>` indexed by a
16-bit `Address`. -/
def Mem : Type := Nat → Nat

/-- The architectural machine state: the CPU register file of
`CPU.h`/`CPU.cpp` (A, X, Y, PC, SP, P, TotalCycles) together with the
memory that the C++ code passes to every entry point by reference. -/
structure St where
  A : Nat
  X : Nat
  Y : Nat
  PC : Nat
  SP : Nat
  P : Nat
  TotalCycles : Nat
  mem : Mem

/-- Modelled from the spec: flag bit values of the missing `CPU.h`
(spec §3, §6: N=0x80, V=0x40, Unused=0x20, B=0x10, D=0x08, I=0x04,
Z=0x02, C=0x01). -/
def FLAG_CARRY : Nat := 0x01
def FLAG_ZERO : Nat := 0x02
def FLAG_INTERRUPT : Nat := 0x04
def FLAG_DECIMAL : Nat := 0x08
def FLAG_BREAK : Nat := 0x10
def FLAG_UNUSED : Nat := 0x20
def FLAG_OVERFLOW : Nat := 0x40
def FLAG_NEGATIVE : Nat := 0x80

/-- Modelled from the spec: fixed addresses of the missing `CPU.h`
(spec §3: reset vector 0xFFFC, IRQ/BRK vector 0xFFFE, stack base
0x0100, SP reset value 0xFD). -/
def VECTOR_RESET : Nat := 0xFFFC
def VECTOR_IRQ_BRK : Nat := 0xFFFE
def STACK_BASE : Nat := 0x0100
def STACK_POINTER_RESET : Nat := 0xFD

/-- Truncation of a C++ int expression on assignment to a 16-bit
unsigned: two's-complement low 16 bits. -/
def u16 (x : Int) : Nat := (x % 65536).toNat

-- ====================================================================
-- Memory (src/Memory.cpp)
-- ====================================================================

/-- `Memory::ReadByte`: returns `data[address]`, charges 1 cycle. -/
def MemReadByte (s : St) (addr : Nat) (cy : Nat) : Nat × St × Nat :=
  (s.mem (addr % 65536) % 256, s, cy + 1)

/-- `Memory::WriteByte`: stores `value` at `address`, charges 1 cycle. -/
def MemWriteByte (s : St) (addr value : Nat) (cy : Nat) : St × Nat :=
  ({ s with mem := fun a => if a = addr % 65536 then value % 256 else s.mem a }, cy + 1)

/-- `Memory::ReadWord`: little-endian 16-bit read, charges 2 cycles. -/
def MemReadWord (s : St) (addr : Nat) (cy : Nat) : Nat × St × Nat :=
  let (lo, s, cy) := MemReadByte s addr cy
  let (hi, s, cy) := MemReadByte s (addr + 1) cy
  (hi * 256 + lo, s, cy)

-- ====================================================================
-- Flag operations (src/CPU.cpp)
-- ====================================================================

/-- `CPU::SetFlag`: `P |= flag` or `P &= ~flag` on the 8-bit status
byte (`~flag` truncated to 8 bits is `255 ^^^ flag`). -/
def SetFlag (P flag : Nat) (cond : Bool) : Nat :=
  if cond then P ||| flag else P &&& (255 ^^^ flag)

/-- `CPU::GetFlag`: `(P & flag) != 0`. -/
def GetFlag (s : St) (flag : Nat) : Bool :=
  (s.P &&& flag) != 0

/-- `CPU::UpdateZeroAndNegativeFlags`: Z from `value == 0`, N from bit
7 of `value`. -/
def UpdateZN (P value : Nat) : Nat :=
  SetFlag (SetFlag P FLAG_ZERO (value == 0)) FLAG_NEGATIVE ((value &&& 0x80) != 0)

-- ====================================================================
-- Stack operations (src/CPU.cpp)
-- ====================================================================

/-- `CPU::PushByteToStack`: write at `0x0100 + SP`, then `SP--` with
8-bit wrap. -/
def PushByteToStack (s : St) (value cy : Nat) : St × Nat :=
  let stackAddress := STACK_BASE + s.SP
  let (s, cy) := MemWriteByte s stackAddress value cy
  ({ s with SP := (s.SP + 255) % 256 }, cy)

/-- `CPU::PushWordToStack`: high byte first, then low byte. -/
def PushWordToStack (s : St) (value cy : Nat) : St × Nat :=
  let (s, cy) := PushByteToStack s ((value >>> 8) &&& 0xFF) cy
  PushByteToStack s (value &&& 0xFF) cy

/-- `CPU::PopByteFromStack`: `SP++` (8-bit wrap), then read
`0x0100 + SP`. -/
def PopByteFromStack (s : St) (cy : Nat) : Nat × St × Nat :=
  let s := { s with SP := (s.SP + 1) % 256 }
  MemReadByte s (STACK_BASE + s.SP) cy

/-- `CPU::PopWordFromStack`: low byte first, then high byte. -/
def PopWordFromStack (s : St) (cy : Nat) : Nat × St × Nat :=
  let (lowByte, s, cy) := PopByteFromStack s cy
  let (highByte, s, cy) := PopByteFromStack s cy
  (highByte * 256 + lowByte, s, cy)

-- ====================================================================
-- Fetch helpers (src/CPU.cpp)
-- ====================================================================

/-- `CPU::FetchByte`: read at PC, `PC++` (16-bit wrap). -/
def FetchByte (s : St) (cy : Nat) : Nat × St × Nat :=
  let (value, s, cy) := MemReadByte s s.PC cy
  (value, { s with PC := (s.PC + 1) % 65536 }, cy)

/-- `CPU::FetchWord`: little-endian read at PC, `PC += 2`. -/
def FetchWord (s : St) (cy : Nat) : Nat × St × Nat :=
  let (value, s, cy) := MemReadWord s s.PC cy
  (value, { s with PC := (s.PC + 2) % 65536 }, cy)

-- ====================================================================
-- Addressing modes (src/CPU.cpp)
-- ====================================================================

/-- `CPU::AddrImmediate`: operand address is PC, then `PC++`; +1 cycle. -/
def AddrImmediate (s : St) (cy : Nat) : Nat × St × Nat :=
  (s.PC, { s with PC := (s.PC + 1) % 65536 }, cy + 1)

/-- `CPU::AddrZeroPage`. -/
def AddrZeroPage (s : St) (cy : Nat) : Nat × St × Nat :=
  FetchByte s cy

/-- `CPU::AddrZeroPageX`: zero-page wrap-around add of X; +1 cycle. -/
def AddrZeroPageX (s : St) (cy : Nat) : Nat × St × Nat :=
  let (zpAddress, s, cy) := FetchByte s cy
  ((zpAddress + s.X) % 256, s, cy + 1)

/-- `CPU::AddrZeroPageY`: zero-page wrap-around add of Y; +1 cycle. -/
def AddrZeroPageY (s : St) (cy : Nat) : Nat × St × Nat :=
  let (zpAddress, s, cy) := FetchByte s cy
  ((zpAddress + s.Y) % 256, s, cy + 1)

/-- `CPU::AddrAbsolute`. -/
def AddrAbsolute (s : St) (cy : Nat) : Nat × St × Nat :=
  FetchWord s cy

/-- `CPU::AddrAbsoluteX`: 16-bit add of X; optional +1 cycle when the
high byte of the effective address differs from the base's. -/
def AddrAbsoluteX (s : St) (cy : Nat) (addCycleOnPageCross : Bool) : Nat × St × Nat :=
  let (baseAddress, s, cy) := FetchWord s cy
  let finalAddress := (baseAddress + s.X) % 65536
  let cy := if addCycleOnPageCross && ((baseAddress &&& 0xFF00) != (finalAddress &&& 0xFF00))
            then cy + 1 else cy
  (finalAddress, s, cy)

/-- `CPU::AddrAbsoluteY`. -/
def AddrAbsoluteY (s : St) (cy : Nat) (addCycleOnPageCross : Bool) : Nat × St × Nat :=
  let (baseAddress, s, cy) := FetchWord s cy
  let finalAddress := (baseAddress + s.Y) % 65536
  let cy := if addCycleOnPageCross && ((baseAddress &&& 0xFF00) != (finalAddress &&& 0xFF00))
            then cy + 1 else cy
  (finalAddress, s, cy)

/-- `CPU::AddrIndexedIndirect` — `($ZP,X)`. -/
def AddrIndexedIndirect (s : St) (cy : Nat) : Nat × St × Nat :=
  let (zpAddress, s, cy) := FetchByte s cy
  let finalZpAddress := (zpAddress + s.X) % 256
  let cy := cy + 1
  let (lowByte, s, cy) := MemReadByte s finalZpAddress cy
  let (highByte, s, cy) := MemReadByte s ((finalZpAddress + 1) &&& 0xFF) cy
  (highByte * 256 + lowByte, s, cy)

/-- `CPU::AddrIndirectIndexed` — `($ZP),Y`. -/
def AddrIndirectIndexed (s : St) (cy : Nat) (addCycleOnPageCross : Bool) : Nat × St × Nat :=
  let (zpAddress, s, cy) := FetchByte s cy
  let (lowByte, s, cy) := MemReadByte s zpAddress cy
  let (highByte, s, cy) := MemReadByte s ((zpAddress + 1) &&& 0xFF) cy
  let baseAddress := highByte * 256 + lowByte
  let finalAddress := (baseAddress + s.Y) % 65536
  let cy := if addCycleOnPageCross && ((baseAddress &&& 0xFF00) != (finalAddress &&& 0xFF00))
            then cy + 1 else cy
  (finalAddress, s, cy)

-- ====================================================================
-- Load/store instructions (src/CPU.cpp)
-- ====================================================================

/-- `CPU::LDA`. -/
def LDA (s : St) (cy : Nat) (addr : Nat) : St × Nat :=
  let (v, s, cy) := MemReadByte s addr cy
  ({ s with A := v, P := UpdateZN s.P v }, cy)

/-- `CPU::LDX`. -/
def LDX (s : St) (cy : Nat) (addr : Nat) : St × Nat :=
  let (v, s, cy) := MemReadByte s addr cy
  ({ s with X := v, P := UpdateZN s.P v }, cy)

/-- `CPU::LDY`. -/
def LDY (s : St) (cy : Nat) (addr : Nat) : St × Nat :=
  let (v, s, cy) := MemReadByte s addr cy
  ({ s with Y := v, P := UpdateZN s.P v }, cy)

/-- `CPU::STA`. -/
def STA (s : St) (cy : Nat) (addr : Nat) : St × Nat :=
  MemWriteByte s addr s.A cy

/-- `CPU::STX`. -/
def STX (s : St) (cy : Nat) (addr : Nat) : St × Nat :=
  MemWriteByte s addr s.X cy

/-- `CPU::STY`. -/
def STY (s : St) (cy : Nat) (addr : Nat) : St × Nat :=
  MemWriteByte s addr s.Y cy

-- ====================================================================
-- Register transfers (src/CPU.cpp)
-- ====================================================================

/-- `CPU::TAX`. -/
def TAX (s : St) (cy : Nat) : St × Nat :=
  ({ s with X := s.A, P := UpdateZN s.P s.A }, cy + 1)

/-- `CPU::TAY`. -/
def TAY (s : St) (cy : Nat) : St × Nat :=
  ({ s with Y := s.A, P := UpdateZN s.P s.A }, cy + 1)

/-- `CPU::TXA`. -/
def TXA (s : St) (cy : Nat) : St × Nat :=
  ({ s with A := s.X, P := UpdateZN s.P s.X }, cy + 1)

/-- `CPU::TYA`. -/
def TYA (s : St) (cy : Nat) : St × Nat :=
  ({ s with A := s.Y, P := UpdateZN s.P s.Y }, cy + 1)

/-- `CPU::TSX`. -/
def TSX (s : St) (cy : Nat) : St × Nat :=
  ({ s with X := s.SP, P := UpdateZN s.P s.SP }, cy + 1)

/-- `CPU::TXS` — no flag change. -/
def TXS (s : St) (cy : Nat) : St × Nat :=
  ({ s with SP := s.X }, cy + 1)

-- ====================================================================
-- Stack instructions (src/CPU.cpp)
-- ====================================================================

/-- `CPU::PHA`. -/
def PHA (s : St) (cy : Nat) : St × Nat :=
  PushByteToStack s s.A (cy + 1)

/-- `CPU::PHP`: pushes P with B and Unused forced set. -/
def PHP (s : St) (cy : Nat) : St × Nat :=
  PushByteToStack s (s.P ||| FLAG_BREAK ||| FLAG_UNUSED) (cy + 1)

/-- `CPU::PLA`. -/
def PLA (s : St) (cy : Nat) : St × Nat :=
  let (v, s, cy) := PopByteFromStack s (cy + 2)
  ({ s with A := v, P := UpdateZN s.P v }, cy)

/-- `CPU::PLP`: pops P, then forces the Unused flag. -/
def PLP (s : St) (cy : Nat) : St × Nat :=
  let (v, s, cy) := PopByteFromStack s (cy + 2)
  ({ s with P := SetFlag v FLAG_UNUSED true }, cy)

-- ====================================================================
-- Logical instructions (src/CPU.cpp)
-- ====================================================================

/-- `CPU::AND`. -/
def AND (s : St) (cy : Nat) (addr : Nat) : St × Nat :=
  let (v, s, cy) := MemReadByte s addr cy
  let A := s.A &&& v
  ({ s with A := A, P := UpdateZN s.P A }, cy)

/-- `CPU::ORA`. -/
def ORA (s : St) (cy : Nat) (addr : Nat) : St × Nat :=
  let (v, s, cy) := MemReadByte s addr cy
  let A := s.A ||| v
  ({ s with A := A, P := UpdateZN s.P A }, cy)

/-- `CPU::EOR`. -/
def EOR (s : St) (cy : Nat) (addr : Nat) : St × Nat :=
  let (v, s, cy) := MemReadByte s addr cy
  let A := s.A ^^^ v
  ({ s with A := A, P := UpdateZN s.P A }, cy)

/-- `CPU::BIT`. -/
def BIT (s : St) (cy : Nat) (addr : Nat) : St × Nat :=
  let (v, s, cy) := MemReadByte s addr cy
  let P := SetFlag s.P FLAG_ZERO ((s.A &&& v) == 0)
  let P := SetFlag P FLAG_NEGATIVE ((v &&& 0x80) != 0)
  let P := SetFlag P FLAG_OVERFLOW ((v &&& 0x40) != 0)
  ({ s with P := P }, cy)

-- ====================================================================
-- Arithmetic instructions (src/CPU.cpp)
-- ====================================================================

/-- `CPU::ADC`: binary and BCD add with carry. -/
def ADC (s : St) (cy : Nat) (addr : Nat) : St × Nat :=
  let (operand, s, cy) := MemReadByte s addr cy
  if GetFlag s FLAG_DECIMAL then
    let sum := (s.A &&& 0x0F) + (operand &&& 0x0F) + (if GetFlag s FLAG_CARRY then 1 else 0)
    let sum := if sum > 0x09 then sum + 0x06 else sum
    let sum := (s.A &&& 0xF0) + (operand &&& 0xF0) + (if sum > 0x0F then 0x10 else 0) + (sum &&& 0x0F)
    let P := SetFlag s.P FLAG_NEGATIVE ((sum &&& 0x80) != 0)
    let P := SetFlag P FLAG_ZERO ((sum &&& 0xFF) == 0)
    let overflow := (((s.A ^^^ sum) &&& (operand ^^^ sum)) &&& 0x80) != 0
    let P := SetFlag P FLAG_OVERFLOW overflow
    let sum := if (sum &&& 0xF0) > 0x90 then sum + 0x60 else sum
    let P := SetFlag P FLAG_CARRY (sum > 0x99)
    ({ s with A := sum &&& 0xFF, P := P }, cy)
  else
    let sum := s.A + operand + (if GetFlag s FLAG_CARRY then 1 else 0)
    let P := SetFlag s.P FLAG_CARRY (sum > 0xFF)
    let overflow := (((s.A ^^^ sum) &&& (operand ^^^ sum)) &&& 0x80) != 0
    let P := SetFlag P FLAG_OVERFLOW overflow
    let A := sum &&& 0xFF
    ({ s with A := A, P := UpdateZN P A }, cy)

/-- `CPU::SBC`: binary mode is ADC with the operand inverted; decimal
mode is the NMOS BCD-subtract sequence.  The C++ does the decimal
intermediate arithmetic in (possibly negative) int and truncates each
assignment to the 16-bit `diff`; bitwise ops commute with truncation,
so operands of `|||` are pre-truncated with `u16`. -/
def SBC (s : St) (cy : Nat) (addr : Nat) : St × Nat :=
  let (operand, s, cy) := MemReadByte s addr cy
  if GetFlag s FLAG_DECIMAL then
    let borrow : Int := if GetFlag s FLAG_CARRY then 0 else 1
    let diff := u16 (((s.A &&& 0x0F : Nat) : Int) - ((operand &&& 0x0F : Nat) : Int) - borrow)
    let diff :=
      if diff &&& 0x10 != 0 then
        (u16 ((diff : Int) - 0x06) &&& 0x0F) |||
          u16 (((s.A &&& 0xF0 : Nat) : Int) - ((operand &&& 0xF0 : Nat) : Int) - 0x10)
      else
        (diff &&& 0x0F) |||
          u16 (((s.A &&& 0xF0 : Nat) : Int) - ((operand &&& 0xF0 : Nat) : Int))
    let diff := if diff &&& 0x100 != 0 then u16 ((diff : Int) - 0x60) else diff
    let P := SetFlag s.P FLAG_CARRY ((diff &&& 0x100) == 0)
    let A := diff &&& 0xFF
    ({ s with A := A, P := UpdateZN P A }, cy)
  else
    let sum := s.A + (operand ^^^ 0xFF) + (if GetFlag s FLAG_CARRY then 1 else 0)
    let P := SetFlag s.P FLAG_CARRY (sum > 0xFF)
    let overflow := (((s.A ^^^ sum) &&& ((operand ^^^ 0xFF) ^^^ sum)) &&& 0x80) != 0
    let P := SetFlag P FLAG_OVERFLOW overflow
    let A := sum &&& 0xFF
    ({ s with A := A, P := UpdateZN P A }, cy)

/-- `CPU::CompareRegister`: shared by CMP/CPX/CPY. -/
def CompareRegister (P regValue memValue : Nat) : Nat :=
  let result := u16 ((regValue : Int) - (memValue : Int))
  let P := SetFlag P FLAG_CARRY (decide (memValue ≤ regValue))
  let P := SetFlag P FLAG_ZERO (regValue == memValue)
  SetFlag P FLAG_NEGATIVE ((result &&& 0x80) != 0)

/-- `CPU::CMP`. -/
def CMP (s : St) (cy : Nat) (addr : Nat) : St × Nat :=
  let (v, s, cy) := MemReadByte s addr cy
  ({ s with P := CompareRegister s.P s.A v }, cy)

/-- `CPU::CPX`. -/
def CPX (s : St) (cy : Nat) (addr : Nat) : St × Nat :=
  let (v, s, cy) := MemReadByte s addr cy
  ({ s with P := CompareRegister s.P s.X v }, cy)

/-- `CPU::CPY`. -/
def CPY (s : St) (cy : Nat) (addr : Nat) : St × Nat :=
  let (v, s, cy) := MemReadByte s addr cy
  ({ s with P := CompareRegister s.P s.Y v }, cy)

-- ====================================================================
-- Increment/decrement (src/CPU.cpp)
-- ====================================================================

/-- `CPU::INC`: read, +1 (8-bit wrap), one internal cycle, write. -/
def INC (s : St) (cy : Nat) (addr : Nat) : St × Nat :=
  let (v, s, cy) := MemReadByte s addr cy
  let value := (v + 1) % 256
  let (s, cy) := MemWriteByte s addr value (cy + 1)
  ({ s with P := UpdateZN s.P value }, cy)

/-- `CPU::INX`. -/
def INX (s : St) (cy : Nat) : St × Nat :=
  let X := (s.X + 1) % 256
  ({ s with X := X, P := UpdateZN s.P X }, cy + 1)

/-- `CPU::INY`. -/
def INY (s : St) (cy : Nat) : St × Nat :=
  let Y := (s.Y + 1) % 256
  ({ s with Y := Y, P := UpdateZN s.P Y }, cy + 1)

/-- `CPU::DEC`. -/
def DEC (s : St) (cy : Nat) (addr : Nat) : St × Nat :=
  let (v, s, cy) := MemReadByte s addr cy
  let value := (v + 255) % 256
  let (s, cy) := MemWriteByte s addr value (cy + 1)
  ({ s with P := UpdateZN s.P value }, cy)

/-- `CPU::DEX`. -/
def DEX (s : St) (cy : Nat) : St × Nat :=
  let X := (s.X + 255) % 256
  ({ s with X := X, P := UpdateZN s.P X }, cy + 1)

/-- `CPU::DEY`. -/
def DEY (s : St) (cy : Nat) : St × Nat :=
  let Y := (s.Y + 255) % 256
  ({ s with Y := Y, P := UpdateZN s.P Y }, cy + 1)

-- ====================================================================
-- Shifts and rotates (src/Instructions.cpp)
-- ====================================================================

/-- `CPU::ASL_ACC`. -/
def ASL_ACC (s : St) (cy : Nat) : St × Nat :=
  let P := SetFlag s.P FLAG_CARRY ((s.A &&& 0x80) != 0)
  let A := (s.A <<< 1) % 256
  ({ s with A := A, P := UpdateZN P A }, cy + 1)

/-- `CPU::ASL_MEM`. -/
def ASL_MEM (s : St) (cy : Nat) (addr : Nat) : St × Nat :=
  let (v, s, cy) := MemReadByte s addr cy
  let P := SetFlag s.P FLAG_CARRY ((v &&& 0x80) != 0)
  let value := (v <<< 1) % 256
  let (s, cy) := MemWriteByte s addr value (cy + 1)
  ({ s with P := UpdateZN P value }, cy)

/-- `CPU::LSR_ACC`. -/
def LSR_ACC (s : St) (cy : Nat) : St × Nat :=
  let P := SetFlag s.P FLAG_CARRY ((s.A &&& 0x01) != 0)
  let A := (s.A >>> 1) % 256
  ({ s with A := A, P := UpdateZN P A }, cy + 1)

/-- `CPU::LSR_MEM`. -/
def LSR_MEM (s : St) (cy : Nat) (addr : Nat) : St × Nat :=
  let (v, s, cy) := MemReadByte s addr cy
  let P := SetFlag s.P FLAG_CARRY ((v &&& 0x01) != 0)
  let value := (v >>> 1) % 256
  let (s, cy) := MemWriteByte s addr value (cy + 1)
  ({ s with P := UpdateZN P value }, cy)

/-- `CPU::ROL_ACC`. -/
def ROL_ACC (s : St) (cy : Nat) : St × Nat :=
  let oldCarry := GetFlag s FLAG_CARRY
  let P := SetFlag s.P FLAG_CARRY ((s.A &&& 0x80) != 0)
  let A := ((s.A <<< 1) ||| (if oldCarry then 1 else 0)) % 256
  ({ s with A := A, P := UpdateZN P A }, cy + 1)

/-- `CPU::ROL_MEM`. -/
def ROL_MEM (s : St) (cy : Nat) (addr : Nat) : St × Nat :=
  let (v, s, cy) := MemReadByte s addr cy
  let oldCarry := GetFlag s FLAG_CARRY
  let P := SetFlag s.P FLAG_CARRY ((v &&& 0x80) != 0)
  let value := ((v <<< 1) ||| (if oldCarry then 1 else 0)) % 256
  let (s, cy) := MemWriteByte s addr value (cy + 1)
  ({ s with P := UpdateZN P value }, cy)

/-- `CPU::ROR_ACC`. -/
def ROR_ACC (s : St) (cy : Nat) : St × Nat :=
  let oldCarry := GetFlag s FLAG_CARRY
  let P := SetFlag s.P FLAG_CARRY ((s.A &&& 0x01) != 0)
  let A := ((s.A >>> 1) ||| (if oldCarry then 0x80 else 0)) % 256
  ({ s with A := A, P := UpdateZN P A }, cy + 1)

/-- `CPU::ROR_MEM`. -/
def ROR_MEM (s : St) (cy : Nat) (addr : Nat) : St × Nat :=
  let (v, s, cy) := MemReadByte s addr cy
  let oldCarry := GetFlag s FLAG_CARRY
  let P := SetFlag s.P FLAG_CARRY ((v &&& 0x01) != 0)
  let value := ((v >>> 1) ||| (if oldCarry then 0x80 else 0)) % 256
  let (s, cy) := MemWriteByte s addr value (cy + 1)
  ({ s with P := UpdateZN P value }, cy)

-- ====================================================================
-- Jumps, calls and branches (src/Instructions.cpp)
-- ====================================================================

/-- `CPU::JMP`. -/
def JMP (s : St) (cy : Nat) (addr : Nat) : St × Nat :=
  ({ s with PC := addr }, cy)

/-- `CPU::JSR`: push `PC - 1` (16-bit wrap), jump to `addr`. -/
def JSR (s : St) (cy : Nat) (addr : Nat) : St × Nat :=
  let cy := cy + 1
  let returnAddress := u16 ((s.PC : Int) - 1)
  let (s, cy) := PushWordToStack s returnAddress cy
  ({ s with PC := addr }, cy)

/-- `CPU::RTS`: pop word, `PC := word + 1`. -/
def RTS (s : St) (cy : Nat) : St × Nat :=
  let (returnAddress, s, cy) := PopWordFromStack s (cy + 2)
  ({ s with PC := (returnAddress + 1) % 65536 }, cy + 1)

/-- `CPU::RTI`: pop P (force Unused), pop PC. -/
def RTI (s : St) (cy : Nat) : St × Nat :=
  let (v, s, cy) := PopByteFromStack s (cy + 1)
  let s := { s with P := SetFlag v FLAG_UNUSED true }
  let (pc, s, cy) := PopWordFromStack s cy
  ({ s with PC := pc }, cy)

/-- `CPU::BranchIf`: fetch signed 8-bit offset; on a taken branch +1
cycle, PC += sign-extended offset, and +1 more cycle on page cross. -/
def BranchIf (s : St) (cy : Nat) (condition : Bool) : St × Nat :=
  let (offset, s, cy) := FetchByte s cy
  if condition then
    let cy := cy + 1
    let oldPC := s.PC
    let newPC := u16 ((s.PC : Int) + (if offset < 128 then (offset : Int) else (offset : Int) - 256))
    let cy := if (oldPC &&& 0xFF00) != (newPC &&& 0xFF00) then cy + 1 else cy
    ({ s with PC := newPC }, cy)
  else
    (s, cy)

-- ====================================================================
-- Flag instructions (src/Instructions.cpp)
-- ====================================================================

/-- `CPU::CLC`. -/
def CLC (s : St) (cy : Nat) : St × Nat :=
  ({ s with P := SetFlag s.P FLAG_CARRY false }, cy + 1)

/-- `CPU::CLD`. -/
def CLD (s : St) (cy : Nat) : St × Nat :=
  ({ s with P := SetFlag s.P FLAG_DECIMAL false }, cy + 1)

/-- `CPU::CLI`. -/
def CLI (s : St) (cy : Nat) : St × Nat :=
  ({ s with P := SetFlag s.P FLAG_INTERRUPT false }, cy + 1)

/-- `CPU::CLV`. -/
def CLV (s : St) (cy : Nat) : St × Nat :=
  ({ s with P := SetFlag s.P FLAG_OVERFLOW false }, cy + 1)

/-- `CPU::SEC`. -/
def SEC (s : St) (cy : Nat) : St × Nat :=
  ({ s with P := SetFlag s.P FLAG_CARRY true }, cy + 1)

/-- `CPU::SED`. -/
def SED (s : St) (cy : Nat) : St × Nat :=
  ({ s with P := SetFlag s.P FLAG_DECIMAL true }, cy + 1)

/-- `CPU::SEI`. -/
def SEI (s : St) (cy : Nat) : St × Nat :=
  ({ s with P := SetFlag s.P FLAG_INTERRUPT true }, cy + 1)

-- ====================================================================
-- System instructions (src/Instructions.cpp)
-- ====================================================================

/-- `CPU::BRK`: `PC++`, push PC, push P with B and Unused set, set I,
load PC from the IRQ/BRK vector. -/
def BRK (s : St) (cy : Nat) : St × Nat :=
  let s := { s with PC := (s.PC + 1) % 65536 }
  let cy := cy + 1
  let (s, cy) := PushWordToStack s s.PC cy
  let (s, cy) := PushByteToStack s (s.P ||| FLAG_BREAK ||| FLAG_UNUSED) cy
  let s := { s with P := SetFlag s.P FLAG_INTERRUPT true }
  let (v, s, cy) := MemReadWord s VECTOR_IRQ_BRK cy
  ({ s with PC := v }, cy)

/-- `CPU::NOP`. -/
def NOP (s : St) (cy : Nat) : St × Nat :=
  (s, cy + 1)

-- ====================================================================
-- Construction and reset (src/CPU.cpp)
-- ====================================================================

/-- `CPU::CPU()`: all registers, P and TotalCycles zero; the memory
(a separate object in the C++) is the one the host constructed. -/
def CPUinit (m : Mem) : St :=
  { A := 0, X := 0, Y := 0, PC := 0, SP := 0, P := 0, TotalCycles := 0, mem := m }

/-- `CPU::Reset`: PC from the reset vector (2 cycles charged straight
to TotalCycles), SP := 0xFD, P := Unused with Interrupt set, registers
cleared, 6 further cycles. -/
def Reset (s : St) : St :=
  let (v, s, tc) := MemReadWord s VECTOR_RESET s.TotalCycles
  { s with PC := v, SP := STACK_POINTER_RESET,
           P := SetFlag FLAG_UNUSED FLAG_INTERRUPT true,
           A := 0, X := 0, Y := 0, TotalCycles := tc + 6 }

/-- Modelled from the spec: the named opcode byte constants of the
missing header (spec section 6: every legal opcode is a named byte constant
with the canonical NMOS 6502 value). -/
def INS_LDA_IM : Nat := 0xA9
def INS_LDA_ZP : Nat := 0xA5
def INS_LDA_ZPX : Nat := 0xB5
def INS_LDA_ABS : Nat := 0xAD
def INS_LDA_ABSX : Nat := 0xBD
def INS_LDA_ABSY : Nat := 0xB9
def INS_LDA_INDX : Nat := 0xA1
def INS_LDA_INDY : Nat := 0xB1
def INS_LDX_IM : Nat := 0xA2
def INS_LDX_ZP : Nat := 0xA6
def INS_LDX_ZPY : Nat := 0xB6
def INS_LDX_ABS : Nat := 0xAE
def INS_LDX_ABSY : Nat := 0xBE
def INS_LDY_IM : Nat := 0xA0
def INS_LDY_ZP : Nat := 0xA4
def INS_LDY_ZPX : Nat := 0xB4
def INS_LDY_ABS : Nat := 0xAC
def INS_LDY_ABSX : Nat := 0xBC
def INS_STA_ZP : Nat := 0x85
def INS_STA_ZPX : Nat := 0x95
def INS_STA_ABS : Nat := 0x8D
def INS_STA_ABSX : Nat := 0x9D
def INS_STA_ABSY : Nat := 0x99
def INS_STA_INDX : Nat := 0x81
def INS_STA_INDY : Nat := 0x91
def INS_STX_ZP : Nat := 0x86
def INS_STX_ZPY : Nat := 0x96
def INS_STX_ABS : Nat := 0x8E
def INS_STY_ZP : Nat := 0x84
def INS_STY_ZPX : Nat := 0x94
def INS_STY_ABS : Nat := 0x8C
def INS_TAX : Nat := 0xAA
def INS_TAY : Nat := 0xA8
def INS_TXA : Nat := 0x8A
def INS_TYA : Nat := 0x98
def INS_TSX : Nat := 0xBA
def INS_TXS : Nat := 0x9A
def INS_PHA : Nat := 0x48
def INS_PHP : Nat := 0x08
def INS_PLA : Nat := 0x68
def INS_PLP : Nat := 0x28
def INS_AND_IM : Nat := 0x29
def INS_AND_ZP : Nat := 0x25
def INS_AND_ZPX : Nat := 0x35
def INS_AND_ABS : Nat := 0x2D
def INS_AND_ABSX : Nat := 0x3D
def INS_AND_ABSY : Nat := 0x39
def INS_AND_INDX : Nat := 0x21
def INS_AND_INDY : Nat := 0x31
def INS_ORA_IM : Nat := 0x09
def INS_ORA_ZP : Nat := 0x05
def INS_ORA_ZPX : Nat := 0x15
def INS_ORA_ABS : Nat := 0x0D
def INS_ORA_ABSX : Nat := 0x1D
def INS_ORA_ABSY : Nat := 0x19
def INS_ORA_INDX : Nat := 0x01
def INS_ORA_INDY : Nat := 0x11
def INS_EOR_IM : Nat := 0x49
def INS_EOR_ZP : Nat := 0x45
def INS_EOR_ZPX : Nat := 0x55
def INS_EOR_ABS : Nat := 0x4D
def INS_EOR_ABSX : Nat := 0x5D
def INS_EOR_ABSY : Nat := 0x59
def INS_EOR_INDX : Nat := 0x41
def INS_EOR_INDY : Nat := 0x51
def INS_BIT_ZP : Nat := 0x24
def INS_BIT_ABS : Nat := 0x2C
def INS_ADC_IM : Nat := 0x69
def INS_ADC_ZP : Nat := 0x65
def INS_ADC_ZPX : Nat := 0x75
def INS_ADC_ABS : Nat := 0x6D
def INS_ADC_ABSX : Nat := 0x7D
def INS_ADC_ABSY : Nat := 0x79
def INS_ADC_INDX : Nat := 0x61
def INS_ADC_INDY : Nat := 0x71
def INS_SBC_IM : Nat := 0xE9
def INS_SBC_ZP : Nat := 0xE5
def INS_SBC_ZPX : Nat := 0xF5
def INS_SBC_ABS : Nat := 0xED
def INS_SBC_ABSX : Nat := 0xFD
def INS_SBC_ABSY : Nat := 0xF9
def INS_SBC_INDX : Nat := 0xE1
def INS_SBC_INDY : Nat := 0xF1
def INS_CMP_IM : Nat := 0xC9
def INS_CMP_ZP : Nat := 0xC5
def INS_CMP_ZPX : Nat := 0xD5
def INS_CMP_ABS : Nat := 0xCD
def INS_CMP_ABSX : Nat := 0xDD
def INS_CMP_ABSY : Nat := 0xD9
def INS_CMP_INDX : Nat := 0xC1
def INS_CMP_INDY : Nat := 0xD1
def INS_CPX_IM : Nat := 0xE0
def INS_CPX_ZP : Nat := 0xE4
def INS_CPX_ABS : Nat := 0xEC
def INS_CPY_IM : Nat := 0xC0
def INS_CPY_ZP : Nat := 0xC4
def INS_CPY_ABS : Nat := 0xCC
def INS_INC_ZP : Nat := 0xE6
def INS_INC_ZPX : Nat := 0xF6
def INS_INC_ABS : Nat := 0xEE
def INS_INC_ABSX : Nat := 0xFE
def INS_INX : Nat := 0xE8
def INS_INY : Nat := 0xC8
def INS_DEC_ZP : Nat := 0xC6
def INS_DEC_ZPX : Nat := 0xD6
def INS_DEC_ABS : Nat := 0xCE
def INS_DEC_ABSX : Nat := 0xDE
def INS_DEX : Nat := 0xCA
def INS_DEY : Nat := 0x88
def INS_ASL_ACC : Nat := 0x0A
def INS_ASL_ZP : Nat := 0x06
def INS_ASL_ZPX : Nat := 0x16
def INS_ASL_ABS : Nat := 0x0E
def INS_ASL_ABSX : Nat := 0x1E
def INS_LSR_ACC : Nat := 0x4A
def INS_LSR_ZP : Nat := 0x46
def INS_LSR_ZPX : Nat := 0x56
def INS_LSR_ABS : Nat := 0x4E
def INS_LSR_ABSX : Nat := 0x5E
def INS_ROL_ACC : Nat := 0x2A
def INS_ROL_ZP : Nat := 0x26
def INS_ROL_ZPX : Nat := 0x36
def INS_ROL_ABS : Nat := 0x2E
def INS_ROL_ABSX : Nat := 0x3E
def INS_ROR_ACC : Nat := 0x6A
def INS_ROR_ZP : Nat := 0x66
def INS_ROR_ZPX : Nat := 0x76
def INS_ROR_ABS : Nat := 0x6E
def INS_ROR_ABSX : Nat := 0x7E
def INS_JMP_ABS : Nat := 0x4C
def INS_JMP_IND : Nat := 0x6C
def INS_JSR : Nat := 0x20
def INS_RTS : Nat := 0x60
def INS_RTI : Nat := 0x40
def INS_BCC : Nat := 0x90
def INS_BCS : Nat := 0xB0
def INS_BEQ : Nat := 0xF0
def INS_BMI : Nat := 0x30
def INS_BNE : Nat := 0xD0
def INS_BPL : Nat := 0x10
def INS_BVC : Nat := 0x50
def INS_BVS : Nat := 0x70
def INS_CLC : Nat := 0x18
def INS_CLD : Nat := 0xD8
def INS_CLI : Nat := 0x58
def INS_CLV : Nat := 0xB8
def INS_SEC : Nat := 0x38
def INS_SED : Nat := 0xF8
def INS_SEI : Nat := 0x78
def INS_BRK : Nat := 0x00
def INS_NOP : Nat := 0xEA

set_option maxRecDepth 8192 in
/-- `CPU::Execute` dispatch (src/Instructions.cpp): the exhaustive
switch over opcode bytes, after the opcode fetch.  Opcode byte values
are modelled from the spec (the canonical NMOS 6502 values of the 151
named `INS_*` constants of the missing `CPU.h`, spec section 6); read-class
indexed modes use the page-cross penalty (spec section 4.3), write and
read-modify-write forms pass an explicit `false` as in the source.
An unknown opcode charges one extra cycle and continues. -/
def ExecOp (opcode : Nat) (s : St) (cy : Nat) : St × Nat :=
  if opcode = 0xA9 then -- INS_LDA_IM
    let (addr, s, cy) := AddrImmediate s cy
    LDA s cy addr
  else if opcode = 0xA5 then -- INS_LDA_ZP
    let (addr, s, cy) := AddrZeroPage s cy
    LDA s cy addr
  else if opcode = 0xB5 then -- INS_LDA_ZPX
    let (addr, s, cy) := AddrZeroPageX s cy
    LDA s cy addr
  else if opcode = 0xAD then -- INS_LDA_ABS
    let (addr, s, cy) := AddrAbsolute s cy
    LDA s cy addr
  else if opcode = 0xBD then -- INS_LDA_ABSX
    let (addr, s, cy) := AddrAbsoluteX s cy true
    LDA s cy addr
  else if opcode = 0xB9 then -- INS_LDA_ABSY
    let (addr, s, cy) := AddrAbsoluteY s cy true
    LDA s cy addr
  else if opcode = 0xA1 then -- INS_LDA_INDX
    let (addr, s, cy) := AddrIndexedIndirect s cy
    LDA s cy addr
  else if opcode = 0xB1 then -- INS_LDA_INDY
    let (addr, s, cy) := AddrIndirectIndexed s cy true
    LDA s cy addr
  else if opcode = 0xA2 then -- INS_LDX_IM
    let (addr, s, cy) := AddrImmediate s cy
    LDX s cy addr
  else if opcode = 0xA6 then -- INS_LDX_ZP
    let (addr, s, cy) := AddrZeroPage s cy
    LDX s cy addr
  else if opcode = 0xB6 then -- INS_LDX_ZPY
    let (addr, s, cy) := AddrZeroPageY s cy
    LDX s cy addr
  else if opcode = 0xAE then -- INS_LDX_ABS
    let (addr, s, cy) := AddrAbsolute s cy
    LDX s cy addr
  else if opcode = 0xBE then -- INS_LDX_ABSY
    let (addr, s, cy) := AddrAbsoluteY s cy true
    LDX s cy addr
  else if opcode = 0xA0 then -- INS_LDY_IM
    let (addr, s, cy) := AddrImmediate s cy
    LDY s cy addr
  else if opcode = 0xA4 then -- INS_LDY_ZP
    let (addr, s, cy) := AddrZeroPage s cy
    LDY s cy addr
  else if opcode = 0xB4 then -- INS_LDY_ZPX
    let (addr, s, cy) := AddrZeroPageX s cy
    LDY s cy addr
  else if opcode = 0xAC then -- INS_LDY_ABS
    let (addr, s, cy) := AddrAbsolute s cy
    LDY s cy addr
  else if opcode = 0xBC then -- INS_LDY_ABSX
    let (addr, s, cy) := AddrAbsoluteX s cy true
    LDY s cy addr
  else if opcode = 0x85 then -- INS_STA_ZP
    let (addr, s, cy) := AddrZeroPage s cy
    STA s cy addr
  else if opcode = 0x95 then -- INS_STA_ZPX
    let (addr, s, cy) := AddrZeroPageX s cy
    STA s cy addr
  else if opcode = 0x8D then -- INS_STA_ABS
    let (addr, s, cy) := AddrAbsolute s cy
    STA s cy addr
  else if opcode = 0x9D then -- INS_STA_ABSX
    let (addr, s, cy) := AddrAbsoluteX s cy false
    STA s cy addr
  else if opcode = 0x99 then -- INS_STA_ABSY
    let (addr, s, cy) := AddrAbsoluteY s cy false
    STA s cy addr
  else if opcode = 0x81 then -- INS_STA_INDX
    let (addr, s, cy) := AddrIndexedIndirect s cy
    STA s cy addr
  else if opcode = 0x91 then -- INS_STA_INDY
    let (addr, s, cy) := AddrIndirectIndexed s cy false
    STA s cy addr
  else if opcode = 0x86 then -- INS_STX_ZP
    let (addr, s, cy) := AddrZeroPage s cy
    STX s cy addr
  else if opcode = 0x96 then -- INS_STX_ZPY
    let (addr, s, cy) := AddrZeroPageY s cy
    STX s cy addr
  else if opcode = 0x8E then -- INS_STX_ABS
    let (addr, s, cy) := AddrAbsolute s cy
    STX s cy addr
  else if opcode = 0x84 then -- INS_STY_ZP
    let (addr, s, cy) := AddrZeroPage s cy
    STY s cy addr
  else if opcode = 0x94 then -- INS_STY_ZPX
    let (addr, s, cy) := AddrZeroPageX s cy
    STY s cy addr
  else if opcode = 0x8C then -- INS_STY_ABS
    let (addr, s, cy) := AddrAbsolute s cy
    STY s cy addr
  else if opcode = 0xAA then -- INS_TAX
    TAX s cy
  else if opcode = 0xA8 then -- INS_TAY
    TAY s cy
  else if opcode = 0x8A then -- INS_TXA
    TXA s cy
  else if opcode = 0x98 then -- INS_TYA
    TYA s cy
  else if opcode = 0xBA then -- INS_TSX
    TSX s cy
  else if opcode = 0x9A then -- INS_TXS
    TXS s cy
  else if opcode = 0x48 then -- INS_PHA
    PHA s cy
  else if opcode = 0x08 then -- INS_PHP
    PHP s cy
  else if opcode = 0x68 then -- INS_PLA
    PLA s cy
  else if opcode = 0x28 then -- INS_PLP
    PLP s cy
  else if opcode = 0x29 then -- INS_AND_IM
    let (addr, s, cy) := AddrImmediate s cy
    AND s cy addr
  else if opcode = 0x25 then -- INS_AND_ZP
    let (addr, s, cy) := AddrZeroPage s cy
    AND s cy addr
  else if opcode = 0x35 then -- INS_AND_ZPX
    let (addr, s, cy) := AddrZeroPageX s cy
    AND s cy addr
  else if opcode = 0x2D then -- INS_AND_ABS
    let (addr, s, cy) := AddrAbsolute s cy
    AND s cy addr
  else if opcode = 0x3D then -- INS_AND_ABSX
    let (addr, s, cy) := AddrAbsoluteX s cy true
    AND s cy addr
  else if opcode = 0x39 then -- INS_AND_ABSY
    let (addr, s, cy) := AddrAbsoluteY s cy true
    AND s cy addr
  else if opcode = 0x21 then -- INS_AND_INDX
    let (addr, s, cy) := AddrIndexedIndirect s cy
    AND s cy addr
  else if opcode = 0x31 then -- INS_AND_INDY
    let (addr, s, cy) := AddrIndirectIndexed s cy true
    AND s cy addr
  else if opcode = 0x09 then -- INS_ORA_IM
    let (addr, s, cy) := AddrImmediate s cy
    ORA s cy addr
  else if opcode = 0x05 then -- INS_ORA_ZP
    let (addr, s, cy) := AddrZeroPage s cy
    ORA s cy addr
  else if opcode = 0x15 then -- INS_ORA_ZPX
    let (addr, s, cy) := AddrZeroPageX s cy
    ORA s cy addr
  else if opcode = 0x0D then -- INS_ORA_ABS
    let (addr, s, cy) := AddrAbsolute s cy
    ORA s cy addr
  else if opcode = 0x1D then -- INS_ORA_ABSX
    let (addr, s, cy) := AddrAbsoluteX s cy true
    ORA s cy addr
  else if opcode = 0x19 then -- INS_ORA_ABSY
    let (addr, s, cy) := AddrAbsoluteY s cy true
    ORA s cy addr
  else if opcode = 0x01 then -- INS_ORA_INDX
    let (addr, s, cy) := AddrIndexedIndirect s cy
    ORA s cy addr
  else if opcode = 0x11 then -- INS_ORA_INDY
    let (addr, s, cy) := AddrIndirectIndexed s cy true
    ORA s cy addr
  else if opcode = 0x49 then -- INS_EOR_IM
    let (addr, s, cy) := AddrImmediate s cy
    EOR s cy addr
  else if opcode = 0x45 then -- INS_EOR_ZP
    let (addr, s, cy) := AddrZeroPage s cy
    EOR s cy addr
  else if opcode = 0x55 then -- INS_EOR_ZPX
    let (addr, s, cy) := AddrZeroPageX s cy
    EOR s cy addr
  else if opcode = 0x4D then -- INS_EOR_ABS
    let (addr, s, cy) := AddrAbsolute s cy
    EOR s cy addr
  else if opcode = 0x5D then -- INS_EOR_ABSX
    let (addr, s, cy) := AddrAbsoluteX s cy true
    EOR s cy addr
  else if opcode = 0x59 then -- INS_EOR_ABSY
    let (addr, s, cy) := AddrAbsoluteY s cy true
    EOR s cy addr
  else if opcode = 0x41 then -- INS_EOR_INDX
    let (addr, s, cy) := AddrIndexedIndirect s cy
    EOR s cy addr
  else if opcode = 0x51 then -- INS_EOR_INDY
    let (addr, s, cy) := AddrIndirectIndexed s cy true
    EOR s cy addr
  else if opcode = 0x24 then -- INS_BIT_ZP
    let (addr, s, cy) := AddrZeroPage s cy
    BIT s cy addr
  else if opcode = 0x2C then -- INS_BIT_ABS
    let (addr, s, cy) := AddrAbsolute s cy
    BIT s cy addr
  else if opcode = 0x69 then -- INS_ADC_IM
    let (addr, s, cy) := AddrImmediate s cy
    ADC s cy addr
  else if opcode = 0x65 then -- INS_ADC_ZP
    let (addr, s, cy) := AddrZeroPage s cy
    ADC s cy addr
  else if opcode = 0x75 then -- INS_ADC_ZPX
    let (addr, s, cy) := AddrZeroPageX s cy
    ADC s cy addr
  else if opcode = 0x6D then -- INS_ADC_ABS
    let (addr, s, cy) := AddrAbsolute s cy
    ADC s cy addr
  else if opcode = 0x7D then -- INS_ADC_ABSX
    let (addr, s, cy) := AddrAbsoluteX s cy true
    ADC s cy addr
  else if opcode = 0x79 then -- INS_ADC_ABSY
    let (addr, s, cy) := AddrAbsoluteY s cy true
    ADC s cy addr
  else if opcode = 0x61 then -- INS_ADC_INDX
    let (addr, s, cy) := AddrIndexedIndirect s cy
    ADC s cy addr
  else if opcode = 0x71 then -- INS_ADC_INDY
    let (addr, s, cy) := AddrIndirectIndexed s cy true
    ADC s cy addr
  else if opcode = 0xE9 then -- INS_SBC_IM
    let (addr, s, cy) := AddrImmediate s cy
    SBC s cy addr
  else if opcode = 0xE5 then -- INS_SBC_ZP
    let (addr, s, cy) := AddrZeroPage s cy
    SBC s cy addr
  else if opcode = 0xF5 then -- INS_SBC_ZPX
    let (addr, s, cy) := AddrZeroPageX s cy
    SBC s cy addr
  else if opcode = 0xED then -- INS_SBC_ABS
    let (addr, s, cy) := AddrAbsolute s cy
    SBC s cy addr
  else if opcode = 0xFD then -- INS_SBC_ABSX
    let (addr, s, cy) := AddrAbsoluteX s cy true
    SBC s cy addr
  else if opcode = 0xF9 then -- INS_SBC_ABSY
    let (addr, s, cy) := AddrAbsoluteY s cy true
    SBC s cy addr
  else if opcode = 0xE1 then -- INS_SBC_INDX
    let (addr, s, cy) := AddrIndexedIndirect s cy
    SBC s cy addr
  else if opcode = 0xF1 then -- INS_SBC_INDY
    let (addr, s, cy) := AddrIndirectIndexed s cy true
    SBC s cy addr
  else if opcode = 0xC9 then -- INS_CMP_IM
    let (addr, s, cy) := AddrImmediate s cy
    CMP s cy addr
  else if opcode = 0xC5 then -- INS_CMP_ZP
    let (addr, s, cy) := AddrZeroPage s cy
    CMP s cy addr
  else if opcode = 0xD5 then -- INS_CMP_ZPX
    let (addr, s, cy) := AddrZeroPageX s cy
    CMP s cy addr
  else if opcode = 0xCD then -- INS_CMP_ABS
    let (addr, s, cy) := AddrAbsolute s cy
    CMP s cy addr
  else if opcode = 0xDD then -- INS_CMP_ABSX
    let (addr, s, cy) := AddrAbsoluteX s cy true
    CMP s cy addr
  else if opcode = 0xD9 then -- INS_CMP_ABSY
    let (addr, s, cy) := AddrAbsoluteY s cy true
    CMP s cy addr
  else if opcode = 0xC1 then -- INS_CMP_INDX
    let (addr, s, cy) := AddrIndexedIndirect s cy
    CMP s cy addr
  else if opcode = 0xD1 then -- INS_CMP_INDY
    let (addr, s, cy) := AddrIndirectIndexed s cy true
    CMP s cy addr
  else if opcode = 0xE0 then -- INS_CPX_IM
    let (addr, s, cy) := AddrImmediate s cy
    CPX s cy addr
  else if opcode = 0xE4 then -- INS_CPX_ZP
    let (addr, s, cy) := AddrZeroPage s cy
    CPX s cy addr
  else if opcode = 0xEC then -- INS_CPX_ABS
    let (addr, s, cy) := AddrAbsolute s cy
    CPX s cy addr
  else if opcode = 0xC0 then -- INS_CPY_IM
    let (addr, s, cy) := AddrImmediate s cy
    CPY s cy addr
  else if opcode = 0xC4 then -- INS_CPY_ZP
    let (addr, s, cy) := AddrZeroPage s cy
    CPY s cy addr
  else if opcode = 0xCC then -- INS_CPY_ABS
    let (addr, s, cy) := AddrAbsolute s cy
    CPY s cy addr
  else if opcode = 0xE6 then -- INS_INC_ZP
    let (addr, s, cy) := AddrZeroPage s cy
    INC s cy addr
  else if opcode = 0xF6 then -- INS_INC_ZPX
    let (addr, s, cy) := AddrZeroPageX s cy
    INC s cy addr
  else if opcode = 0xEE then -- INS_INC_ABS
    let (addr, s, cy) := AddrAbsolute s cy
    INC s cy addr
  else if opcode = 0xFE then -- INS_INC_ABSX
    let (addr, s, cy) := AddrAbsoluteX s cy false
    INC s cy addr
  else if opcode = 0xE8 then -- INS_INX
    INX s cy
  else if opcode = 0xC8 then -- INS_INY
    INY s cy
  else if opcode = 0xC6 then -- INS_DEC_ZP
    let (addr, s, cy) := AddrZeroPage s cy
    DEC s cy addr
  else if opcode = 0xD6 then -- INS_DEC_ZPX
    let (addr, s, cy) := AddrZeroPageX s cy
    DEC s cy addr
  else if opcode = 0xCE then -- INS_DEC_ABS
    let (addr, s, cy) := AddrAbsolute s cy
    DEC s cy addr
  else if opcode = 0xDE then -- INS_DEC_ABSX
    let (addr, s, cy) := AddrAbsoluteX s cy false
    DEC s cy addr
  else if opcode = 0xCA then -- INS_DEX
    DEX s cy
  else if opcode = 0x88 then -- INS_DEY
    DEY s cy
  else if opcode = 0x0A then -- INS_ASL_ACC
    ASL_ACC s cy
  else if opcode = 0x06 then -- INS_ASL_ZP
    let (addr, s, cy) := AddrZeroPage s cy
    ASL_MEM s cy addr
  else if opcode = 0x16 then -- INS_ASL_ZPX
    let (addr, s, cy) := AddrZeroPageX s cy
    ASL_MEM s cy addr
  else if opcode = 0x0E then -- INS_ASL_ABS
    let (addr, s, cy) := AddrAbsolute s cy
    ASL_MEM s cy addr
  else if opcode = 0x1E then -- INS_ASL_ABSX
    let (addr, s, cy) := AddrAbsoluteX s cy false
    ASL_MEM s cy addr
  else if opcode = 0x4A then -- INS_LSR_ACC
    LSR_ACC s cy
  else if opcode = 0x46 then -- INS_LSR_ZP
    let (addr, s, cy) := AddrZeroPage s cy
    LSR_MEM s cy addr
  else if opcode = 0x56 then -- INS_LSR_ZPX
    let (addr, s, cy) := AddrZeroPageX s cy
    LSR_MEM s cy addr
  else if opcode = 0x4E then -- INS_LSR_ABS
    let (addr, s, cy) := AddrAbsolute s cy
    LSR_MEM s cy addr
  else if opcode = 0x5E then -- INS_LSR_ABSX
    let (addr, s, cy) := AddrAbsoluteX s cy false
    LSR_MEM s cy addr
  else if opcode = 0x2A then -- INS_ROL_ACC
    ROL_ACC s cy
  else if opcode = 0x26 then -- INS_ROL_ZP
    let (addr, s, cy) := AddrZeroPage s cy
    ROL_MEM s cy addr
  else if opcode = 0x36 then -- INS_ROL_ZPX
    let (addr, s, cy) := AddrZeroPageX s cy
    ROL_MEM s cy addr
  else if opcode = 0x2E then -- INS_ROL_ABS
    let (addr, s, cy) := AddrAbsolute s cy
    ROL_MEM s cy addr
  else if opcode = 0x3E then -- INS_ROL_ABSX
    let (addr, s, cy) := AddrAbsoluteX s cy false
    ROL_MEM s cy addr
  else if opcode = 0x6A then -- INS_ROR_ACC
    ROR_ACC s cy
  else if opcode = 0x66 then -- INS_ROR_ZP
    let (addr, s, cy) := AddrZeroPage s cy
    ROR_MEM s cy addr
  else if opcode = 0x76 then -- INS_ROR_ZPX
    let (addr, s, cy) := AddrZeroPageX s cy
    ROR_MEM s cy addr
  else if opcode = 0x6E then -- INS_ROR_ABS
    let (addr, s, cy) := AddrAbsolute s cy
    ROR_MEM s cy addr
  else if opcode = 0x7E then -- INS_ROR_ABSX
    let (addr, s, cy) := AddrAbsoluteX s cy false
    ROR_MEM s cy addr
  else if opcode = 0x4C then -- INS_JMP_ABS
    let (addr, s, cy) := AddrAbsolute s cy
    JMP s cy addr
  else if opcode = 0x6C then -- INS_JMP_IND
    let (indirectAddr, s, cy) := FetchWord s cy
    if (indirectAddr &&& 0x00FF) = 0x00FF then
      let (lowByte, s, cy) := MemReadByte s indirectAddr cy
      let (highByte, s, cy) := MemReadByte s (indirectAddr &&& 0xFF00) cy
      JMP s cy (highByte * 256 + lowByte)
    else
      let (targetAddr, s, cy) := MemReadWord s indirectAddr cy
      JMP s cy targetAddr
  else if opcode = 0x20 then -- INS_JSR
    let (addr, s, cy) := AddrAbsolute s cy
    JSR s cy addr
  else if opcode = 0x60 then -- INS_RTS
    RTS s cy
  else if opcode = 0x40 then -- INS_RTI
    RTI s cy
  else if opcode = 0x90 then -- INS_BCC
    BranchIf s cy (!(GetFlag s FLAG_CARRY))
  else if opcode = 0xB0 then -- INS_BCS
    BranchIf s cy (GetFlag s FLAG_CARRY)
  else if opcode = 0xF0 then -- INS_BEQ
    BranchIf s cy (GetFlag s FLAG_ZERO)
  else if opcode = 0x30 then -- INS_BMI
    BranchIf s cy (GetFlag s FLAG_NEGATIVE)
  else if opcode = 0xD0 then -- INS_BNE
    BranchIf s cy (!(GetFlag s FLAG_ZERO))
  else if opcode = 0x10 then -- INS_BPL
    BranchIf s cy (!(GetFlag s FLAG_NEGATIVE))
  else if opcode = 0x50 then -- INS_BVC
    BranchIf s cy (!(GetFlag s FLAG_OVERFLOW))
  else if opcode = 0x70 then -- INS_BVS
    BranchIf s cy (GetFlag s FLAG_OVERFLOW)
  else if opcode = 0x18 then -- INS_CLC
    CLC s cy
  else if opcode = 0xD8 then -- INS_CLD
    CLD s cy
  else if opcode = 0x58 then -- INS_CLI
    CLI s cy
  else if opcode = 0xB8 then -- INS_CLV
    CLV s cy
  else if opcode = 0x38 then -- INS_SEC
    SEC s cy
  else if opcode = 0xF8 then -- INS_SED
    SED s cy
  else if opcode = 0x78 then -- INS_SEI
    SEI s cy
  else if opcode = 0x00 then -- INS_BRK
    BRK s cy
  else if opcode = 0xEA then -- INS_NOP
    NOP s cy
  else
    (s, cy + 1)

/-- The 151 legal opcode bytes, in dispatch order. -/
def legalList : List Nat :=
  [0xA9, 0xA5, 0xB5, 0xAD, 0xBD, 0xB9, 0xA1, 0xB1, 0xA2, 0xA6,
   0xB6, 0xAE, 0xBE, 0xA0, 0xA4, 0xB4, 0xAC, 0xBC, 0x85, 0x95,
   0x8D, 0x9D, 0x99, 0x81, 0x91, 0x86, 0x96, 0x8E, 0x84, 0x94,
   0x8C, 0xAA, 0xA8, 0x8A, 0x98, 0xBA, 0x9A, 0x48, 0x08, 0x68,
   0x28, 0x29, 0x25, 0x35, 0x2D, 0x3D, 0x39, 0x21, 0x31, 0x09,
   0x05, 0x15, 0x0D, 0x1D, 0x19, 0x01, 0x11, 0x49, 0x45, 0x55,
   0x4D, 0x5D, 0x59, 0x41, 0x51, 0x24, 0x2C, 0x69, 0x65, 0x75,
   0x6D, 0x7D, 0x79, 0x61, 0x71, 0xE9, 0xE5, 0xF5, 0xED, 0xFD,
   0xF9, 0xE1, 0xF1, 0xC9, 0xC5, 0xD5, 0xCD, 0xDD, 0xD9, 0xC1,
   0xD1, 0xE0, 0xE4, 0xEC, 0xC0, 0xC4, 0xCC, 0xE6, 0xF6, 0xEE,
   0xFE, 0xE8, 0xC8, 0xC6, 0xD6, 0xCE, 0xDE, 0xCA, 0x88, 0x0A,
   0x06, 0x16, 0x0E, 0x1E, 0x4A, 0x46, 0x56, 0x4E, 0x5E, 0x2A,
   0x26, 0x36, 0x2E, 0x3E, 0x6A, 0x66, 0x76, 0x6E, 0x7E, 0x4C,
   0x6C, 0x20, 0x60, 0x40, 0x90, 0xB0, 0xF0, 0x30, 0xD0, 0x10,
   0x50, 0x70, 0x18, 0xD8, 0x58, 0xB8, 0x38, 0xF8, 0x78, 0x00,
   0xEA]

/-- An opcode is legal iff the dispatch has a case for it. -/
def isLegal (opcode : Nat) : Bool := legalList.contains opcode


/-- `CPU::Execute(Memory&)`: fetch the opcode (1 cycle), dispatch,
add the per-instruction counter to TotalCycles, return it. -/
def Execute (s : St) : St × Nat :=
  let (opcode, s, cy) := FetchByte s 0
  let (s, cy) := ExecOp opcode s cy
  ({ s with TotalCycles := s.TotalCycles + cy }, cy)


-- ====================================================================
-- Generic lemmas about flags and dispatch
-- ====================================================================

/-- Projecting a status bit out of `SetFlag`: for bit positions inside
the 8-bit byte, the bit is replaced when the mask covers it and kept
otherwise. -/
theorem SetFlag_testBit (P m : Nat) (b : Bool) (i : Nat) (hi : Nat.testBit 255 i = true) :
    (SetFlag P m b).testBit i = if m.testBit i then b else P.testBit i := by
  unfold SetFlag
  cases b <;> simp [Nat.testBit_or, Nat.testBit_and, Nat.testBit_xor, hi] <;>
    rcases h : m.testBit i <;> simp [h]

/-- First projection commutes with `ite`. -/
theorem fst_ite (c : Prop) [Decidable c] (a b : St × Nat) :
    (if c then a else b).1 = if c then a.1 else b.1 := by
  split <;> rfl

/-- Second projection commutes with `ite`. -/
theorem snd_ite (c : Prop) [Decidable c] (a b : St × Nat) :
    (if c then a else b).2 = if c then a.2 else b.2 := by
  split <;> rfl

/-- The `P` field commutes with `ite`. -/
theorem P_ite (c : Prop) [Decidable c] (a b : St) :
    (if c then a else b).P = if c then a.P else b.P := by
  split <;> rfl

/-- The `mem` field commutes with `ite`. -/
theorem mem_ite (c : Prop) [Decidable c] (a b : St) :
    (if c then a else b).mem = if c then a.mem else b.mem := by
  split <;> rfl


/-- `Nat.testBit` commutes with `ite`. -/
theorem testBit_ite (c : Prop) [Decidable c] (a b i : Nat) :
    (if c then a else b).testBit i = if c then a.testBit i else b.testBit i := by
  split <;> rfl

/-- Reducing a byte modulo 256 keeps bit 5. -/
theorem testBit5_mod256 (v : Nat) : (v % 256).testBit 5 = v.testBit 5 := by
  have h : (256 : Nat) = 2 ^ 8 := by norm_num
  rw [h, Nat.testBit_mod_two_pow]
  simp

/-- Dispatch equation for `INS_LDA_IM`. -/
theorem ExecOp_eq_0xA9 (s : St) (cy : Nat) :
    ExecOp 0xA9 s cy =
      (let (addr, s, cy) := AddrImmediate s cy
       LDA s cy addr) := by rfl

/-- Dispatch equation for `INS_LDA_ZP`. -/
theorem ExecOp_eq_0xA5 (s : St) (cy : Nat) :
    ExecOp 0xA5 s cy =
      (let (addr, s, cy) := AddrZeroPage s cy
       LDA s cy addr) := by rfl

/-- Dispatch equation for `INS_LDA_ZPX`. -/
theorem ExecOp_eq_0xB5 (s : St) (cy : Nat) :
    ExecOp 0xB5 s cy =
      (let (addr, s, cy) := AddrZeroPageX s cy
       LDA s cy addr) := by rfl

/-- Dispatch equation for `INS_LDA_ABS`. -/
theorem ExecOp_eq_0xAD (s : St) (cy : Nat) :
    ExecOp 0xAD s cy =
      (let (addr, s, cy) := AddrAbsolute s cy
       LDA s cy addr) := by rfl

/-- Dispatch equation for `INS_LDA_ABSX`. -/
theorem ExecOp_eq_0xBD (s : St) (cy : Nat) :
    ExecOp 0xBD s cy =
      (let (addr, s, cy) := AddrAbsoluteX s cy true
       LDA s cy addr) := by rfl

/-- Dispatch equation for `INS_LDA_ABSY`. -/
theorem ExecOp_eq_0xB9 (s : St) (cy : Nat) :
    ExecOp 0xB9 s cy =
      (let (addr, s, cy) := AddrAbsoluteY s cy true
       LDA s cy addr) := by rfl

/-- Dispatch equation for `INS_LDA_INDX`. -/
theorem ExecOp_eq_0xA1 (s : St) (cy : Nat) :
    ExecOp 0xA1 s cy =
      (let (addr, s, cy) := AddrIndexedIndirect s cy
       LDA s cy addr) := by rfl

/-- Dispatch equation for `INS_LDA_INDY`. -/
theorem ExecOp_eq_0xB1 (s : St) (cy : Nat) :
    ExecOp 0xB1 s cy =
      (let (addr, s, cy) := AddrIndirectIndexed s cy true
       LDA s cy addr) := by rfl

/-- Dispatch equation for `INS_LDX_IM`. -/
theorem ExecOp_eq_0xA2 (s : St) (cy : Nat) :
    ExecOp 0xA2 s cy =
      (let (addr, s, cy) := AddrImmediate s cy
       LDX s cy addr) := by rfl

/-- Dispatch equation for `INS_LDX_ZP`. -/
theorem ExecOp_eq_0xA6 (s : St) (cy : Nat) :
    ExecOp 0xA6 s cy =
      (let (addr, s, cy) := AddrZeroPage s cy
       LDX s cy addr) := by rfl

/-- Dispatch equation for `INS_LDX_ZPY`. -/
theorem ExecOp_eq_0xB6 (s : St) (cy : Nat) :
    ExecOp 0xB6 s cy =
      (let (addr, s, cy) := AddrZeroPageY s cy
       LDX s cy addr) := by rfl

/-- Dispatch equation for `INS_LDX_ABS`. -/
theorem ExecOp_eq_0xAE (s : St) (cy : Nat) :
    ExecOp 0xAE s cy =
      (let (addr, s, cy) := AddrAbsolute s cy
       LDX s cy addr) := by rfl

/-- Dispatch equation for `INS_LDX_ABSY`. -/
theorem ExecOp_eq_0xBE (s : St) (cy : Nat) :
    ExecOp 0xBE s cy =
      (let (addr, s, cy) := AddrAbsoluteY s cy true
       LDX s cy addr) := by rfl

/-- Dispatch equation for `INS_LDY_IM`. -/
theorem ExecOp_eq_0xA0 (s : St) (cy : Nat) :
    ExecOp 0xA0 s cy =
      (let (addr, s, cy) := AddrImmediate s cy
       LDY s cy addr) := by rfl

/-- Dispatch equation for `INS_LDY_ZP`. -/
theorem ExecOp_eq_0xA4 (s : St) (cy : Nat) :
    ExecOp 0xA4 s cy =
      (let (addr, s, cy) := AddrZeroPage s cy
       LDY s cy addr) := by rfl

/-- Dispatch equation for `INS_LDY_ZPX`. -/
theorem ExecOp_eq_0xB4 (s : St) (cy : Nat) :
    ExecOp 0xB4 s cy =
      (let (addr, s, cy) := AddrZeroPageX s cy
       LDY s cy addr) := by rfl

/-- Dispatch equation for `INS_LDY_ABS`. -/
theorem ExecOp_eq_0xAC (s : St) (cy : Nat) :
    ExecOp 0xAC s cy =
      (let (addr, s, cy) := AddrAbsolute s cy
       LDY s cy addr) := by rfl

/-- Dispatch equation for `INS_LDY_ABSX`. -/
theorem ExecOp_eq_0xBC (s : St) (cy : Nat) :
    ExecOp 0xBC s cy =
      (let (addr, s, cy) := AddrAbsoluteX s cy true
       LDY s cy addr) := by rfl

/-- Dispatch equation for `INS_STA_ZP`. -/
theorem ExecOp_eq_0x85 (s : St) (cy : Nat) :
    ExecOp 0x85 s cy =
      (let (addr, s, cy) := AddrZeroPage s cy
       STA s cy addr) := by rfl

/-- Dispatch equation for `INS_STA_ZPX`. -/
theorem ExecOp_eq_0x95 (s : St) (cy : Nat) :
    ExecOp 0x95 s cy =
      (let (addr, s, cy) := AddrZeroPageX s cy
       STA s cy addr) := by rfl

/-- Dispatch equation for `INS_STA_ABS`. -/
theorem ExecOp_eq_0x8D (s : St) (cy : Nat) :
    ExecOp 0x8D s cy =
      (let (addr, s, cy) := AddrAbsolute s cy
       STA s cy addr) := by rfl

/-- Dispatch equation for `INS_STA_ABSX`. -/
theorem ExecOp_eq_0x9D (s : St) (cy : Nat) :
    ExecOp 0x9D s cy =
      (let (addr, s, cy) := AddrAbsoluteX s cy false
       STA s cy addr) := by rfl

/-- Dispatch equation for `INS_STA_ABSY`. -/
theorem ExecOp_eq_0x99 (s : St) (cy : Nat) :
    ExecOp 0x99 s cy =
      (let (addr, s, cy) := AddrAbsoluteY s cy false
       STA s cy addr) := by rfl

/-- Dispatch equation for `INS_STA_INDX`. -/
theorem ExecOp_eq_0x81 (s : St) (cy : Nat) :
    ExecOp 0x81 s cy =
      (let (addr, s, cy) := AddrIndexedIndirect s cy
       STA s cy addr) := by rfl

/-- Dispatch equation for `INS_STA_INDY`. -/
theorem ExecOp_eq_0x91 (s : St) (cy : Nat) :
    ExecOp 0x91 s cy =
      (let (addr, s, cy) := AddrIndirectIndexed s cy false
       STA s cy addr) := by rfl

/-- Dispatch equation for `INS_STX_ZP`. -/
theorem ExecOp_eq_0x86 (s : St) (cy : Nat) :
    ExecOp 0x86 s cy =
      (let (addr, s, cy) := AddrZeroPage s cy
       STX s cy addr) := by rfl

/-- Dispatch equation for `INS_STX_ZPY`. -/
theorem ExecOp_eq_0x96 (s : St) (cy : Nat) :
    ExecOp 0x96 s cy =
      (let (addr, s, cy) := AddrZeroPageY s cy
       STX s cy addr) := by rfl

/-- Dispatch equation for `INS_STX_ABS`. -/
theorem ExecOp_eq_0x8E (s : St) (cy : Nat) :
    ExecOp 0x8E s cy =
      (let (addr, s, cy) := AddrAbsolute s cy
       STX s cy addr) := by rfl

/-- Dispatch equation for `INS_STY_ZP`. -/
theorem ExecOp_eq_0x84 (s : St) (cy : Nat) :
    ExecOp 0x84 s cy =
      (let (addr, s, cy) := AddrZeroPage s cy
       STY s cy addr) := by rfl

/-- Dispatch equation for `INS_STY_ZPX`. -/
theorem ExecOp_eq_0x94 (s : St) (cy : Nat) :
    ExecOp 0x94 s cy =
      (let (addr, s, cy) := AddrZeroPageX s cy
       STY s cy addr) := by rfl

/-- Dispatch equation for `INS_STY_ABS`. -/
theorem ExecOp_eq_0x8C (s : St) (cy : Nat) :
    ExecOp 0x8C s cy =
      (let (addr, s, cy) := AddrAbsolute s cy
       STY s cy addr) := by rfl

/-- Dispatch equation for `INS_TAX`. -/
theorem ExecOp_eq_0xAA (s : St) (cy : Nat) :
    ExecOp 0xAA s cy =
      (TAX s cy) := by rfl

/-- Dispatch equation for `INS_TAY`. -/
theorem ExecOp_eq_0xA8 (s : St) (cy : Nat) :
    ExecOp 0xA8 s cy =
      (TAY s cy) := by rfl

/-- Dispatch equation for `INS_TXA`. -/
theorem ExecOp_eq_0x8A (s : St) (cy : Nat) :
    ExecOp 0x8A s cy =
      (TXA s cy) := by rfl

/-- Dispatch equation for `INS_TYA`. -/
theorem ExecOp_eq_0x98 (s : St) (cy : Nat) :
    ExecOp 0x98 s cy =
      (TYA s cy) := by rfl

/-- Dispatch equation for `INS_TSX`. -/
theorem ExecOp_eq_0xBA (s : St) (cy : Nat) :
    ExecOp 0xBA s cy =
      (TSX s cy) := by rfl

/-- Dispatch equation for `INS_TXS`. -/
theorem ExecOp_eq_0x9A (s : St) (cy : Nat) :
    ExecOp 0x9A s cy =
      (TXS s cy) := by rfl

/-- Dispatch equation for `INS_PHA`. -/
theorem ExecOp_eq_0x48 (s : St) (cy : Nat) :
    ExecOp 0x48 s cy =
      (PHA s cy) := by rfl

/-- Dispatch equation for `INS_PHP`. -/
theorem ExecOp_eq_0x08 (s : St) (cy : Nat) :
    ExecOp 0x08 s cy =
      (PHP s cy) := by rfl

/-- Dispatch equation for `INS_PLA`. -/
theorem ExecOp_eq_0x68 (s : St) (cy : Nat) :
    ExecOp 0x68 s cy =
      (PLA s cy) := by rfl

/-- Dispatch equation for `INS_PLP`. -/
theorem ExecOp_eq_0x28 (s : St) (cy : Nat) :
    ExecOp 0x28 s cy =
      (PLP s cy) := by rfl

/-- Dispatch equation for `INS_AND_IM`. -/
theorem ExecOp_eq_0x29 (s : St) (cy : Nat) :
    ExecOp 0x29 s cy =
      (let (addr, s, cy) := AddrImmediate s cy
       AND s cy addr) := by rfl

/-- Dispatch equation for `INS_AND_ZP`. -/
theorem ExecOp_eq_0x25 (s : St) (cy : Nat) :
    ExecOp 0x25 s cy =
      (let (addr, s, cy) := AddrZeroPage s cy
       AND s cy addr) := by rfl

/-- Dispatch equation for `INS_AND_ZPX`. -/
theorem ExecOp_eq_0x35 (s : St) (cy : Nat) :
    ExecOp 0x35 s cy =
      (let (addr, s, cy) := AddrZeroPageX s cy
       AND s cy addr) := by rfl

/-- Dispatch equation for `INS_AND_ABS`. -/
theorem ExecOp_eq_0x2D (s : St) (cy : Nat) :
    ExecOp 0x2D s cy =
      (let (addr, s, cy) := AddrAbsolute s cy
       AND s cy addr) := by rfl

/-- Dispatch equation for `INS_AND_ABSX`. -/
theorem ExecOp_eq_0x3D (s : St) (cy : Nat) :
    ExecOp 0x3D s cy =
      (let (addr, s, cy) := AddrAbsoluteX s cy true
       AND s cy addr) := by rfl

/-- Dispatch equation for `INS_AND_ABSY`. -/
theorem ExecOp_eq_0x39 (s : St) (cy : Nat) :
    ExecOp 0x39 s cy =
      (let (addr, s, cy) := AddrAbsoluteY s cy true
       AND s cy addr) := by rfl

/-- Dispatch equation for `INS_AND_INDX`. -/
theorem ExecOp_eq_0x21 (s : St) (cy : Nat) :
    ExecOp 0x21 s cy =
      (let (addr, s, cy) := AddrIndexedIndirect s cy
       AND s cy addr) := by rfl

/-- Dispatch equation for `INS_AND_INDY`. -/
theorem ExecOp_eq_0x31 (s : St) (cy : Nat) :
    ExecOp 0x31 s cy =
      (let (addr, s, cy) := AddrIndirectIndexed s cy true
       AND s cy addr) := by rfl

/-- Dispatch equation for `INS_ORA_IM`. -/
theorem ExecOp_eq_0x09 (s : St) (cy : Nat) :
    ExecOp 0x09 s cy =
      (let (addr, s, cy) := AddrImmediate s cy
       ORA s cy addr) := by rfl

/-- Dispatch equation for `INS_ORA_ZP`. -/
theorem ExecOp_eq_0x05 (s : St) (cy : Nat) :
    ExecOp 0x05 s cy =
      (let (addr, s, cy) := AddrZeroPage s cy
       ORA s cy addr) := by rfl

/-- Dispatch equation for `INS_ORA_ZPX`. -/
theorem ExecOp_eq_0x15 (s : St) (cy : Nat) :
    ExecOp 0x15 s cy =
      (let (addr, s, cy) := AddrZeroPageX s cy
       ORA s cy addr) := by rfl

/-- Dispatch equation for `INS_ORA_ABS`. -/
theorem ExecOp_eq_0x0D (s : St) (cy : Nat) :
    ExecOp 0x0D s cy =
      (let (addr, s, cy) := AddrAbsolute s cy
       ORA s cy addr) := by rfl

/-- Dispatch equation for `INS_ORA_ABSX`. -/
theorem ExecOp_eq_0x1D (s : St) (cy : Nat) :
    ExecOp 0x1D s cy =
      (let (addr, s, cy) := AddrAbsoluteX s cy true
       ORA s cy addr) := by rfl

/-- Dispatch equation for `INS_ORA_ABSY`. -/
theorem ExecOp_eq_0x19 (s : St) (cy : Nat) :
    ExecOp 0x19 s cy =
      (let (addr, s, cy) := AddrAbsoluteY s cy true
       ORA s cy addr) := by rfl

/-- Dispatch equation for `INS_ORA_INDX`. -/
theorem ExecOp_eq_0x01 (s : St) (cy : Nat) :
    ExecOp 0x01 s cy =
      (let (addr, s, cy) := AddrIndexedIndirect s cy
       ORA s cy addr) := by rfl

/-- Dispatch equation for `INS_ORA_INDY`. -/
theorem ExecOp_eq_0x11 (s : St) (cy : Nat) :
    ExecOp 0x11 s cy =
      (let (addr, s, cy) := AddrIndirectIndexed s cy true
       ORA s cy addr) := by rfl

/-- Dispatch equation for `INS_EOR_IM`. -/
theorem ExecOp_eq_0x49 (s : St) (cy : Nat) :
    ExecOp 0x49 s cy =
      (let (addr, s, cy) := AddrImmediate s cy
       EOR s cy addr) := by rfl

/-- Dispatch equation for `INS_EOR_ZP`. -/
theorem ExecOp_eq_0x45 (s : St) (cy : Nat) :
    ExecOp 0x45 s cy =
      (let (addr, s, cy) := AddrZeroPage s cy
       EOR s cy addr) := by rfl

/-- Dispatch equation for `INS_EOR_ZPX`. -/
theorem ExecOp_eq_0x55 (s : St) (cy : Nat) :
    ExecOp 0x55 s cy =
      (let (addr, s, cy) := AddrZeroPageX s cy
       EOR s cy addr) := by rfl

/-- Dispatch equation for `INS_EOR_ABS`. -/
theorem ExecOp_eq_0x4D (s : St) (cy : Nat) :
    ExecOp 0x4D s cy =
      (let (addr, s, cy) := AddrAbsolute s cy
       EOR s cy addr) := by rfl

/-- Dispatch equation for `INS_EOR_ABSX`. -/
theorem ExecOp_eq_0x5D (s : St) (cy : Nat) :
    ExecOp 0x5D s cy =
      (let (addr, s, cy) := AddrAbsoluteX s cy true
       EOR s cy addr) := by rfl

/-- Dispatch equation for `INS_EOR_ABSY`. -/
theorem ExecOp_eq_0x59 (s : St) (cy : Nat) :
    ExecOp 0x59 s cy =
      (let (addr, s, cy) := AddrAbsoluteY s cy true
       EOR s cy addr) := by rfl

/-- Dispatch equation for `INS_EOR_INDX`. -/
theorem ExecOp_eq_0x41 (s : St) (cy : Nat) :
    ExecOp 0x41 s cy =
      (let (addr, s, cy) := AddrIndexedIndirect s cy
       EOR s cy addr) := by rfl

/-- Dispatch equation for `INS_EOR_INDY`. -/
theorem ExecOp_eq_0x51 (s : St) (cy : Nat) :
    ExecOp 0x51 s cy =
      (let (addr, s, cy) := AddrIndirectIndexed s cy true
       EOR s cy addr) := by rfl

/-- Dispatch equation for `INS_BIT_ZP`. -/
theorem ExecOp_eq_0x24 (s : St) (cy : Nat) :
    ExecOp 0x24 s cy =
      (let (addr, s, cy) := AddrZeroPage s cy
       BIT s cy addr) := by rfl

/-- Dispatch equation for `INS_BIT_ABS`. -/
theorem ExecOp_eq_0x2C (s : St) (cy : Nat) :
    ExecOp 0x2C s cy =
      (let (addr, s, cy) := AddrAbsolute s cy
       BIT s cy addr) := by rfl

/-- Dispatch equation for `INS_ADC_IM`. -/
theorem ExecOp_eq_0x69 (s : St) (cy : Nat) :
    ExecOp 0x69 s cy =
      (let (addr, s, cy) := AddrImmediate s cy
       ADC s cy addr) := by rfl

/-- Dispatch equation for `INS_ADC_ZP`. -/
theorem ExecOp_eq_0x65 (s : St) (cy : Nat) :
    ExecOp 0x65 s cy =
      (let (addr, s, cy) := AddrZeroPage s cy
       ADC s cy addr) := by rfl

/-- Dispatch equation for `INS_ADC_ZPX`. -/
theorem ExecOp_eq_0x75 (s : St) (cy : Nat) :
    ExecOp 0x75 s cy =
      (let (addr, s, cy) := AddrZeroPageX s cy
       ADC s cy addr) := by rfl

/-- Dispatch equation for `INS_ADC_ABS`. -/
theorem ExecOp_eq_0x6D (s : St) (cy : Nat) :
    ExecOp 0x6D s cy =
      (let (addr, s, cy) := AddrAbsolute s cy
       ADC s cy addr) := by rfl

/-- Dispatch equation for `INS_ADC_ABSX`. -/
theorem ExecOp_eq_0x7D (s : St) (cy : Nat) :
    ExecOp 0x7D s cy =
      (let (addr, s, cy) := AddrAbsoluteX s cy true
       ADC s cy addr) := by rfl

/-- Dispatch equation for `INS_ADC_ABSY`. -/
theorem ExecOp_eq_0x79 (s : St) (cy : Nat) :
    ExecOp 0x79 s cy =
      (let (addr, s, cy) := AddrAbsoluteY s cy true
       ADC s cy addr) := by rfl

/-- Dispatch equation for `INS_ADC_INDX`. -/
theorem ExecOp_eq_0x61 (s : St) (cy : Nat) :
    ExecOp 0x61 s cy =
      (let (addr, s, cy) := AddrIndexedIndirect s cy
       ADC s cy addr) := by rfl

/-- Dispatch equation for `INS_ADC_INDY`. -/
theorem ExecOp_eq_0x71 (s : St) (cy : Nat) :
    ExecOp 0x71 s cy =
      (let (addr, s, cy) := AddrIndirectIndexed s cy true
       ADC s cy addr) := by rfl

/-- Dispatch equation for `INS_SBC_IM`. -/
theorem ExecOp_eq_0xE9 (s : St) (cy : Nat) :
    ExecOp 0xE9 s cy =
      (let (addr, s, cy) := AddrImmediate s cy
       SBC s cy addr) := by rfl

/-- Dispatch equation for `INS_SBC_ZP`. -/
theorem ExecOp_eq_0xE5 (s : St) (cy : Nat) :
    ExecOp 0xE5 s cy =
      (let (addr, s, cy) := AddrZeroPage s cy
       SBC s cy addr) := by rfl

/-- Dispatch equation for `INS_SBC_ZPX`. -/
theorem ExecOp_eq_0xF5 (s : St) (cy : Nat) :
    ExecOp 0xF5 s cy =
      (let (addr, s, cy) := AddrZeroPageX s cy
       SBC s cy addr) := by rfl

/-- Dispatch equation for `INS_SBC_ABS`. -/
theorem ExecOp_eq_0xED (s : St) (cy : Nat) :
    ExecOp 0xED s cy =
      (let (addr, s, cy) := AddrAbsolute s cy
       SBC s cy addr) := by rfl

/-- Dispatch equation for `INS_SBC_ABSX`. -/
theorem ExecOp_eq_0xFD (s : St) (cy : Nat) :
    ExecOp 0xFD s cy =
      (let (addr, s, cy) := AddrAbsoluteX s cy true
       SBC s cy addr) := by rfl

/-- Dispatch equation for `INS_SBC_ABSY`. -/
theorem ExecOp_eq_0xF9 (s : St) (cy : Nat) :
    ExecOp 0xF9 s cy =
      (let (addr, s, cy) := AddrAbsoluteY s cy true
       SBC s cy addr) := by rfl

/-- Dispatch equation for `INS_SBC_INDX`. -/
theorem ExecOp_eq_0xE1 (s : St) (cy : Nat) :
    ExecOp 0xE1 s cy =
      (let (addr, s, cy) := AddrIndexedIndirect s cy
       SBC s cy addr) := by rfl

/-- Dispatch equation for `INS_SBC_INDY`. -/
theorem ExecOp_eq_0xF1 (s : St) (cy : Nat) :
    ExecOp 0xF1 s cy =
      (let (addr, s, cy) := AddrIndirectIndexed s cy true
       SBC s cy addr) := by rfl

/-- Dispatch equation for `INS_CMP_IM`. -/
theorem ExecOp_eq_0xC9 (s : St) (cy : Nat) :
    ExecOp 0xC9 s cy =
      (let (addr, s, cy) := AddrImmediate s cy
       CMP s cy addr) := by rfl

/-- Dispatch equation for `INS_CMP_ZP`. -/
theorem ExecOp_eq_0xC5 (s : St) (cy : Nat) :
    ExecOp 0xC5 s cy =
      (let (addr, s, cy) := AddrZeroPage s cy
       CMP s cy addr) := by rfl

/-- Dispatch equation for `INS_CMP_ZPX`. -/
theorem ExecOp_eq_0xD5 (s : St) (cy : Nat) :
    ExecOp 0xD5 s cy =
      (let (addr, s, cy) := AddrZeroPageX s cy
       CMP s cy addr) := by rfl

/-- Dispatch equation for `INS_CMP_ABS`. -/
theorem ExecOp_eq_0xCD (s : St) (cy : Nat) :
    ExecOp 0xCD s cy =
      (let (addr, s, cy) := AddrAbsolute s cy
       CMP s cy addr) := by rfl

/-- Dispatch equation for `INS_CMP_ABSX`. -/
theorem ExecOp_eq_0xDD (s : St) (cy : Nat) :
    ExecOp 0xDD s cy =
      (let (addr, s, cy) := AddrAbsoluteX s cy true
       CMP s cy addr) := by rfl

/-- Dispatch equation for `INS_CMP_ABSY`. -/
theorem ExecOp_eq_0xD9 (s : St) (cy : Nat) :
    ExecOp 0xD9 s cy =
      (let (addr, s, cy) := AddrAbsoluteY s cy true
       CMP s cy addr) := by rfl

/-- Dispatch equation for `INS_CMP_INDX`. -/
theorem ExecOp_eq_0xC1 (s : St) (cy : Nat) :
    ExecOp 0xC1 s cy =
      (let (addr, s, cy) := AddrIndexedIndirect s cy
       CMP s cy addr) := by rfl

/-- Dispatch equation for `INS_CMP_INDY`. -/
theorem ExecOp_eq_0xD1 (s : St) (cy : Nat) :
    ExecOp 0xD1 s cy =
      (let (addr, s, cy) := AddrIndirectIndexed s cy true
       CMP s cy addr) := by rfl

/-- Dispatch equation for `INS_CPX_IM`. -/
theorem ExecOp_eq_0xE0 (s : St) (cy : Nat) :
    ExecOp 0xE0 s cy =
      (let (addr, s, cy) := AddrImmediate s cy
       CPX s cy addr) := by rfl

/-- Dispatch equation for `INS_CPX_ZP`. -/
theorem ExecOp_eq_0xE4 (s : St) (cy : Nat) :
    ExecOp 0xE4 s cy =
      (let (addr, s, cy) := AddrZeroPage s cy
       CPX s cy addr) := by rfl

/-- Dispatch equation for `INS_CPX_ABS`. -/
theorem ExecOp_eq_0xEC (s : St) (cy : Nat) :
    ExecOp 0xEC s cy =
      (let (addr, s, cy) := AddrAbsolute s cy
       CPX s cy addr) := by rfl

/-- Dispatch equation for `INS_CPY_IM`. -/
theorem ExecOp_eq_0xC0 (s : St) (cy : Nat) :
    ExecOp 0xC0 s cy =
      (let (addr, s, cy) := AddrImmediate s cy
       CPY s cy addr) := by rfl

/-- Dispatch equation for `INS_CPY_ZP`. -/
theorem ExecOp_eq_0xC4 (s : St) (cy : Nat) :
    ExecOp 0xC4 s cy =
      (let (addr, s, cy) := AddrZeroPage s cy
       CPY s cy addr) := by rfl

/-- Dispatch equation for `INS_CPY_ABS`. -/
theorem ExecOp_eq_0xCC (s : St) (cy : Nat) :
    ExecOp 0xCC s cy =
      (let (addr, s, cy) := AddrAbsolute s cy
       CPY s cy addr) := by rfl

/-- Dispatch equation for `INS_INC_ZP`. -/
theorem ExecOp_eq_0xE6 (s : St) (cy : Nat) :
    ExecOp 0xE6 s cy =
      (let (addr, s, cy) := AddrZeroPage s cy
       INC s cy addr) := by rfl

/-- Dispatch equation for `INS_INC_ZPX`. -/
theorem ExecOp_eq_0xF6 (s : St) (cy : Nat) :
    ExecOp 0xF6 s cy =
      (let (addr, s, cy) := AddrZeroPageX s cy
       INC s cy addr) := by rfl

/-- Dispatch equation for `INS_INC_ABS`. -/
theorem ExecOp_eq_0xEE (s : St) (cy : Nat) :
    ExecOp 0xEE s cy =
      (let (addr, s, cy) := AddrAbsolute s cy
       INC s cy addr) := by rfl

/-- Dispatch equation for `INS_INC_ABSX`. -/
theorem ExecOp_eq_0xFE (s : St) (cy : Nat) :
    ExecOp 0xFE s cy =
      (let (addr, s, cy) := AddrAbsoluteX s cy false
       INC s cy addr) := by rfl

/-- Dispatch equation for `INS_INX`. -/
theorem ExecOp_eq_0xE8 (s : St) (cy : Nat) :
    ExecOp 0xE8 s cy =
      (INX s cy) := by rfl

/-- Dispatch equation for `INS_INY`. -/
theorem ExecOp_eq_0xC8 (s : St) (cy : Nat) :
    ExecOp 0xC8 s cy =
      (INY s cy) := by rfl

/-- Dispatch equation for `INS_DEC_ZP`. -/
theorem ExecOp_eq_0xC6 (s : St) (cy : Nat) :
    ExecOp 0xC6 s cy =
      (let (addr, s, cy) := AddrZeroPage s cy
       DEC s cy addr) := by rfl

/-- Dispatch equation for `INS_DEC_ZPX`. -/
theorem ExecOp_eq_0xD6 (s : St) (cy : Nat) :
    ExecOp 0xD6 s cy =
      (let (addr, s, cy) := AddrZeroPageX s cy
       DEC s cy addr) := by rfl

/-- Dispatch equation for `INS_DEC_ABS`. -/
theorem ExecOp_eq_0xCE (s : St) (cy : Nat) :
    ExecOp 0xCE s cy =
      (let (addr, s, cy) := AddrAbsolute s cy
       DEC s cy addr) := by rfl

/-- Dispatch equation for `INS_DEC_ABSX`. -/
theorem ExecOp_eq_0xDE (s : St) (cy : Nat) :
    ExecOp 0xDE s cy =
      (let (addr, s, cy) := AddrAbsoluteX s cy false
       DEC s cy addr) := by rfl

/-- Dispatch equation for `INS_DEX`. -/
theorem ExecOp_eq_0xCA (s : St) (cy : Nat) :
    ExecOp 0xCA s cy =
      (DEX s cy) := by rfl

/-- Dispatch equation for `INS_DEY`. -/
theorem ExecOp_eq_0x88 (s : St) (cy : Nat) :
    ExecOp 0x88 s cy =
      (DEY s cy) := by rfl

/-- Dispatch equation for `INS_ASL_ACC`. -/
theorem ExecOp_eq_0x0A (s : St) (cy : Nat) :
    ExecOp 0x0A s cy =
      (ASL_ACC s cy) := by rfl

/-- Dispatch equation for `INS_ASL_ZP`. -/
theorem ExecOp_eq_0x06 (s : St) (cy : Nat) :
    ExecOp 0x06 s cy =
      (let (addr, s, cy) := AddrZeroPage s cy
       ASL_MEM s cy addr) := by rfl

/-- Dispatch equation for `INS_ASL_ZPX`. -/
theorem ExecOp_eq_0x16 (s : St) (cy : Nat) :
    ExecOp 0x16 s cy =
      (let (addr, s, cy) := AddrZeroPageX s cy
       ASL_MEM s cy addr) := by rfl

/-- Dispatch equation for `INS_ASL_ABS`. -/
theorem ExecOp_eq_0x0E (s : St) (cy : Nat) :
    ExecOp 0x0E s cy =
      (let (addr, s, cy) := AddrAbsolute s cy
       ASL_MEM s cy addr) := by rfl

/-- Dispatch equation for `INS_ASL_ABSX`. -/
theorem ExecOp_eq_0x1E (s : St) (cy : Nat) :
    ExecOp 0x1E s cy =
      (let (addr, s, cy) := AddrAbsoluteX s cy false
       ASL_MEM s cy addr) := by rfl

/-- Dispatch equation for `INS_LSR_ACC`. -/
theorem ExecOp_eq_0x4A (s : St) (cy : Nat) :
    ExecOp 0x4A s cy =
      (LSR_ACC s cy) := by rfl

/-- Dispatch equation for `INS_LSR_ZP`. -/
theorem ExecOp_eq_0x46 (s : St) (cy : Nat) :
    ExecOp 0x46 s cy =
      (let (addr, s, cy) := AddrZeroPage s cy
       LSR_MEM s cy addr) := by rfl

/-- Dispatch equation for `INS_LSR_ZPX`. -/
theorem ExecOp_eq_0x56 (s : St) (cy : Nat) :
    ExecOp 0x56 s cy =
      (let (addr, s, cy) := AddrZeroPageX s cy
       LSR_MEM s cy addr) := by rfl

/-- Dispatch equation for `INS_LSR_ABS`. -/
theorem ExecOp_eq_0x4E (s : St) (cy : Nat) :
    ExecOp 0x4E s cy =
      (let (addr, s, cy) := AddrAbsolute s cy
       LSR_MEM s cy addr) := by rfl

/-- Dispatch equation for `INS_LSR_ABSX`. -/
theorem ExecOp_eq_0x5E (s : St) (cy : Nat) :
    ExecOp 0x5E s cy =
      (let (addr, s, cy) := AddrAbsoluteX s cy false
       LSR_MEM s cy addr) := by rfl

/-- Dispatch equation for `INS_ROL_ACC`. -/
theorem ExecOp_eq_0x2A (s : St) (cy : Nat) :
    ExecOp 0x2A s cy =
      (ROL_ACC s cy) := by rfl

/-- Dispatch equation for `INS_ROL_ZP`. -/
theorem ExecOp_eq_0x26 (s : St) (cy : Nat) :
    ExecOp 0x26 s cy =
      (let (addr, s, cy) := AddrZeroPage s cy
       ROL_MEM s cy addr) := by rfl

/-- Dispatch equation for `INS_ROL_ZPX`. -/
theorem ExecOp_eq_0x36 (s : St) (cy : Nat) :
    ExecOp 0x36 s cy =
      (let (addr, s, cy) := AddrZeroPageX s cy
       ROL_MEM s cy addr) := by rfl

/-- Dispatch equation for `INS_ROL_ABS`. -/
theorem ExecOp_eq_0x2E (s : St) (cy : Nat) :
    ExecOp 0x2E s cy =
      (let (addr, s, cy) := AddrAbsolute s cy
       ROL_MEM s cy addr) := by rfl

/-- Dispatch equation for `INS_ROL_ABSX`. -/
theorem ExecOp_eq_0x3E (s : St) (cy : Nat) :
    ExecOp 0x3E s cy =
      (let (addr, s, cy) := AddrAbsoluteX s cy false
       ROL_MEM s cy addr) := by rfl

/-- Dispatch equation for `INS_ROR_ACC`. -/
theorem ExecOp_eq_0x6A (s : St) (cy : Nat) :
    ExecOp 0x6A s cy =
      (ROR_ACC s cy) := by rfl

/-- Dispatch equation for `INS_ROR_ZP`. -/
theorem ExecOp_eq_0x66 (s : St) (cy : Nat) :
    ExecOp 0x66 s cy =
      (let (addr, s, cy) := AddrZeroPage s cy
       ROR_MEM s cy addr) := by rfl

/-- Dispatch equation for `INS_ROR_ZPX`. -/
theorem ExecOp_eq_0x76 (s : St) (cy : Nat) :
    ExecOp 0x76 s cy =
      (let (addr, s, cy) := AddrZeroPageX s cy
       ROR_MEM s cy addr) := by rfl

/-- Dispatch equation for `INS_ROR_ABS`. -/
theorem ExecOp_eq_0x6E (s : St) (cy : Nat) :
    ExecOp 0x6E s cy =
      (let (addr, s, cy) := AddrAbsolute s cy
       ROR_MEM s cy addr) := by rfl

/-- Dispatch equation for `INS_ROR_ABSX`. -/
theorem ExecOp_eq_0x7E (s : St) (cy : Nat) :
    ExecOp 0x7E s cy =
      (let (addr, s, cy) := AddrAbsoluteX s cy false
       ROR_MEM s cy addr) := by rfl

/-- Dispatch equation for `INS_JMP_ABS`. -/
theorem ExecOp_eq_0x4C (s : St) (cy : Nat) :
    ExecOp 0x4C s cy =
      (let (addr, s, cy) := AddrAbsolute s cy
       JMP s cy addr) := by rfl

/-- Dispatch equation for `INS_JMP_IND`. -/
theorem ExecOp_eq_0x6C (s : St) (cy : Nat) :
    ExecOp 0x6C s cy =
      (let (indirectAddr, s, cy) := FetchWord s cy
       if (indirectAddr &&& 0x00FF) = 0x00FF then
         let (lowByte, s, cy) := MemReadByte s indirectAddr cy
         let (highByte, s, cy) := MemReadByte s (indirectAddr &&& 0xFF00) cy
         JMP s cy (highByte * 256 + lowByte)
       else
         let (targetAddr, s, cy) := MemReadWord s indirectAddr cy
         JMP s cy targetAddr) := by rfl

/-- Dispatch equation for `INS_JSR`. -/
theorem ExecOp_eq_0x20 (s : St) (cy : Nat) :
    ExecOp 0x20 s cy =
      (let (addr, s, cy) := AddrAbsolute s cy
       JSR s cy addr) := by rfl

/-- Dispatch equation for `INS_RTS`. -/
theorem ExecOp_eq_0x60 (s : St) (cy : Nat) :
    ExecOp 0x60 s cy =
      (RTS s cy) := by rfl

/-- Dispatch equation for `INS_RTI`. -/
theorem ExecOp_eq_0x40 (s : St) (cy : Nat) :
    ExecOp 0x40 s cy =
      (RTI s cy) := by rfl

/-- Dispatch equation for `INS_BCC`. -/
theorem ExecOp_eq_0x90 (s : St) (cy : Nat) :
    ExecOp 0x90 s cy =
      (BranchIf s cy (!(GetFlag s FLAG_CARRY))) := by rfl

/-- Dispatch equation for `INS_BCS`. -/
theorem ExecOp_eq_0xB0 (s : St) (cy : Nat) :
    ExecOp 0xB0 s cy =
      (BranchIf s cy (GetFlag s FLAG_CARRY)) := by rfl

/-- Dispatch equation for `INS_BEQ`. -/
theorem ExecOp_eq_0xF0 (s : St) (cy : Nat) :
    ExecOp 0xF0 s cy =
      (BranchIf s cy (GetFlag s FLAG_ZERO)) := by rfl

/-- Dispatch equation for `INS_BMI`. -/
theorem ExecOp_eq_0x30 (s : St) (cy : Nat) :
    ExecOp 0x30 s cy =
      (BranchIf s cy (GetFlag s FLAG_NEGATIVE)) := by rfl

/-- Dispatch equation for `INS_BNE`. -/
theorem ExecOp_eq_0xD0 (s : St) (cy : Nat) :
    ExecOp 0xD0 s cy =
      (BranchIf s cy (!(GetFlag s FLAG_ZERO))) := by rfl

/-- Dispatch equation for `INS_BPL`. -/
theorem ExecOp_eq_0x10 (s : St) (cy : Nat) :
    ExecOp 0x10 s cy =
      (BranchIf s cy (!(GetFlag s FLAG_NEGATIVE))) := by rfl

/-- Dispatch equation for `INS_BVC`. -/
theorem ExecOp_eq_0x50 (s : St) (cy : Nat) :
    ExecOp 0x50 s cy =
      (BranchIf s cy (!(GetFlag s FLAG_OVERFLOW))) := by rfl

/-- Dispatch equation for `INS_BVS`. -/
theorem ExecOp_eq_0x70 (s : St) (cy : Nat) :
    ExecOp 0x70 s cy =
      (BranchIf s cy (GetFlag s FLAG_OVERFLOW)) := by rfl

/-- Dispatch equation for `INS_CLC`. -/
theorem ExecOp_eq_0x18 (s : St) (cy : Nat) :
    ExecOp 0x18 s cy =
      (CLC s cy) := by rfl

/-- Dispatch equation for `INS_CLD`. -/
theorem ExecOp_eq_0xD8 (s : St) (cy : Nat) :
    ExecOp 0xD8 s cy =
      (CLD s cy) := by rfl

/-- Dispatch equation for `INS_CLI`. -/
theorem ExecOp_eq_0x58 (s : St) (cy : Nat) :
    ExecOp 0x58 s cy =
      (CLI s cy) := by rfl

/-- Dispatch equation for `INS_CLV`. -/
theorem ExecOp_eq_0xB8 (s : St) (cy : Nat) :
    ExecOp 0xB8 s cy =
      (CLV s cy) := by rfl

/-- Dispatch equation for `INS_SEC`. -/
theorem ExecOp_eq_0x38 (s : St) (cy : Nat) :
    ExecOp 0x38 s cy =
      (SEC s cy) := by rfl

/-- Dispatch equation for `INS_SED`. -/
theorem ExecOp_eq_0xF8 (s : St) (cy : Nat) :
    ExecOp 0xF8 s cy =
      (SED s cy) := by rfl

/-- Dispatch equation for `INS_SEI`. -/
theorem ExecOp_eq_0x78 (s : St) (cy : Nat) :
    ExecOp 0x78 s cy =
      (SEI s cy) := by rfl

/-- Dispatch equation for `INS_BRK`. -/
theorem ExecOp_eq_0x00 (s : St) (cy : Nat) :
    ExecOp 0x00 s cy =
      (BRK s cy) := by rfl

/-- Dispatch equation for `INS_NOP`. -/
theorem ExecOp_eq_0xEA (s : St) (cy : Nat) :
    ExecOp 0xEA s cy =
      (NOP s cy) := by rfl

/-- Dispatch equation for the default (unknown opcode) case. -/
theorem ExecOp_eq_default (opcode : Nat) (s : St) (cy : Nat)
    (h0 : opcode ≠ 0xA9) (h1 : opcode ≠ 0xA5) (h2 : opcode ≠ 0xB5) (h3 : opcode ≠ 0xAD)
    (h4 : opcode ≠ 0xBD) (h5 : opcode ≠ 0xB9) (h6 : opcode ≠ 0xA1) (h7 : opcode ≠ 0xB1)
    (h8 : opcode ≠ 0xA2) (h9 : opcode ≠ 0xA6) (h10 : opcode ≠ 0xB6) (h11 : opcode ≠ 0xAE)
    (h12 : opcode ≠ 0xBE) (h13 : opcode ≠ 0xA0) (h14 : opcode ≠ 0xA4) (h15 : opcode ≠ 0xB4)
    (h16 : opcode ≠ 0xAC) (h17 : opcode ≠ 0xBC) (h18 : opcode ≠ 0x85) (h19 : opcode ≠ 0x95)
    (h20 : opcode ≠ 0x8D) (h21 : opcode ≠ 0x9D) (h22 : opcode ≠ 0x99) (h23 : opcode ≠ 0x81)
    (h24 : opcode ≠ 0x91) (h25 : opcode ≠ 0x86) (h26 : opcode ≠ 0x96) (h27 : opcode ≠ 0x8E)
    (h28 : opcode ≠ 0x84) (h29 : opcode ≠ 0x94) (h30 : opcode ≠ 0x8C) (h31 : opcode ≠ 0xAA)
    (h32 : opcode ≠ 0xA8) (h33 : opcode ≠ 0x8A) (h34 : opcode ≠ 0x98) (h35 : opcode ≠ 0xBA)
    (h36 : opcode ≠ 0x9A) (h37 : opcode ≠ 0x48) (h38 : opcode ≠ 0x08) (h39 : opcode ≠ 0x68)
    (h40 : opcode ≠ 0x28) (h41 : opcode ≠ 0x29) (h42 : opcode ≠ 0x25) (h43 : opcode ≠ 0x35)
    (h44 : opcode ≠ 0x2D) (h45 : opcode ≠ 0x3D) (h46 : opcode ≠ 0x39) (h47 : opcode ≠ 0x21)
    (h48 : opcode ≠ 0x31) (h49 : opcode ≠ 0x09) (h50 : opcode ≠ 0x05) (h51 : opcode ≠ 0x15)
    (h52 : opcode ≠ 0x0D) (h53 : opcode ≠ 0x1D) (h54 : opcode ≠ 0x19) (h55 : opcode ≠ 0x01)
    (h56 : opcode ≠ 0x11) (h57 : opcode ≠ 0x49) (h58 : opcode ≠ 0x45) (h59 : opcode ≠ 0x55)
    (h60 : opcode ≠ 0x4D) (h61 : opcode ≠ 0x5D) (h62 : opcode ≠ 0x59) (h63 : opcode ≠ 0x41)
    (h64 : opcode ≠ 0x51) (h65 : opcode ≠ 0x24) (h66 : opcode ≠ 0x2C) (h67 : opcode ≠ 0x69)
    (h68 : opcode ≠ 0x65) (h69 : opcode ≠ 0x75) (h70 : opcode ≠ 0x6D) (h71 : opcode ≠ 0x7D)
    (h72 : opcode ≠ 0x79) (h73 : opcode ≠ 0x61) (h74 : opcode ≠ 0x71) (h75 : opcode ≠ 0xE9)
    (h76 : opcode ≠ 0xE5) (h77 : opcode ≠ 0xF5) (h78 : opcode ≠ 0xED) (h79 : opcode ≠ 0xFD)
    (h80 : opcode ≠ 0xF9) (h81 : opcode ≠ 0xE1) (h82 : opcode ≠ 0xF1) (h83 : opcode ≠ 0xC9)
    (h84 : opcode ≠ 0xC5) (h85 : opcode ≠ 0xD5) (h86 : opcode ≠ 0xCD) (h87 : opcode ≠ 0xDD)
    (h88 : opcode ≠ 0xD9) (h89 : opcode ≠ 0xC1) (h90 : opcode ≠ 0xD1) (h91 : opcode ≠ 0xE0)
    (h92 : opcode ≠ 0xE4) (h93 : opcode ≠ 0xEC) (h94 : opcode ≠ 0xC0) (h95 : opcode ≠ 0xC4)
    (h96 : opcode ≠ 0xCC) (h97 : opcode ≠ 0xE6) (h98 : opcode ≠ 0xF6) (h99 : opcode ≠ 0xEE)
    (h100 : opcode ≠ 0xFE) (h101 : opcode ≠ 0xE8) (h102 : opcode ≠ 0xC8) (h103 : opcode ≠ 0xC6)
    (h104 : opcode ≠ 0xD6) (h105 : opcode ≠ 0xCE) (h106 : opcode ≠ 0xDE) (h107 : opcode ≠ 0xCA)
    (h108 : opcode ≠ 0x88) (h109 : opcode ≠ 0x0A) (h110 : opcode ≠ 0x06) (h111 : opcode ≠ 0x16)
    (h112 : opcode ≠ 0x0E) (h113 : opcode ≠ 0x1E) (h114 : opcode ≠ 0x4A) (h115 : opcode ≠ 0x46)
    (h116 : opcode ≠ 0x56) (h117 : opcode ≠ 0x4E) (h118 : opcode ≠ 0x5E) (h119 : opcode ≠ 0x2A)
    (h120 : opcode ≠ 0x26) (h121 : opcode ≠ 0x36) (h122 : opcode ≠ 0x2E) (h123 : opcode ≠ 0x3E)
    (h124 : opcode ≠ 0x6A) (h125 : opcode ≠ 0x66) (h126 : opcode ≠ 0x76) (h127 : opcode ≠ 0x6E)
    (h128 : opcode ≠ 0x7E) (h129 : opcode ≠ 0x4C) (h130 : opcode ≠ 0x6C) (h131 : opcode ≠ 0x20)
    (h132 : opcode ≠ 0x60) (h133 : opcode ≠ 0x40) (h134 : opcode ≠ 0x90) (h135 : opcode ≠ 0xB0)
    (h136 : opcode ≠ 0xF0) (h137 : opcode ≠ 0x30) (h138 : opcode ≠ 0xD0) (h139 : opcode ≠ 0x10)
    (h140 : opcode ≠ 0x50) (h141 : opcode ≠ 0x70) (h142 : opcode ≠ 0x18) (h143 : opcode ≠ 0xD8)
    (h144 : opcode ≠ 0x58) (h145 : opcode ≠ 0xB8) (h146 : opcode ≠ 0x38) (h147 : opcode ≠ 0xF8)
    (h148 : opcode ≠ 0x78) (h149 : opcode ≠ 0x00) (h150 : opcode ≠ 0xEA)
    : ExecOp opcode s cy = (s, cy + 1) := by
  unfold ExecOp
  simp only [if_neg h0, if_neg h1, if_neg h2, if_neg h3, if_neg h4, if_neg h5, if_neg h6, if_neg h7, if_neg h8, if_neg h9, if_neg h10, if_neg h11, if_neg h12, if_neg h13, if_neg h14, if_neg h15, if_neg h16, if_neg h17, if_neg h18, if_neg h19, if_neg h20, if_neg h21, if_neg h22, if_neg h23, if_neg h24, if_neg h25, if_neg h26, if_neg h27, if_neg h28, if_neg h29, if_neg h30, if_neg h31, if_neg h32, if_neg h33, if_neg h34, if_neg h35, if_neg h36, if_neg h37, if_neg h38, if_neg h39, if_neg h40, if_neg h41, if_neg h42, if_neg h43, if_neg h44, if_neg h45, if_neg h46, if_neg h47, if_neg h48, if_neg h49, if_neg h50, if_neg h51, if_neg h52, if_neg h53, if_neg h54, if_neg h55, if_neg h56, if_neg h57, if_neg h58, if_neg h59, if_neg h60, if_neg h61, if_neg h62, if_neg h63, if_neg h64, if_neg h65, if_neg h66, if_neg h67, if_neg h68, if_neg h69, if_neg h70, if_neg h71, if_neg h72, if_neg h73, if_neg h74, if_neg h75, if_neg h76, if_neg h77, if_neg h78, if_neg h79, if_neg h80, if_neg h81, if_neg h82, if_neg h83, if_neg h84, if_neg h85, if_neg h86, if_neg h87, if_neg h88, if_neg h89, if_neg h90, if_neg h91, if_neg h92, if_neg h93, if_neg h94, if_neg h95, if_neg h96, if_neg h97, if_neg h98, if_neg h99, if_neg h100, if_neg h101, if_neg h102, if_neg h103, if_neg h104, if_neg h105, if_neg h106, if_neg h107, if_neg h108, if_neg h109, if_neg h110, if_neg h111, if_neg h112, if_neg h113, if_neg h114, if_neg h115, if_neg h116, if_neg h117, if_neg h118, if_neg h119, if_neg h120, if_neg h121, if_neg h122, if_neg h123, if_neg h124, if_neg h125, if_neg h126, if_neg h127, if_neg h128, if_neg h129, if_neg h130, if_neg h131, if_neg h132, if_neg h133, if_neg h134, if_neg h135, if_neg h136, if_neg h137, if_neg h138, if_neg h139, if_neg h140, if_neg h141, if_neg h142, if_neg h143, if_neg h144, if_neg h145, if_neg h146, if_neg h147, if_neg h148, if_neg h149, if_neg h150]

set_option maxHeartbeats 1000000 in
/-- Each dispatch arm only ever increments the per-instruction cycle
counter: cycles are monotone through `ExecOp`. -/
theorem ExecOp_cy_le (opcode : Nat) (s : St) (cy : Nat) :
    cy ≤ (ExecOp opcode s cy).2 := by
  by_cases h0 : opcode = 0xA9
  · subst h0; rw [ExecOp_eq_0xA9]
    simp [LDA, AddrImmediate, FetchByte, MemReadByte, MemWriteByte, MemReadWord, FetchWord, PushByteToStack, PushWordToStack, PopByteFromStack, PopWordFromStack, fst_ite, snd_ite] <;> (first | omega | (split_ifs <;> omega))
  by_cases h1 : opcode = 0xA5
  · subst h1; rw [ExecOp_eq_0xA5]
    simp [LDA, AddrZeroPage, FetchByte, MemReadByte, MemWriteByte, MemReadWord, FetchWord, PushByteToStack, PushWordToStack, PopByteFromStack, PopWordFromStack, fst_ite, snd_ite] <;> (first | omega | (split_ifs <;> omega))
  by_cases h2 : opcode = 0xB5
  · subst h2; rw [ExecOp_eq_0xB5]
    simp [LDA, AddrZeroPageX, FetchByte, MemReadByte, MemWriteByte, MemReadWord, FetchWord, PushByteToStack, PushWordToStack, PopByteFromStack, PopWordFromStack, fst_ite, snd_ite] <;> (first | omega | (split_ifs <;> omega))
  by_cases h3 : opcode = 0xAD
  · subst h3; rw [ExecOp_eq_0xAD]
    simp [LDA, AddrAbsolute, FetchByte, MemReadByte, MemWriteByte, MemReadWord, FetchWord, PushByteToStack, PushWordToStack, PopByteFromStack, PopWordFromStack, fst_ite, snd_ite] <;> (first | omega | (split_ifs <;> omega))
  by_cases h4 : opcode = 0xBD
  · subst h4; rw [ExecOp_eq_0xBD]
    simp [LDA, AddrAbsoluteX, FetchByte, MemReadByte, MemWriteByte, MemReadWord, FetchWord, PushByteToStack, PushWordToStack, PopByteFromStack, PopWordFromStack, fst_ite, snd_ite] <;> (first | omega | (split_ifs <;> omega))
  by_cases h5 : opcode = 0xB9
  · subst h5; rw [ExecOp_eq_0xB9]
    simp [LDA, AddrAbsoluteY, FetchByte, MemReadByte, MemWriteByte, MemReadWord, FetchWord, PushByteToStack, PushWordToStack, PopByteFromStack, PopWordFromStack, fst_ite, snd_ite] <;> (first | omega | (split_ifs <;> omega))
  by_cases h6 : opcode = 0xA1
  · subst h6; rw [ExecOp_eq_0xA1]
    simp [LDA, AddrIndexedIndirect, FetchByte, MemReadByte, MemWriteByte, MemReadWord, FetchWord, PushByteToStack, PushWordToStack, PopByteFromStack, PopWordFromStack, fst_ite, snd_ite] <;> (first | omega | (split_ifs <;> omega))
  by_cases h7 : opcode = 0xB1
  · subst h7; rw [ExecOp_eq_0xB1]
    simp [LDA, AddrIndirectIndexed, FetchByte, MemReadByte, MemWriteByte, MemReadWord, FetchWord, PushByteToStack, PushWordToStack, PopByteFromStack, PopWordFromStack, fst_ite, snd_ite] <;> (first | omega | (split_ifs <;> omega))
  by_cases h8 : opcode = 0xA2
  · subst h8; rw [ExecOp_eq_0xA2]
    simp [LDX, AddrImmediate, FetchByte, MemReadByte, MemWriteByte, MemReadWord, FetchWord, PushByteToStack, PushWordToStack, PopByteFromStack, PopWordFromStack, fst_ite, snd_ite] <;> (first | omega | (split_ifs <;> omega))
  by_cases h9 : opcode = 0xA6
  · subst h9; rw [ExecOp_eq_0xA6]
    simp [LDX, AddrZeroPage, FetchByte, MemReadByte, MemWriteByte, MemReadWord, FetchWord, PushByteToStack, PushWordToStack, PopByteFromStack, PopWordFromStack, fst_ite, snd_ite] <;> (first | omega | (split_ifs <;> omega))
  by_cases h10 : opcode = 0xB6
  · subst h10; rw [ExecOp_eq_0xB6]
    simp [LDX, AddrZeroPageY, FetchByte, MemReadByte, MemWriteByte, MemReadWord, FetchWord, PushByteToStack, PushWordToStack, PopByteFromStack, PopWordFromStack, fst_ite, snd_ite] <;> (first | omega | (split_ifs <;> omega))
  by_cases h11 : opcode = 0xAE
  · subst h11; rw [ExecOp_eq_0xAE]
    simp [LDX, AddrAbsolute, FetchByte, MemReadByte, MemWriteByte, MemReadWord, FetchWord, PushByteToStack, PushWordToStack, PopByteFromStack, PopWordFromStack, fst_ite, snd_ite] <;> (first | omega | (split_ifs <;> omega))
  by_cases h12 : opcode = 0xBE
  · subst h12; rw [ExecOp_eq_0xBE]
    simp [LDX, AddrAbsoluteY, FetchByte, MemReadByte, MemWriteByte, MemReadWord, FetchWord, PushByteToStack, PushWordToStack, PopByteFromStack, PopWordFromStack, fst_ite, snd_ite] <;> (first | omega | (split_ifs <;> omega))
  by_cases h13 : opcode = 0xA0
  · subst h13; rw [ExecOp_eq_0xA0]
    simp [LDY, AddrImmediate, FetchByte, MemReadByte, MemWriteByte, MemReadWord, FetchWord, PushByteToStack, PushWordToStack, PopByteFromStack, PopWordFromStack, fst_ite, snd_ite] <;> (first | omega | (split_ifs <;> omega))
  by_cases h14 : opcode = 0xA4
  · subst h14; rw [ExecOp_eq_0xA4]
    simp [LDY, AddrZeroPage, FetchByte, MemReadByte, MemWriteByte, MemReadWord, FetchWord, PushByteToStack, PushWordToStack, PopByteFromStack, PopWordFromStack, fst_ite, snd_ite] <;> (first | omega | (split_ifs <;> omega))
  by_cases h15 : opcode = 0xB4
  · subst h15; rw [ExecOp_eq_0xB4]
    simp [LDY, AddrZeroPageX, FetchByte, MemReadByte, MemWriteByte, MemReadWord, FetchWord, PushByteToStack, PushWordToStack, PopByteFromStack, PopWordFromStack, fst_ite, snd_ite] <;> (first | omega | (split_ifs <;> omega))
  by_cases h16 : opcode = 0xAC
  · subst h16; rw [ExecOp_eq_0xAC]
    simp [LDY, AddrAbsolute, FetchByte, MemReadByte, MemWriteByte, MemReadWord, FetchWord, PushByteToStack, PushWordToStack, PopByteFromStack, PopWordFromStack, fst_ite, snd_ite] <;> (first | omega | (split_ifs <;> omega))
  by_cases h17 : opcode = 0xBC
  · subst h17; rw [ExecOp_eq_0xBC]
    simp [LDY, AddrAbsoluteX, FetchByte, MemReadByte, MemWriteByte, MemReadWord, FetchWord, PushByteToStack, PushWordToStack, PopByteFromStack, PopWordFromStack, fst_ite, snd_ite] <;> (first | omega | (split_ifs <;> omega))
  by_cases h18 : opcode = 0x85
  · subst h18; rw [ExecOp_eq_0x85]
    simp [STA, AddrZeroPage, FetchByte, MemReadByte, MemWriteByte, MemReadWord, FetchWord, PushByteToStack, PushWordToStack, PopByteFromStack, PopWordFromStack, fst_ite, snd_ite] <;> (first | omega | (split_ifs <;> omega))
  by_cases h19 : opcode = 0x95
  · subst h19; rw [ExecOp_eq_0x95]
    simp [STA, AddrZeroPageX, FetchByte, MemReadByte, MemWriteByte, MemReadWord, FetchWord, PushByteToStack, PushWordToStack, PopByteFromStack, PopWordFromStack, fst_ite, snd_ite] <;> (first | omega | (split_ifs <;> omega))
  by_cases h20 : opcode = 0x8D
  · subst h20; rw [ExecOp_eq_0x8D]
    simp [STA, AddrAbsolute, FetchByte, MemReadByte, MemWriteByte, MemReadWord, FetchWord, PushByteToStack, PushWordToStack, PopByteFromStack, PopWordFromStack, fst_ite, snd_ite] <;> (first | omega | (split_ifs <;> omega))
  by_cases h21 : opcode = 0x9D
  · subst h21; rw [ExecOp_eq_0x9D]
    simp [STA, AddrAbsoluteX, FetchByte, MemReadByte, MemWriteByte, MemReadWord, FetchWord, PushByteToStack, PushWordToStack, PopByteFromStack, PopWordFromStack, fst_ite, snd_ite] <;> (first | omega | (split_ifs <;> omega))
  by_cases h22 : opcode = 0x99
  · subst h22; rw [ExecOp_eq_0x99]
    simp [STA, AddrAbsoluteY, FetchByte, MemReadByte, MemWriteByte, MemReadWord, FetchWord, PushByteToStack, PushWordToStack, PopByteFromStack, PopWordFromStack, fst_ite, snd_ite] <;> (first | omega | (split_ifs <;> omega))
  by_cases h23 : opcode = 0x81
  · subst h23; rw [ExecOp_eq_0x81]
    simp [STA, AddrIndexedIndirect, FetchByte, MemReadByte, MemWriteByte, MemReadWord, FetchWord, PushByteToStack, PushWordToStack, PopByteFromStack, PopWordFromStack, fst_ite, snd_ite] <;> (first | omega | (split_ifs <;> omega))
  by_cases h24 : opcode = 0x91
  · subst h24; rw [ExecOp_eq_0x91]
    simp [STA, AddrIndirectIndexed, FetchByte, MemReadByte, MemWriteByte, MemReadWord, FetchWord, PushByteToStack, PushWordToStack, PopByteFromStack, PopWordFromStack, fst_ite, snd_ite] <;> (first | omega | (split_ifs <;> omega))
  by_cases h25 : opcode = 0x86
  · subst h25; rw [ExecOp_eq_0x86]
    simp [STX, AddrZeroPage, FetchByte, MemReadByte, MemWriteByte, MemReadWord, FetchWord, PushByteToStack, PushWordToStack, PopByteFromStack, PopWordFromStack, fst_ite, snd_ite] <;> (first | omega | (split_ifs <;> omega))
  by_cases h26 : opcode = 0x96
  · subst h26; rw [ExecOp_eq_0x96]
    simp [STX, AddrZeroPageY, FetchByte, MemReadByte, MemWriteByte, MemReadWord, FetchWord, PushByteToStack, PushWordToStack, PopByteFromStack, PopWordFromStack, fst_ite, snd_ite] <;> (first | omega | (split_ifs <;> omega))
  by_cases h27 : opcode = 0x8E
  · subst h27; rw [ExecOp_eq_0x8E]
    simp [STX, AddrAbsolute, FetchByte, MemReadByte, MemWriteByte, MemReadWord, FetchWord, PushByteToStack, PushWordToStack, PopByteFromStack, PopWordFromStack, fst_ite, snd_ite] <;> (first | omega | (split_ifs <;> omega))
  by_cases h28 : opcode = 0x84
  · subst h28; rw [ExecOp_eq_0x84]
    simp [STY, AddrZeroPage, FetchByte, MemReadByte, MemWriteByte, MemReadWord, FetchWord, PushByteToStack, PushWordToStack, PopByteFromStack, PopWordFromStack, fst_ite, snd_ite] <;> (first | omega | (split_ifs <;> omega))
  by_cases h29 : opcode = 0x94
  · subst h29; rw [ExecOp_eq_0x94]
    simp [STY, AddrZeroPageX, FetchByte, MemReadByte, MemWriteByte, MemReadWord, FetchWord, PushByteToStack, PushWordToStack, PopByteFromStack, PopWordFromStack, fst_ite, snd_ite] <;> (first | omega | (split_ifs <;> omega))
  by_cases h30 : opcode = 0x8C
  · subst h30; rw [ExecOp_eq_0x8C]
    simp [STY, AddrAbsolute, FetchByte, MemReadByte, MemWriteByte, MemReadWord, FetchWord, PushByteToStack, PushWordToStack, PopByteFromStack, PopWordFromStack, fst_ite, snd_ite] <;> (first | omega | (split_ifs <;> omega))
  by_cases h31 : opcode = 0xAA
  · subst h31; rw [ExecOp_eq_0xAA]
    simp [TAX, FetchByte, MemReadByte, MemWriteByte, MemReadWord, FetchWord, PushByteToStack, PushWordToStack, PopByteFromStack, PopWordFromStack, fst_ite, snd_ite] <;> (first | omega | (split_ifs <;> omega))
  by_cases h32 : opcode = 0xA8
  · subst h32; rw [ExecOp_eq_0xA8]
    simp [TAY, FetchByte, MemReadByte, MemWriteByte, MemReadWord, FetchWord, PushByteToStack, PushWordToStack, PopByteFromStack, PopWordFromStack, fst_ite, snd_ite] <;> (first | omega | (split_ifs <;> omega))
  by_cases h33 : opcode = 0x8A
  · subst h33; rw [ExecOp_eq_0x8A]
    simp [TXA, FetchByte, MemReadByte, MemWriteByte, MemReadWord, FetchWord, PushByteToStack, PushWordToStack, PopByteFromStack, PopWordFromStack, fst_ite, snd_ite] <;> (first | omega | (split_ifs <;> omega))
  by_cases h34 : opcode = 0x98
  · subst h34; rw [ExecOp_eq_0x98]
    simp [TYA, FetchByte, MemReadByte, MemWriteByte, MemReadWord, FetchWord, PushByteToStack, PushWordToStack, PopByteFromStack, PopWordFromStack, fst_ite, snd_ite] <;> (first | omega | (split_ifs <;> omega))
  by_cases h35 : opcode = 0xBA
  · subst h35; rw [ExecOp_eq_0xBA]
    simp [TSX, FetchByte, MemReadByte, MemWriteByte, MemReadWord, FetchWord, PushByteToStack, PushWordToStack, PopByteFromStack, PopWordFromStack, fst_ite, snd_ite] <;> (first | omega | (split_ifs <;> omega))
  by_cases h36 : opcode = 0x9A
  · subst h36; rw [ExecOp_eq_0x9A]
    simp [TXS, FetchByte, MemReadByte, MemWriteByte, MemReadWord, FetchWord, PushByteToStack, PushWordToStack, PopByteFromStack, PopWordFromStack, fst_ite, snd_ite] <;> (first | omega | (split_ifs <;> omega))
  by_cases h37 : opcode = 0x48
  · subst h37; rw [ExecOp_eq_0x48]
    simp [PHA, FetchByte, MemReadByte, MemWriteByte, MemReadWord, FetchWord, PushByteToStack, PushWordToStack, PopByteFromStack, PopWordFromStack, fst_ite, snd_ite] <;> (first | omega | (split_ifs <;> omega))
  by_cases h38 : opcode = 0x08
  · subst h38; rw [ExecOp_eq_0x08]
    simp [PHP, FetchByte, MemReadByte, MemWriteByte, MemReadWord, FetchWord, PushByteToStack, PushWordToStack, PopByteFromStack, PopWordFromStack, fst_ite, snd_ite] <;> (first | omega | (split_ifs <;> omega))
  by_cases h39 : opcode = 0x68
  · subst h39; rw [ExecOp_eq_0x68]
    simp [PLA, FetchByte, MemReadByte, MemWriteByte, MemReadWord, FetchWord, PushByteToStack, PushWordToStack, PopByteFromStack, PopWordFromStack, fst_ite, snd_ite] <;> (first | omega | (split_ifs <;> omega))
  by_cases h40 : opcode = 0x28
  · subst h40; rw [ExecOp_eq_0x28]
    simp [PLP, FetchByte, MemReadByte, MemWriteByte, MemReadWord, FetchWord, PushByteToStack, PushWordToStack, PopByteFromStack, PopWordFromStack, fst_ite, snd_ite] <;> (first | omega | (split_ifs <;> omega))
  by_cases h41 : opcode = 0x29
  · subst h41; rw [ExecOp_eq_0x29]
    simp [AND, AddrImmediate, FetchByte, MemReadByte, MemWriteByte, MemReadWord, FetchWord, PushByteToStack, PushWordToStack, PopByteFromStack, PopWordFromStack, fst_ite, snd_ite] <;> (first | omega | (split_ifs <;> omega))
  by_cases h42 : opcode = 0x25
  · subst h42; rw [ExecOp_eq_0x25]
    simp [AND, AddrZeroPage, FetchByte, MemReadByte, MemWriteByte, MemReadWord, FetchWord, PushByteToStack, PushWordToStack, PopByteFromStack, PopWordFromStack, fst_ite, snd_ite] <;> (first | omega | (split_ifs <;> omega))
  by_cases h43 : opcode = 0x35
  · subst h43; rw [ExecOp_eq_0x35]
    simp [AND, AddrZeroPageX, FetchByte, MemReadByte, MemWriteByte, MemReadWord, FetchWord, PushByteToStack, PushWordToStack, PopByteFromStack, PopWordFromStack, fst_ite, snd_ite] <;> (first | omega | (split_ifs <;> omega))
  by_cases h44 : opcode = 0x2D
  · subst h44; rw [ExecOp_eq_0x2D]
    simp [AND, AddrAbsolute, FetchByte, MemReadByte, MemWriteByte, MemReadWord, FetchWord, PushByteToStack, PushWordToStack, PopByteFromStack, PopWordFromStack, fst_ite, snd_ite] <;> (first | omega | (split_ifs <;> omega))
  by_cases h45 : opcode = 0x3D
  · subst h45; rw [ExecOp_eq_0x3D]
    simp [AND, AddrAbsoluteX, FetchByte, MemReadByte, MemWriteByte, MemReadWord, FetchWord, PushByteToStack, PushWordToStack, PopByteFromStack, PopWordFromStack, fst_ite, snd_ite] <;> (first | omega | (split_ifs <;> omega))
  by_cases h46 : opcode = 0x39
  · subst h46; rw [ExecOp_eq_0x39]
    simp [AND, AddrAbsoluteY, FetchByte, MemReadByte, MemWriteByte, MemReadWord, FetchWord, PushByteToStack, PushWordToStack, PopByteFromStack, PopWordFromStack, fst_ite, snd_ite] <;> (first | omega | (split_ifs <;> omega))
  by_cases h47 : opcode = 0x21
  · subst h47; rw [ExecOp_eq_0x21]
    simp [AND, AddrIndexedIndirect, FetchByte, MemReadByte, MemWriteByte, MemReadWord, FetchWord, PushByteToStack, PushWordToStack, PopByteFromStack, PopWordFromStack, fst_ite, snd_ite] <;> (first | omega | (split_ifs <;> omega))
  by_cases h48 : opcode = 0x31
  · subst h48; rw [ExecOp_eq_0x31]
    simp [AND, AddrIndirectIndexed, FetchByte, MemReadByte, MemWriteByte, MemReadWord, FetchWord, PushByteToStack, PushWordToStack, PopByteFromStack, PopWordFromStack, fst_ite, snd_ite] <;> (first | omega | (split_ifs <;> omega))
  by_cases h49 : opcode = 0x09
  · subst h49; rw [ExecOp_eq_0x09]
    simp [ORA, AddrImmediate, FetchByte, MemReadByte, MemWriteByte, MemReadWord, FetchWord, PushByteToStack, PushWordToStack, PopByteFromStack, PopWordFromStack, fst_ite, snd_ite] <;> (first | omega | (split_ifs <;> omega))
  by_cases h50 : opcode = 0x05
  · subst h50; rw [ExecOp_eq_0x05]
    simp [ORA, AddrZeroPage, FetchByte, MemReadByte, MemWriteByte, MemReadWord, FetchWord, PushByteToStack, PushWordToStack, PopByteFromStack, PopWordFromStack, fst_ite, snd_ite] <;> (first | omega | (split_ifs <;> omega))
  by_cases h51 : opcode = 0x15
  · subst h51; rw [ExecOp_eq_0x15]
    simp [ORA, AddrZeroPageX, FetchByte, MemReadByte, MemWriteByte, MemReadWord, FetchWord, PushByteToStack, PushWordToStack, PopByteFromStack, PopWordFromStack, fst_ite, snd_ite] <;> (first | omega | (split_ifs <;> omega))
  by_cases h52 : opcode = 0x0D
  · subst h52; rw [ExecOp_eq_0x0D]
    simp [ORA, AddrAbsolute, FetchByte, MemReadByte, MemWriteByte, MemReadWord, FetchWord, PushByteToStack, PushWordToStack, PopByteFromStack, PopWordFromStack, fst_ite, snd_ite] <;> (first | omega | (split_ifs <;> omega))
  by_cases h53 : opcode = 0x1D
  · subst h53; rw [ExecOp_eq_0x1D]
    simp [ORA, AddrAbsoluteX, FetchByte, MemReadByte, MemWriteByte, MemReadWord, FetchWord, PushByteToStack, PushWordToStack, PopByteFromStack, PopWordFromStack, fst_ite, snd_ite] <;> (first | omega | (split_ifs <;> omega))
  by_cases h54 : opcode = 0x19
  · subst h54; rw [ExecOp_eq_0x19]
    simp [ORA, AddrAbsoluteY, FetchByte, MemReadByte, MemWriteByte, MemReadWord, FetchWord, PushByteToStack, PushWordToStack, PopByteFromStack, PopWordFromStack, fst_ite, snd_ite] <;> (first | omega | (split_ifs <;> omega))
  by_cases h55 : opcode = 0x01
  · subst h55; rw [ExecOp_eq_0x01]
    simp [ORA, AddrIndexedIndirect, FetchByte, MemReadByte, MemWriteByte, MemReadWord, FetchWord, PushByteToStack, PushWordToStack, PopByteFromStack, PopWordFromStack, fst_ite, snd_ite] <;> (first | omega | (split_ifs <;> omega))
  by_cases h56 : opcode = 0x11
  · subst h56; rw [ExecOp_eq_0x11]
    simp [ORA, AddrIndirectIndexed, FetchByte, MemReadByte, MemWriteByte, MemReadWord, FetchWord, PushByteToStack, PushWordToStack, PopByteFromStack, PopWordFromStack, fst_ite, snd_ite] <;> (first | omega | (split_ifs <;> omega))
  by_cases h57 : opcode = 0x49
  · subst h57; rw [ExecOp_eq_0x49]
    simp [EOR, AddrImmediate, FetchByte, MemReadByte, MemWriteByte, MemReadWord, FetchWord, PushByteToStack, PushWordToStack, PopByteFromStack, PopWordFromStack, fst_ite, snd_ite] <;> (first | omega | (split_ifs <;> omega))
  by_cases h58 : opcode = 0x45
  · subst h58; rw [ExecOp_eq_0x45]
    simp [EOR, AddrZeroPage, FetchByte, MemReadByte, MemWriteByte, MemReadWord, FetchWord, PushByteToStack, PushWordToStack, PopByteFromStack, PopWordFromStack, fst_ite, snd_ite] <;> (first | omega | (split_ifs <;> omega))
  by_cases h59 : opcode = 0x55
  · subst h59; rw [ExecOp_eq_0x55]
    simp [EOR, AddrZeroPageX, FetchByte, MemReadByte, MemWriteByte, MemReadWord, FetchWord, PushByteToStack, PushWordToStack, PopByteFromStack, PopWordFromStack, fst_ite, snd_ite] <;> (first | omega | (split_ifs <;> omega))
  by_cases h60 : opcode = 0x4D
  · subst h60; rw [ExecOp_eq_0x4D]
    simp [EOR, AddrAbsolute, FetchByte, MemReadByte, MemWriteByte, MemReadWord, FetchWord, PushByteToStack, PushWordToStack, PopByteFromStack, PopWordFromStack, fst_ite, snd_ite] <;> (first | omega | (split_ifs <;> omega))
  by_cases h61 : opcode = 0x5D
  · subst h61; rw [ExecOp_eq_0x5D]
    simp [EOR, AddrAbsoluteX, FetchByte, MemReadByte, MemWriteByte, MemReadWord, FetchWord, PushByteToStack, PushWordToStack, PopByteFromStack, PopWordFromStack, fst_ite, snd_ite] <;> (first | omega | (split_ifs <;> omega))
  by_cases h62 : opcode = 0x59
  · subst h62; rw [ExecOp_eq_0x59]
    simp [EOR, AddrAbsoluteY, FetchByte, MemReadByte, MemWriteByte, MemReadWord, FetchWord, PushByteToStack, PushWordToStack, PopByteFromStack, PopWordFromStack, fst_ite, snd_ite] <;> (first | omega | (split_ifs <;> omega))
  by_cases h63 : opcode = 0x41
  · subst h63; rw [ExecOp_eq_0x41]
    simp [EOR, AddrIndexedIndirect, FetchByte, MemReadByte, MemWriteByte, MemReadWord, FetchWord, PushByteToStack, PushWordToStack, PopByteFromStack, PopWordFromStack, fst_ite, snd_ite] <;> (first | omega | (split_ifs <;> omega))
  by_cases h64 : opcode = 0x51
  · subst h64; rw [ExecOp_eq_0x51]
    simp [EOR, AddrIndirectIndexed, FetchByte, MemReadByte, MemWriteByte, MemReadWord, FetchWord, PushByteToStack, PushWordToStack, PopByteFromStack, PopWordFromStack, fst_ite, snd_ite] <;> (first | omega | (split_ifs <;> omega))
  by_cases h65 : opcode = 0x24
  · subst h65; rw [ExecOp_eq_0x24]
    simp [BIT, AddrZeroPage, FetchByte, MemReadByte, MemWriteByte, MemReadWord, FetchWord, PushByteToStack, PushWordToStack, PopByteFromStack, PopWordFromStack, fst_ite, snd_ite] <;> (first | omega | (split_ifs <;> omega))
  by_cases h66 : opcode = 0x2C
  · subst h66; rw [ExecOp_eq_0x2C]
    simp [BIT, AddrAbsolute, FetchByte, MemReadByte, MemWriteByte, MemReadWord, FetchWord, PushByteToStack, PushWordToStack, PopByteFromStack, PopWordFromStack, fst_ite, snd_ite] <;> (first | omega | (split_ifs <;> omega))
  by_cases h67 : opcode = 0x69
  · subst h67; rw [ExecOp_eq_0x69]
    simp [ADC, AddrImmediate, FetchByte, MemReadByte, MemWriteByte, MemReadWord, FetchWord, PushByteToStack, PushWordToStack, PopByteFromStack, PopWordFromStack, fst_ite, snd_ite] <;> (first | omega | (split_ifs <;> omega))
  by_cases h68 : opcode = 0x65
  · subst h68; rw [ExecOp_eq_0x65]
    simp [ADC, AddrZeroPage, FetchByte, MemReadByte, MemWriteByte, MemReadWord, FetchWord, PushByteToStack, PushWordToStack, PopByteFromStack, PopWordFromStack, fst_ite, snd_ite] <;> (first | omega | (split_ifs <;> omega))
  by_cases h69 : opcode = 0x75
  · subst h69; rw [ExecOp_eq_0x75]
    simp [ADC, AddrZeroPageX, FetchByte, MemReadByte, MemWriteByte, MemReadWord, FetchWord, PushByteToStack, PushWordToStack, PopByteFromStack, PopWordFromStack, fst_ite, snd_ite] <;> (first | omega | (split_ifs <;> omega))
  by_cases h70 : opcode = 0x6D
  · subst h70; rw [ExecOp_eq_0x6D]
    simp [ADC, AddrAbsolute, FetchByte, MemReadByte, MemWriteByte, MemReadWord, FetchWord, PushByteToStack, PushWordToStack, PopByteFromStack, PopWordFromStack, fst_ite, snd_ite] <;> (first | omega | (split_ifs <;> omega))
  by_cases h71 : opcode = 0x7D
  · subst h71; rw [ExecOp_eq_0x7D]
    simp [ADC, AddrAbsoluteX, FetchByte, MemReadByte, MemWriteByte, MemReadWord, FetchWord, PushByteToStack, PushWordToStack, PopByteFromStack, PopWordFromStack, fst_ite, snd_ite] <;> (first | omega | (split_ifs <;> omega))
  by_cases h72 : opcode = 0x79
  · subst h72; rw [ExecOp_eq_0x79]
    simp [ADC, AddrAbsoluteY, FetchByte, MemReadByte, MemWriteByte, MemReadWord, FetchWord, PushByteToStack, PushWordToStack, PopByteFromStack, PopWordFromStack, fst_ite, snd_ite] <;> (first | omega | (split_ifs <;> omega))
  by_cases h73 : opcode = 0x61
  · subst h73; rw [ExecOp_eq_0x61]
    simp [ADC, AddrIndexedIndirect, FetchByte, MemReadByte, MemWriteByte, MemReadWord, FetchWord, PushByteToStack, PushWordToStack, PopByteFromStack, PopWordFromStack, fst_ite, snd_ite] <;> (first | omega | (split_ifs <;> omega))
  by_cases h74 : opcode = 0x71
  · subst h74; rw [ExecOp_eq_0x71]
    simp [ADC, AddrIndirectIndexed, FetchByte, MemReadByte, MemWriteByte, MemReadWord, FetchWord, PushByteToStack, PushWordToStack, PopByteFromStack, PopWordFromStack, fst_ite, snd_ite] <;> (first | omega | (split_ifs <;> omega))
  by_cases h75 : opcode = 0xE9
  · subst h75; rw [ExecOp_eq_0xE9]
    simp [SBC, AddrImmediate, FetchByte, MemReadByte, MemWriteByte, MemReadWord, FetchWord, PushByteToStack, PushWordToStack, PopByteFromStack, PopWordFromStack, fst_ite, snd_ite] <;> (first | omega | (split_ifs <;> omega))
  by_cases h76 : opcode = 0xE5
  · subst h76; rw [ExecOp_eq_0xE5]
    simp [SBC, AddrZeroPage, FetchByte, MemReadByte, MemWriteByte, MemReadWord, FetchWord, PushByteToStack, PushWordToStack, PopByteFromStack, PopWordFromStack, fst_ite, snd_ite] <;> (first | omega | (split_ifs <;> omega))
  by_cases h77 : opcode = 0xF5
  · subst h77; rw [ExecOp_eq_0xF5]
    simp [SBC, AddrZeroPageX, FetchByte, MemReadByte, MemWriteByte, MemReadWord, FetchWord, PushByteToStack, PushWordToStack, PopByteFromStack, PopWordFromStack, fst_ite, snd_ite] <;> (first | omega | (split_ifs <;> omega))
  by_cases h78 : opcode = 0xED
  · subst h78; rw [ExecOp_eq_0xED]
    simp [SBC, AddrAbsolute, FetchByte, MemReadByte, MemWriteByte, MemReadWord, FetchWord, PushByteToStack, PushWordToStack, PopByteFromStack, PopWordFromStack, fst_ite, snd_ite] <;> (first | omega | (split_ifs <;> omega))
  by_cases h79 : opcode = 0xFD
  · subst h79; rw [ExecOp_eq_0xFD]
    simp [SBC, AddrAbsoluteX, FetchByte, MemReadByte, MemWriteByte, MemReadWord, FetchWord, PushByteToStack, PushWordToStack, PopByteFromStack, PopWordFromStack, fst_ite, snd_ite] <;> (first | omega | (split_ifs <;> omega))
  by_cases h80 : opcode = 0xF9
  · subst h80; rw [ExecOp_eq_0xF9]
    simp [SBC, AddrAbsoluteY, FetchByte, MemReadByte, MemWriteByte, MemReadWord, FetchWord, PushByteToStack, PushWordToStack, PopByteFromStack, PopWordFromStack, fst_ite, snd_ite] <;> (first | omega | (split_ifs <;> omega))
  by_cases h81 : opcode = 0xE1
  · subst h81; rw [ExecOp_eq_0xE1]
    simp [SBC, AddrIndexedIndirect, FetchByte, MemReadByte, MemWriteByte, MemReadWord, FetchWord, PushByteToStack, PushWordToStack, PopByteFromStack, PopWordFromStack, fst_ite, snd_ite] <;> (first | omega | (split_ifs <;> omega))
  by_cases h82 : opcode = 0xF1
  · subst h82; rw [ExecOp_eq_0xF1]
    simp [SBC, AddrIndirectIndexed, FetchByte, MemReadByte, MemWriteByte, MemReadWord, FetchWord, PushByteToStack, PushWordToStack, PopByteFromStack, PopWordFromStack, fst_ite, snd_ite] <;> (first | omega | (split_ifs <;> omega))
  by_cases h83 : opcode = 0xC9
  · subst h83; rw [ExecOp_eq_0xC9]
    simp [CMP, AddrImmediate, FetchByte, MemReadByte, MemWriteByte, MemReadWord, FetchWord, PushByteToStack, PushWordToStack, PopByteFromStack, PopWordFromStack, fst_ite, snd_ite] <;> (first | omega | (split_ifs <;> omega))
  by_cases h84 : opcode = 0xC5
  · subst h84; rw [ExecOp_eq_0xC5]
    simp [CMP, AddrZeroPage, FetchByte, MemReadByte, MemWriteByte, MemReadWord, FetchWord, PushByteToStack, PushWordToStack, PopByteFromStack, PopWordFromStack, fst_ite, snd_ite] <;> (first | omega | (split_ifs <;> omega))
  by_cases h85 : opcode = 0xD5
  · subst h85; rw [ExecOp_eq_0xD5]
    simp [CMP, AddrZeroPageX, FetchByte, MemReadByte, MemWriteByte, MemReadWord, FetchWord, PushByteToStack, PushWordToStack, PopByteFromStack, PopWordFromStack, fst_ite, snd_ite] <;> (first | omega | (split_ifs <;> omega))
  by_cases h86 : opcode = 0xCD
  · subst h86; rw [ExecOp_eq_0xCD]
    simp [CMP, AddrAbsolute, FetchByte, MemReadByte, MemWriteByte, MemReadWord, FetchWord, PushByteToStack, PushWordToStack, PopByteFromStack, PopWordFromStack, fst_ite, snd_ite] <;> (first | omega | (split_ifs <;> omega))
  by_cases h87 : opcode = 0xDD
  · subst h87; rw [ExecOp_eq_0xDD]
    simp [CMP, AddrAbsoluteX, FetchByte, MemReadByte, MemWriteByte, MemReadWord, FetchWord, PushByteToStack, PushWordToStack, PopByteFromStack, PopWordFromStack, fst_ite, snd_ite] <;> (first | omega | (split_ifs <;> omega))
  by_cases h88 : opcode = 0xD9
  · subst h88; rw [ExecOp_eq_0xD9]
    simp [CMP, AddrAbsoluteY, FetchByte, MemReadByte, MemWriteByte, MemReadWord, FetchWord, PushByteToStack, PushWordToStack, PopByteFromStack, PopWordFromStack, fst_ite, snd_ite] <;> (first | omega | (split_ifs <;> omega))
  by_cases h89 : opcode = 0xC1
  · subst h89; rw [ExecOp_eq_0xC1]
    simp [CMP, AddrIndexedIndirect, FetchByte, MemReadByte, MemWriteByte, MemReadWord, FetchWord, PushByteToStack, PushWordToStack, PopByteFromStack, PopWordFromStack, fst_ite, snd_ite] <;> (first | omega | (split_ifs <;> omega))
  by_cases h90 : opcode = 0xD1
  · subst h90; rw [ExecOp_eq_0xD1]
    simp [CMP, AddrIndirectIndexed, FetchByte, MemReadByte, MemWriteByte, MemReadWord, FetchWord, PushByteToStack, PushWordToStack, PopByteFromStack, PopWordFromStack, fst_ite, snd_ite] <;> (first | omega | (split_ifs <;> omega))
  by_cases h91 : opcode = 0xE0
  · subst h91; rw [ExecOp_eq_0xE0]
    simp [CPX, AddrImmediate, FetchByte, MemReadByte, MemWriteByte, MemReadWord, FetchWord, PushByteToStack, PushWordToStack, PopByteFromStack, PopWordFromStack, fst_ite, snd_ite] <;> (first | omega | (split_ifs <;> omega))
  by_cases h92 : opcode = 0xE4
  · subst h92; rw [ExecOp_eq_0xE4]
    simp [CPX, AddrZeroPage, FetchByte, MemReadByte, MemWriteByte, MemReadWord, FetchWord, PushByteToStack, PushWordToStack, PopByteFromStack, PopWordFromStack, fst_ite, snd_ite] <;> (first | omega | (split_ifs <;> omega))
  by_cases h93 : opcode = 0xEC
  · subst h93; rw [ExecOp_eq_0xEC]
    simp [CPX, AddrAbsolute, FetchByte, MemReadByte, MemWriteByte, MemReadWord, FetchWord, PushByteToStack, PushWordToStack, PopByteFromStack, PopWordFromStack, fst_ite, snd_ite] <;> (first | omega | (split_ifs <;> omega))
  by_cases h94 : opcode = 0xC0
  · subst h94; rw [ExecOp_eq_0xC0]
    simp [CPY, AddrImmediate, FetchByte, MemReadByte, MemWriteByte, MemReadWord, FetchWord, PushByteToStack, PushWordToStack, PopByteFromStack, PopWordFromStack, fst_ite, snd_ite] <;> (first | omega | (split_ifs <;> omega))
  by_cases h95 : opcode = 0xC4
  · subst h95; rw [ExecOp_eq_0xC4]
    simp [CPY, AddrZeroPage, FetchByte, MemReadByte, MemWriteByte, MemReadWord, FetchWord, PushByteToStack, PushWordToStack, PopByteFromStack, PopWordFromStack, fst_ite, snd_ite] <;> (first | omega | (split_ifs <;> omega))
  by_cases h96 : opcode = 0xCC
  · subst h96; rw [ExecOp_eq_0xCC]
    simp [CPY, AddrAbsolute, FetchByte, MemReadByte, MemWriteByte, MemReadWord, FetchWord, PushByteToStack, PushWordToStack, PopByteFromStack, PopWordFromStack, fst_ite, snd_ite] <;> (first | omega | (split_ifs <;> omega))
  by_cases h97 : opcode = 0xE6
  · subst h97; rw [ExecOp_eq_0xE6]
    simp [INC, AddrZeroPage, FetchByte, MemReadByte, MemWriteByte, MemReadWord, FetchWord, PushByteToStack, PushWordToStack, PopByteFromStack, PopWordFromStack, fst_ite, snd_ite] <;> (first | omega | (split_ifs <;> omega))
  by_cases h98 : opcode = 0xF6
  · subst h98; rw [ExecOp_eq_0xF6]
    simp [INC, AddrZeroPageX, FetchByte, MemReadByte, MemWriteByte, MemReadWord, FetchWord, PushByteToStack, PushWordToStack, PopByteFromStack, PopWordFromStack, fst_ite, snd_ite] <;> (first | omega | (split_ifs <;> omega))
  by_cases h99 : opcode = 0xEE
  · subst h99; rw [ExecOp_eq_0xEE]
    simp [INC, AddrAbsolute, FetchByte, MemReadByte, MemWriteByte, MemReadWord, FetchWord, PushByteToStack, PushWordToStack, PopByteFromStack, PopWordFromStack, fst_ite, snd_ite] <;> (first | omega | (split_ifs <;> omega))
  by_cases h100 : opcode = 0xFE
  · subst h100; rw [ExecOp_eq_0xFE]
    simp [INC, AddrAbsoluteX, FetchByte, MemReadByte, MemWriteByte, MemReadWord, FetchWord, PushByteToStack, PushWordToStack, PopByteFromStack, PopWordFromStack, fst_ite, snd_ite] <;> (first | omega | (split_ifs <;> omega))
  by_cases h101 : opcode = 0xE8
  · subst h101; rw [ExecOp_eq_0xE8]
    simp [INX, FetchByte, MemReadByte, MemWriteByte, MemReadWord, FetchWord, PushByteToStack, PushWordToStack, PopByteFromStack, PopWordFromStack, fst_ite, snd_ite] <;> (first | omega | (split_ifs <;> omega))
  by_cases h102 : opcode = 0xC8
  · subst h102; rw [ExecOp_eq_0xC8]
    simp [INY, FetchByte, MemReadByte, MemWriteByte, MemReadWord, FetchWord, PushByteToStack, PushWordToStack, PopByteFromStack, PopWordFromStack, fst_ite, snd_ite] <;> (first | omega | (split_ifs <;> omega))
  by_cases h103 : opcode = 0xC6
  · subst h103; rw [ExecOp_eq_0xC6]
    simp [DEC, AddrZeroPage, FetchByte, MemReadByte, MemWriteByte, MemReadWord, FetchWord, PushByteToStack, PushWordToStack, PopByteFromStack, PopWordFromStack, fst_ite, snd_ite] <;> (first | omega | (split_ifs <;> omega))
  by_cases h104 : opcode = 0xD6
  · subst h104; rw [ExecOp_eq_0xD6]
    simp [DEC, AddrZeroPageX, FetchByte, MemReadByte, MemWriteByte, MemReadWord, FetchWord, PushByteToStack, PushWordToStack, PopByteFromStack, PopWordFromStack, fst_ite, snd_ite] <;> (first | omega | (split_ifs <;> omega))
  by_cases h105 : opcode = 0xCE
  · subst h105; rw [ExecOp_eq_0xCE]
    simp [DEC, AddrAbsolute, FetchByte, MemReadByte, MemWriteByte, MemReadWord, FetchWord, PushByteToStack, PushWordToStack, PopByteFromStack, PopWordFromStack, fst_ite, snd_ite] <;> (first | omega | (split_ifs <;> omega))
  by_cases h106 : opcode = 0xDE
  · subst h106; rw [ExecOp_eq_0xDE]
    simp [DEC, AddrAbsoluteX, FetchByte, MemReadByte, MemWriteByte, MemReadWord, FetchWord, PushByteToStack, PushWordToStack, PopByteFromStack, PopWordFromStack, fst_ite, snd_ite] <;> (first | omega | (split_ifs <;> omega))
  by_cases h107 : opcode = 0xCA
  · subst h107; rw [ExecOp_eq_0xCA]
    simp [DEX, FetchByte, MemReadByte, MemWriteByte, MemReadWord, FetchWord, PushByteToStack, PushWordToStack, PopByteFromStack, PopWordFromStack, fst_ite, snd_ite] <;> (first | omega | (split_ifs <;> omega))
  by_cases h108 : opcode = 0x88
  · subst h108; rw [ExecOp_eq_0x88]
    simp [DEY, FetchByte, MemReadByte, MemWriteByte, MemReadWord, FetchWord, PushByteToStack, PushWordToStack, PopByteFromStack, PopWordFromStack, fst_ite, snd_ite] <;> (first | omega | (split_ifs <;> omega))
  by_cases h109 : opcode = 0x0A
  · subst h109; rw [ExecOp_eq_0x0A]
    simp [ASL_ACC, FetchByte, MemReadByte, MemWriteByte, MemReadWord, FetchWord, PushByteToStack, PushWordToStack, PopByteFromStack, PopWordFromStack, fst_ite, snd_ite] <;> (first | omega | (split_ifs <;> omega))
  by_cases h110 : opcode = 0x06
  · subst h110; rw [ExecOp_eq_0x06]
    simp [ASL_MEM, AddrZeroPage, FetchByte, MemReadByte, MemWriteByte, MemReadWord, FetchWord, PushByteToStack, PushWordToStack, PopByteFromStack, PopWordFromStack, fst_ite, snd_ite] <;> (first | omega | (split_ifs <;> omega))
  by_cases h111 : opcode = 0x16
  · subst h111; rw [ExecOp_eq_0x16]
    simp [ASL_MEM, AddrZeroPageX, FetchByte, MemReadByte, MemWriteByte, MemReadWord, FetchWord, PushByteToStack, PushWordToStack, PopByteFromStack, PopWordFromStack, fst_ite, snd_ite] <;> (first | omega | (split_ifs <;> omega))
  by_cases h112 : opcode = 0x0E
  · subst h112; rw [ExecOp_eq_0x0E]
    simp [ASL_MEM, AddrAbsolute, FetchByte, MemReadByte, MemWriteByte, MemReadWord, FetchWord, PushByteToStack, PushWordToStack, PopByteFromStack, PopWordFromStack, fst_ite, snd_ite] <;> (first | omega | (split_ifs <;> omega))
  by_cases h113 : opcode = 0x1E
  · subst h113; rw [ExecOp_eq_0x1E]
    simp [ASL_MEM, AddrAbsoluteX, FetchByte, MemReadByte, MemWriteByte, MemReadWord, FetchWord, PushByteToStack, PushWordToStack, PopByteFromStack, PopWordFromStack, fst_ite, snd_ite] <;> (first | omega | (split_ifs <;> omega))
  by_cases h114 : opcode = 0x4A
  · subst h114; rw [ExecOp_eq_0x4A]
    simp [LSR_ACC, FetchByte, MemReadByte, MemWriteByte, MemReadWord, FetchWord, PushByteToStack, PushWordToStack, PopByteFromStack, PopWordFromStack, fst_ite, snd_ite] <;> (first | omega | (split_ifs <;> omega))
  by_cases h115 : opcode = 0x46
  · subst h115; rw [ExecOp_eq_0x46]
    simp [LSR_MEM, AddrZeroPage, FetchByte, MemReadByte, MemWriteByte, MemReadWord, FetchWord, PushByteToStack, PushWordToStack, PopByteFromStack, PopWordFromStack, fst_ite, snd_ite] <;> (first | omega | (split_ifs <;> omega))
  by_cases h116 : opcode = 0x56
  · subst h116; rw [ExecOp_eq_0x56]
    simp [LSR_MEM, AddrZeroPageX, FetchByte, MemReadByte, MemWriteByte, MemReadWord, FetchWord, PushByteToStack, PushWordToStack, PopByteFromStack, PopWordFromStack, fst_ite, snd_ite] <;> (first | omega | (split_ifs <;> omega))
  by_cases h117 : opcode = 0x4E
  · subst h117; rw [ExecOp_eq_0x4E]
    simp [LSR_MEM, AddrAbsolute, FetchByte, MemReadByte, MemWriteByte, MemReadWord, FetchWord, PushByteToStack, PushWordToStack, PopByteFromStack, PopWordFromStack, fst_ite, snd_ite] <;> (first | omega | (split_ifs <;> omega))
  by_cases h118 : opcode = 0x5E
  · subst h118; rw [ExecOp_eq_0x5E]
    simp [LSR_MEM, AddrAbsoluteX, FetchByte, MemReadByte, MemWriteByte, MemReadWord, FetchWord, PushByteToStack, PushWordToStack, PopByteFromStack, PopWordFromStack, fst_ite, snd_ite] <;> (first | omega | (split_ifs <;> omega))
  by_cases h119 : opcode = 0x2A
  · subst h119; rw [ExecOp_eq_0x2A]
    simp [ROL_ACC, FetchByte, MemReadByte, MemWriteByte, MemReadWord, FetchWord, PushByteToStack, PushWordToStack, PopByteFromStack, PopWordFromStack, fst_ite, snd_ite] <;> (first | omega | (split_ifs <;> omega))
  by_cases h120 : opcode = 0x26
  · subst h120; rw [ExecOp_eq_0x26]
    simp [ROL_MEM, AddrZeroPage, FetchByte, MemReadByte, MemWriteByte, MemReadWord, FetchWord, PushByteToStack, PushWordToStack, PopByteFromStack, PopWordFromStack, fst_ite, snd_ite] <;> (first | omega | (split_ifs <;> omega))
  by_cases h121 : opcode = 0x36
  · subst h121; rw [ExecOp_eq_0x36]
    simp [ROL_MEM, AddrZeroPageX, FetchByte, MemReadByte, MemWriteByte, MemReadWord, FetchWord, PushByteToStack, PushWordToStack, PopByteFromStack, PopWordFromStack, fst_ite, snd_ite] <;> (first | omega | (split_ifs <;> omega))
  by_cases h122 : opcode = 0x2E
  · subst h122; rw [ExecOp_eq_0x2E]
    simp [ROL_MEM, AddrAbsolute, FetchByte, MemReadByte, MemWriteByte, MemReadWord, FetchWord, PushByteToStack, PushWordToStack, PopByteFromStack, PopWordFromStack, fst_ite, snd_ite] <;> (first | omega | (split_ifs <;> omega))
  by_cases h123 : opcode = 0x3E
  · subst h123; rw [ExecOp_eq_0x3E]
    simp [ROL_MEM, AddrAbsoluteX, FetchByte, MemReadByte, MemWriteByte, MemReadWord, FetchWord, PushByteToStack, PushWordToStack, PopByteFromStack, PopWordFromStack, fst_ite, snd_ite] <;> (first | omega | (split_ifs <;> omega))
  by_cases h124 : opcode = 0x6A
  · subst h124; rw [ExecOp_eq_0x6A]
    simp [ROR_ACC, FetchByte, MemReadByte, MemWriteByte, MemReadWord, FetchWord, PushByteToStack, PushWordToStack, PopByteFromStack, PopWordFromStack, fst_ite, snd_ite] <;> (first | omega | (split_ifs <;> omega))
  by_cases h125 : opcode = 0x66
  · subst h125; rw [ExecOp_eq_0x66]
    simp [ROR_MEM, AddrZeroPage, FetchByte, MemReadByte, MemWriteByte, MemReadWord, FetchWord, PushByteToStack, PushWordToStack, PopByteFromStack, PopWordFromStack, fst_ite, snd_ite] <;> (first | omega | (split_ifs <;> omega))
  by_cases h126 : opcode = 0x76
  · subst h126; rw [ExecOp_eq_0x76]
    simp [ROR_MEM, AddrZeroPageX, FetchByte, MemReadByte, MemWriteByte, MemReadWord, FetchWord, PushByteToStack, PushWordToStack, PopByteFromStack, PopWordFromStack, fst_ite, snd_ite] <;> (first | omega | (split_ifs <;> omega))
  by_cases h127 : opcode = 0x6E
  · subst h127; rw [ExecOp_eq_0x6E]
    simp [ROR_MEM, AddrAbsolute, FetchByte, MemReadByte, MemWriteByte, MemReadWord, FetchWord, PushByteToStack, PushWordToStack, PopByteFromStack, PopWordFromStack, fst_ite, snd_ite] <;> (first | omega | (split_ifs <;> omega))
  by_cases h128 : opcode = 0x7E
  · subst h128; rw [ExecOp_eq_0x7E]
    simp [ROR_MEM, AddrAbsoluteX, FetchByte, MemReadByte, MemWriteByte, MemReadWord, FetchWord, PushByteToStack, PushWordToStack, PopByteFromStack, PopWordFromStack, fst_ite, snd_ite] <;> (first | omega | (split_ifs <;> omega))
  by_cases h129 : opcode = 0x4C
  · subst h129; rw [ExecOp_eq_0x4C]
    simp [JMP, AddrAbsolute, FetchByte, MemReadByte, MemWriteByte, MemReadWord, FetchWord, PushByteToStack, PushWordToStack, PopByteFromStack, PopWordFromStack, fst_ite, snd_ite] <;> (first | omega | (split_ifs <;> omega))
  by_cases h130 : opcode = 0x6C
  · subst h130; rw [ExecOp_eq_0x6C]
    simp [JMP, FetchWord, MemReadWord, FetchByte, MemReadByte, MemWriteByte, MemReadWord, FetchWord, PushByteToStack, PushWordToStack, PopByteFromStack, PopWordFromStack, fst_ite, snd_ite] <;> (first | omega | (split_ifs <;> omega))
  by_cases h131 : opcode = 0x20
  · subst h131; rw [ExecOp_eq_0x20]
    simp [JSR, AddrAbsolute, FetchByte, MemReadByte, MemWriteByte, MemReadWord, FetchWord, PushByteToStack, PushWordToStack, PopByteFromStack, PopWordFromStack, fst_ite, snd_ite] <;> (first | omega | (split_ifs <;> omega))
  by_cases h132 : opcode = 0x60
  · subst h132; rw [ExecOp_eq_0x60]
    simp [RTS, FetchByte, MemReadByte, MemWriteByte, MemReadWord, FetchWord, PushByteToStack, PushWordToStack, PopByteFromStack, PopWordFromStack, fst_ite, snd_ite] <;> (first | omega | (split_ifs <;> omega))
  by_cases h133 : opcode = 0x40
  · subst h133; rw [ExecOp_eq_0x40]
    simp [RTI, FetchByte, MemReadByte, MemWriteByte, MemReadWord, FetchWord, PushByteToStack, PushWordToStack, PopByteFromStack, PopWordFromStack, fst_ite, snd_ite] <;> (first | omega | (split_ifs <;> omega))
  by_cases h134 : opcode = 0x90
  · subst h134; rw [ExecOp_eq_0x90]
    simp [BranchIf, FetchByte, MemReadByte, MemWriteByte, MemReadWord, FetchWord, PushByteToStack, PushWordToStack, PopByteFromStack, PopWordFromStack, fst_ite, snd_ite] <;> (first | omega | (split_ifs <;> omega))
  by_cases h135 : opcode = 0xB0
  · subst h135; rw [ExecOp_eq_0xB0]
    simp [BranchIf, FetchByte, MemReadByte, MemWriteByte, MemReadWord, FetchWord, PushByteToStack, PushWordToStack, PopByteFromStack, PopWordFromStack, fst_ite, snd_ite] <;> (first | omega | (split_ifs <;> omega))
  by_cases h136 : opcode = 0xF0
  · subst h136; rw [ExecOp_eq_0xF0]
    simp [BranchIf, FetchByte, MemReadByte, MemWriteByte, MemReadWord, FetchWord, PushByteToStack, PushWordToStack, PopByteFromStack, PopWordFromStack, fst_ite, snd_ite] <;> (first | omega | (split_ifs <;> omega))
  by_cases h137 : opcode = 0x30
  · subst h137; rw [ExecOp_eq_0x30]
    simp [BranchIf, FetchByte, MemReadByte, MemWriteByte, MemReadWord, FetchWord, PushByteToStack, PushWordToStack, PopByteFromStack, PopWordFromStack, fst_ite, snd_ite] <;> (first | omega | (split_ifs <;> omega))
  by_cases h138 : opcode = 0xD0
  · subst h138; rw [ExecOp_eq_0xD0]
    simp [BranchIf, FetchByte, MemReadByte, MemWriteByte, MemReadWord, FetchWord, PushByteToStack, PushWordToStack, PopByteFromStack, PopWordFromStack, fst_ite, snd_ite] <;> (first | omega | (split_ifs <;> omega))
  by_cases h139 : opcode = 0x10
  · subst h139; rw [ExecOp_eq_0x10]
    simp [BranchIf, FetchByte, MemReadByte, MemWriteByte, MemReadWord, FetchWord, PushByteToStack, PushWordToStack, PopByteFromStack, PopWordFromStack, fst_ite, snd_ite] <;> (first | omega | (split_ifs <;> omega))
  by_cases h140 : opcode = 0x50
  · subst h140; rw [ExecOp_eq_0x50]
    simp [BranchIf, FetchByte, MemReadByte, MemWriteByte, MemReadWord, FetchWord, PushByteToStack, PushWordToStack, PopByteFromStack, PopWordFromStack, fst_ite, snd_ite] <;> (first | omega | (split_ifs <;> omega))
  by_cases h141 : opcode = 0x70
  · subst h141; rw [ExecOp_eq_0x70]
    simp [BranchIf, FetchByte, MemReadByte, MemWriteByte, MemReadWord, FetchWord, PushByteToStack, PushWordToStack, PopByteFromStack, PopWordFromStack, fst_ite, snd_ite] <;> (first | omega | (split_ifs <;> omega))
  by_cases h142 : opcode = 0x18
  · subst h142; rw [ExecOp_eq_0x18]
    simp [CLC, FetchByte, MemReadByte, MemWriteByte, MemReadWord, FetchWord, PushByteToStack, PushWordToStack, PopByteFromStack, PopWordFromStack, fst_ite, snd_ite] <;> (first | omega | (split_ifs <;> omega))
  by_cases h143 : opcode = 0xD8
  · subst h143; rw [ExecOp_eq_0xD8]
    simp [CLD, FetchByte, MemReadByte, MemWriteByte, MemReadWord, FetchWord, PushByteToStack, PushWordToStack, PopByteFromStack, PopWordFromStack, fst_ite, snd_ite] <;> (first | omega | (split_ifs <;> omega))
  by_cases h144 : opcode = 0x58
  · subst h144; rw [ExecOp_eq_0x58]
    simp [CLI, FetchByte, MemReadByte, MemWriteByte, MemReadWord, FetchWord, PushByteToStack, PushWordToStack, PopByteFromStack, PopWordFromStack, fst_ite, snd_ite] <;> (first | omega | (split_ifs <;> omega))
  by_cases h145 : opcode = 0xB8
  · subst h145; rw [ExecOp_eq_0xB8]
    simp [CLV, FetchByte, MemReadByte, MemWriteByte, MemReadWord, FetchWord, PushByteToStack, PushWordToStack, PopByteFromStack, PopWordFromStack, fst_ite, snd_ite] <;> (first | omega | (split_ifs <;> omega))
  by_cases h146 : opcode = 0x38
  · subst h146; rw [ExecOp_eq_0x38]
    simp [SEC, FetchByte, MemReadByte, MemWriteByte, MemReadWord, FetchWord, PushByteToStack, PushWordToStack, PopByteFromStack, PopWordFromStack, fst_ite, snd_ite] <;> (first | omega | (split_ifs <;> omega))
  by_cases h147 : opcode = 0xF8
  · subst h147; rw [ExecOp_eq_0xF8]
    simp [SED, FetchByte, MemReadByte, MemWriteByte, MemReadWord, FetchWord, PushByteToStack, PushWordToStack, PopByteFromStack, PopWordFromStack, fst_ite, snd_ite] <;> (first | omega | (split_ifs <;> omega))
  by_cases h148 : opcode = 0x78
  · subst h148; rw [ExecOp_eq_0x78]
    simp [SEI, FetchByte, MemReadByte, MemWriteByte, MemReadWord, FetchWord, PushByteToStack, PushWordToStack, PopByteFromStack, PopWordFromStack, fst_ite, snd_ite] <;> (first | omega | (split_ifs <;> omega))
  by_cases h149 : opcode = 0x00
  · subst h149; rw [ExecOp_eq_0x00]
    simp [BRK, FetchByte, MemReadByte, MemWriteByte, MemReadWord, FetchWord, PushByteToStack, PushWordToStack, PopByteFromStack, PopWordFromStack, fst_ite, snd_ite] <;> (first | omega | (split_ifs <;> omega))
  by_cases h150 : opcode = 0xEA
  · subst h150; rw [ExecOp_eq_0xEA]
    simp [NOP, FetchByte, MemReadByte, MemWriteByte, MemReadWord, FetchWord, PushByteToStack, PushWordToStack, PopByteFromStack, PopWordFromStack, fst_ite, snd_ite] <;> (first | omega | (split_ifs <;> omega))
  rw [ExecOp_eq_default opcode s cy h0 h1 h2 h3 h4 h5 h6 h7 h8 h9 h10 h11 h12 h13 h14 h15 h16 h17 h18 h19 h20 h21 h22 h23 h24 h25 h26 h27 h28 h29 h30 h31 h32 h33 h34 h35 h36 h37 h38 h39 h40 h41 h42 h43 h44 h45 h46 h47 h48 h49 h50 h51 h52 h53 h54 h55 h56 h57 h58 h59 h60 h61 h62 h63 h64 h65 h66 h67 h68 h69 h70 h71 h72 h73 h74 h75 h76 h77 h78 h79 h80 h81 h82 h83 h84 h85 h86 h87 h88 h89 h90 h91 h92 h93 h94 h95 h96 h97 h98 h99 h100 h101 h102 h103 h104 h105 h106 h107 h108 h109 h110 h111 h112 h113 h114 h115 h116 h117 h118 h119 h120 h121 h122 h123 h124 h125 h126 h127 h128 h129 h130 h131 h132 h133 h134 h135 h136 h137 h138 h139 h140 h141 h142 h143 h144 h145 h146 h147 h148 h149 h150]
  simp

set_option maxHeartbeats 1000000 in
/-- Every dispatch arm preserves a set Unused bit (bit 5) of P:
flag updates go through `SetFlag` with masks that do not cover bit 5,
and PLP/RTI force the bit back on. -/
theorem ExecOp_P_bit5 (opcode : Nat) (s : St) (cy : Nat) (h : s.P.testBit 5 = true) :
    ((ExecOp opcode s cy).1).P.testBit 5 = true := by
  by_cases g0 : opcode = 0xA9
  · subst g0; rw [ExecOp_eq_0xA9]
    simp +decide [LDA, AddrImmediate, FetchByte, MemReadByte, MemWriteByte, MemReadWord, FetchWord, PushByteToStack, PushWordToStack, PopByteFromStack, PopWordFromStack, fst_ite, snd_ite, UpdateZN, CompareRegister, SetFlag_testBit, P_ite, testBit_ite, FLAG_CARRY, FLAG_ZERO, FLAG_INTERRUPT, FLAG_DECIMAL, FLAG_BREAK, FLAG_UNUSED, FLAG_OVERFLOW, FLAG_NEGATIVE, h]
  by_cases g1 : opcode = 0xA5
  · subst g1; rw [ExecOp_eq_0xA5]
    simp +decide [LDA, AddrZeroPage, FetchByte, MemReadByte, MemWriteByte, MemReadWord, FetchWord, PushByteToStack, PushWordToStack, PopByteFromStack, PopWordFromStack, fst_ite, snd_ite, UpdateZN, CompareRegister, SetFlag_testBit, P_ite, testBit_ite, FLAG_CARRY, FLAG_ZERO, FLAG_INTERRUPT, FLAG_DECIMAL, FLAG_BREAK, FLAG_UNUSED, FLAG_OVERFLOW, FLAG_NEGATIVE, h]
  by_cases g2 : opcode = 0xB5
  · subst g2; rw [ExecOp_eq_0xB5]
    simp +decide [LDA, AddrZeroPageX, FetchByte, MemReadByte, MemWriteByte, MemReadWord, FetchWord, PushByteToStack, PushWordToStack, PopByteFromStack, PopWordFromStack, fst_ite, snd_ite, UpdateZN, CompareRegister, SetFlag_testBit, P_ite, testBit_ite, FLAG_CARRY, FLAG_ZERO, FLAG_INTERRUPT, FLAG_DECIMAL, FLAG_BREAK, FLAG_UNUSED, FLAG_OVERFLOW, FLAG_NEGATIVE, h]
  by_cases g3 : opcode = 0xAD
  · subst g3; rw [ExecOp_eq_0xAD]
    simp +decide [LDA, AddrAbsolute, FetchByte, MemReadByte, MemWriteByte, MemReadWord, FetchWord, PushByteToStack, PushWordToStack, PopByteFromStack, PopWordFromStack, fst_ite, snd_ite, UpdateZN, CompareRegister, SetFlag_testBit, P_ite, testBit_ite, FLAG_CARRY, FLAG_ZERO, FLAG_INTERRUPT, FLAG_DECIMAL, FLAG_BREAK, FLAG_UNUSED, FLAG_OVERFLOW, FLAG_NEGATIVE, h]
  by_cases g4 : opcode = 0xBD
  · subst g4; rw [ExecOp_eq_0xBD]
    simp +decide [LDA, AddrAbsoluteX, FetchByte, MemReadByte, MemWriteByte, MemReadWord, FetchWord, PushByteToStack, PushWordToStack, PopByteFromStack, PopWordFromStack, fst_ite, snd_ite, UpdateZN, CompareRegister, SetFlag_testBit, P_ite, testBit_ite, FLAG_CARRY, FLAG_ZERO, FLAG_INTERRUPT, FLAG_DECIMAL, FLAG_BREAK, FLAG_UNUSED, FLAG_OVERFLOW, FLAG_NEGATIVE, h]
  by_cases g5 : opcode = 0xB9
  · subst g5; rw [ExecOp_eq_0xB9]
    simp +decide [LDA, AddrAbsoluteY, FetchByte, MemReadByte, MemWriteByte, MemReadWord, FetchWord, PushByteToStack, PushWordToStack, PopByteFromStack, PopWordFromStack, fst_ite, snd_ite, UpdateZN, CompareRegister, SetFlag_testBit, P_ite, testBit_ite, FLAG_CARRY, FLAG_ZERO, FLAG_INTERRUPT, FLAG_DECIMAL, FLAG_BREAK, FLAG_UNUSED, FLAG_OVERFLOW, FLAG_NEGATIVE, h]
  by_cases g6 : opcode = 0xA1
  · subst g6; rw [ExecOp_eq_0xA1]
    simp +decide [LDA, AddrIndexedIndirect, FetchByte, MemReadByte, MemWriteByte, MemReadWord, FetchWord, PushByteToStack, PushWordToStack, PopByteFromStack, PopWordFromStack, fst_ite, snd_ite, UpdateZN, CompareRegister, SetFlag_testBit, P_ite, testBit_ite, FLAG_CARRY, FLAG_ZERO, FLAG_INTERRUPT, FLAG_DECIMAL, FLAG_BREAK, FLAG_UNUSED, FLAG_OVERFLOW, FLAG_NEGATIVE, h]
  by_cases g7 : opcode = 0xB1
  · subst g7; rw [ExecOp_eq_0xB1]
    simp +decide [LDA, AddrIndirectIndexed, FetchByte, MemReadByte, MemWriteByte, MemReadWord, FetchWord, PushByteToStack, PushWordToStack, PopByteFromStack, PopWordFromStack, fst_ite, snd_ite, UpdateZN, CompareRegister, SetFlag_testBit, P_ite, testBit_ite, FLAG_CARRY, FLAG_ZERO, FLAG_INTERRUPT, FLAG_DECIMAL, FLAG_BREAK, FLAG_UNUSED, FLAG_OVERFLOW, FLAG_NEGATIVE, h]
  by_cases g8 : opcode = 0xA2
  · subst g8; rw [ExecOp_eq_0xA2]
    simp +decide [LDX, AddrImmediate, FetchByte, MemReadByte, MemWriteByte, MemReadWord, FetchWord, PushByteToStack, PushWordToStack, PopByteFromStack, PopWordFromStack, fst_ite, snd_ite, UpdateZN, CompareRegister, SetFlag_testBit, P_ite, testBit_ite, FLAG_CARRY, FLAG_ZERO, FLAG_INTERRUPT, FLAG_DECIMAL, FLAG_BREAK, FLAG_UNUSED, FLAG_OVERFLOW, FLAG_NEGATIVE, h]
  by_cases g9 : opcode = 0xA6
  · subst g9; rw [ExecOp_eq_0xA6]
    simp +decide [LDX, AddrZeroPage, FetchByte, MemReadByte, MemWriteByte, MemReadWord, FetchWord, PushByteToStack, PushWordToStack, PopByteFromStack, PopWordFromStack, fst_ite, snd_ite, UpdateZN, CompareRegister, SetFlag_testBit, P_ite, testBit_ite, FLAG_CARRY, FLAG_ZERO, FLAG_INTERRUPT, FLAG_DECIMAL, FLAG_BREAK, FLAG_UNUSED, FLAG_OVERFLOW, FLAG_NEGATIVE, h]
  by_cases g10 : opcode = 0xB6
  · subst g10; rw [ExecOp_eq_0xB6]
    simp +decide [LDX, AddrZeroPageY, FetchByte, MemReadByte, MemWriteByte, MemReadWord, FetchWord, PushByteToStack, PushWordToStack, PopByteFromStack, PopWordFromStack, fst_ite, snd_ite, UpdateZN, CompareRegister, SetFlag_testBit, P_ite, testBit_ite, FLAG_CARRY, FLAG_ZERO, FLAG_INTERRUPT, FLAG_DECIMAL, FLAG_BREAK, FLAG_UNUSED, FLAG_OVERFLOW, FLAG_NEGATIVE, h]
  by_cases g11 : opcode = 0xAE
  · subst g11; rw [ExecOp_eq_0xAE]
    simp +decide [LDX, AddrAbsolute, FetchByte, MemReadByte, MemWriteByte, MemReadWord, FetchWord, PushByteToStack, PushWordToStack, PopByteFromStack, PopWordFromStack, fst_ite, snd_ite, UpdateZN, CompareRegister, SetFlag_testBit, P_ite, testBit_ite, FLAG_CARRY, FLAG_ZERO, FLAG_INTERRUPT, FLAG_DECIMAL, FLAG_BREAK, FLAG_UNUSED, FLAG_OVERFLOW, FLAG_NEGATIVE, h]
  by_cases g12 : opcode = 0xBE
  · subst g12; rw [ExecOp_eq_0xBE]
    simp +decide [LDX, AddrAbsoluteY, FetchByte, MemReadByte, MemWriteByte, MemReadWord, FetchWord, PushByteToStack, PushWordToStack, PopByteFromStack, PopWordFromStack, fst_ite, snd_ite, UpdateZN, CompareRegister, SetFlag_testBit, P_ite, testBit_ite, FLAG_CARRY, FLAG_ZERO, FLAG_INTERRUPT, FLAG_DECIMAL, FLAG_BREAK, FLAG_UNUSED, FLAG_OVERFLOW, FLAG_NEGATIVE, h]
  by_cases g13 : opcode = 0xA0
  · subst g13; rw [ExecOp_eq_0xA0]
    simp +decide [LDY, AddrImmediate, FetchByte, MemReadByte, MemWriteByte, MemReadWord, FetchWord, PushByteToStack, PushWordToStack, PopByteFromStack, PopWordFromStack, fst_ite, snd_ite, UpdateZN, CompareRegister, SetFlag_testBit, P_ite, testBit_ite, FLAG_CARRY, FLAG_ZERO, FLAG_INTERRUPT, FLAG_DECIMAL, FLAG_BREAK, FLAG_UNUSED, FLAG_OVERFLOW, FLAG_NEGATIVE, h]
  by_cases g14 : opcode = 0xA4
  · subst g14; rw [ExecOp_eq_0xA4]
    simp +decide [LDY, AddrZeroPage, FetchByte, MemReadByte, MemWriteByte, MemReadWord, FetchWord, PushByteToStack, PushWordToStack, PopByteFromStack, PopWordFromStack, fst_ite, snd_ite, UpdateZN, CompareRegister, SetFlag_testBit, P_ite, testBit_ite, FLAG_CARRY, FLAG_ZERO, FLAG_INTERRUPT, FLAG_DECIMAL, FLAG_BREAK, FLAG_UNUSED, FLAG_OVERFLOW, FLAG_NEGATIVE, h]
  by_cases g15 : opcode = 0xB4
  · subst g15; rw [ExecOp_eq_0xB4]
    simp +decide [LDY, AddrZeroPageX, FetchByte, MemReadByte, MemWriteByte, MemReadWord, FetchWord, PushByteToStack, PushWordToStack, PopByteFromStack, PopWordFromStack, fst_ite, snd_ite, UpdateZN, CompareRegister, SetFlag_testBit, P_ite, testBit_ite, FLAG_CARRY, FLAG_ZERO, FLAG_INTERRUPT, FLAG_DECIMAL, FLAG_BREAK, FLAG_UNUSED, FLAG_OVERFLOW, FLAG_NEGATIVE, h]
  by_cases g16 : opcode = 0xAC
  · subst g16; rw [ExecOp_eq_0xAC]
    simp +decide [LDY, AddrAbsolute, FetchByte, MemReadByte, MemWriteByte, MemReadWord, FetchWord, PushByteToStack, PushWordToStack, PopByteFromStack, PopWordFromStack, fst_ite, snd_ite, UpdateZN, CompareRegister, SetFlag_testBit, P_ite, testBit_ite, FLAG_CARRY, FLAG_ZERO, FLAG_INTERRUPT, FLAG_DECIMAL, FLAG_BREAK, FLAG_UNUSED, FLAG_OVERFLOW, FLAG_NEGATIVE, h]
  by_cases g17 : opcode = 0xBC
  · subst g17; rw [ExecOp_eq_0xBC]
    simp +decide [LDY, AddrAbsoluteX, FetchByte, MemReadByte, MemWriteByte, MemReadWord, FetchWord, PushByteToStack, PushWordToStack, PopByteFromStack, PopWordFromStack, fst_ite, snd_ite, UpdateZN, CompareRegister, SetFlag_testBit, P_ite, testBit_ite, FLAG_CARRY, FLAG_ZERO, FLAG_INTERRUPT, FLAG_DECIMAL, FLAG_BREAK, FLAG_UNUSED, FLAG_OVERFLOW, FLAG_NEGATIVE, h]
  by_cases g18 : opcode = 0x85
  · subst g18; rw [ExecOp_eq_0x85]
    simp +decide [STA, AddrZeroPage, FetchByte, MemReadByte, MemWriteByte, MemReadWord, FetchWord, PushByteToStack, PushWordToStack, PopByteFromStack, PopWordFromStack, fst_ite, snd_ite, UpdateZN, CompareRegister, SetFlag_testBit, P_ite, testBit_ite, FLAG_CARRY, FLAG_ZERO, FLAG_INTERRUPT, FLAG_DECIMAL, FLAG_BREAK, FLAG_UNUSED, FLAG_OVERFLOW, FLAG_NEGATIVE, h]
  by_cases g19 : opcode = 0x95
  · subst g19; rw [ExecOp_eq_0x95]
    simp +decide [STA, AddrZeroPageX, FetchByte, MemReadByte, MemWriteByte, MemReadWord, FetchWord, PushByteToStack, PushWordToStack, PopByteFromStack, PopWordFromStack, fst_ite, snd_ite, UpdateZN, CompareRegister, SetFlag_testBit, P_ite, testBit_ite, FLAG_CARRY, FLAG_ZERO, FLAG_INTERRUPT, FLAG_DECIMAL, FLAG_BREAK, FLAG_UNUSED, FLAG_OVERFLOW, FLAG_NEGATIVE, h]
  by_cases g20 : opcode = 0x8D
  · subst g20; rw [ExecOp_eq_0x8D]
    simp +decide [STA, AddrAbsolute, FetchByte, MemReadByte, MemWriteByte, MemReadWord, FetchWord, PushByteToStack, PushWordToStack, PopByteFromStack, PopWordFromStack, fst_ite, snd_ite, UpdateZN, CompareRegister, SetFlag_testBit, P_ite, testBit_ite, FLAG_CARRY, FLAG_ZERO, FLAG_INTERRUPT, FLAG_DECIMAL, FLAG_BREAK, FLAG_UNUSED, FLAG_OVERFLOW, FLAG_NEGATIVE, h]
  by_cases g21 : opcode = 0x9D
  · subst g21; rw [ExecOp_eq_0x9D]
    simp +decide [STA, AddrAbsoluteX, FetchByte, MemReadByte, MemWriteByte, MemReadWord, FetchWord, PushByteToStack, PushWordToStack, PopByteFromStack, PopWordFromStack, fst_ite, snd_ite, UpdateZN, CompareRegister, SetFlag_testBit, P_ite, testBit_ite, FLAG_CARRY, FLAG_ZERO, FLAG_INTERRUPT, FLAG_DECIMAL, FLAG_BREAK, FLAG_UNUSED, FLAG_OVERFLOW, FLAG_NEGATIVE, h]
  by_cases g22 : opcode = 0x99
  · subst g22; rw [ExecOp_eq_0x99]
    simp +decide [STA, AddrAbsoluteY, FetchByte, MemReadByte, MemWriteByte, MemReadWord, FetchWord, PushByteToStack, PushWordToStack, PopByteFromStack, PopWordFromStack, fst_ite, snd_ite, UpdateZN, CompareRegister, SetFlag_testBit, P_ite, testBit_ite, FLAG_CARRY, FLAG_ZERO, FLAG_INTERRUPT, FLAG_DECIMAL, FLAG_BREAK, FLAG_UNUSED, FLAG_OVERFLOW, FLAG_NEGATIVE, h]
  by_cases g23 : opcode = 0x81
  · subst g23; rw [ExecOp_eq_0x81]
    simp +decide [STA, AddrIndexedIndirect, FetchByte, MemReadByte, MemWriteByte, MemReadWord, FetchWord, PushByteToStack, PushWordToStack, PopByteFromStack, PopWordFromStack, fst_ite, snd_ite, UpdateZN, CompareRegister, SetFlag_testBit, P_ite, testBit_ite, FLAG_CARRY, FLAG_ZERO, FLAG_INTERRUPT, FLAG_DECIMAL, FLAG_BREAK, FLAG_UNUSED, FLAG_OVERFLOW, FLAG_NEGATIVE, h]
  by_cases g24 : opcode = 0x91
  · subst g24; rw [ExecOp_eq_0x91]
    simp +decide [STA, AddrIndirectIndexed, FetchByte, MemReadByte, MemWriteByte, MemReadWord, FetchWord, PushByteToStack, PushWordToStack, PopByteFromStack, PopWordFromStack, fst_ite, snd_ite, UpdateZN, CompareRegister, SetFlag_testBit, P_ite, testBit_ite, FLAG_CARRY, FLAG_ZERO, FLAG_INTERRUPT, FLAG_DECIMAL, FLAG_BREAK, FLAG_UNUSED, FLAG_OVERFLOW, FLAG_NEGATIVE, h]
  by_cases g25 : opcode = 0x86
  · subst g25; rw [ExecOp_eq_0x86]
    simp +decide [STX, AddrZeroPage, FetchByte, MemReadByte, MemWriteByte, MemReadWord, FetchWord, PushByteToStack, PushWordToStack, PopByteFromStack, PopWordFromStack, fst_ite, snd_ite, UpdateZN, CompareRegister, SetFlag_testBit, P_ite, testBit_ite, FLAG_CARRY, FLAG_ZERO, FLAG_INTERRUPT, FLAG_DECIMAL, FLAG_BREAK, FLAG_UNUSED, FLAG_OVERFLOW, FLAG_NEGATIVE, h]
  by_cases g26 : opcode = 0x96
  · subst g26; rw [ExecOp_eq_0x96]
    simp +decide [STX, AddrZeroPageY, FetchByte, MemReadByte, MemWriteByte, MemReadWord, FetchWord, PushByteToStack, PushWordToStack, PopByteFromStack, PopWordFromStack, fst_ite, snd_ite, UpdateZN, CompareRegister, SetFlag_testBit, P_ite, testBit_ite, FLAG_CARRY, FLAG_ZERO, FLAG_INTERRUPT, FLAG_DECIMAL, FLAG_BREAK, FLAG_UNUSED, FLAG_OVERFLOW, FLAG_NEGATIVE, h]
  by_cases g27 : opcode = 0x8E
  · subst g27; rw [ExecOp_eq_0x8E]
    simp +decide [STX, AddrAbsolute, FetchByte, MemReadByte, MemWriteByte, MemReadWord, FetchWord, PushByteToStack, PushWordToStack, PopByteFromStack, PopWordFromStack, fst_ite, snd_ite, UpdateZN, CompareRegister, SetFlag_testBit, P_ite, testBit_ite, FLAG_CARRY, FLAG_ZERO, FLAG_INTERRUPT, FLAG_DECIMAL, FLAG_BREAK, FLAG_UNUSED, FLAG_OVERFLOW, FLAG_NEGATIVE, h]
  by_cases g28 : opcode = 0x84
  · subst g28; rw [ExecOp_eq_0x84]
    simp +decide [STY, AddrZeroPage, FetchByte, MemReadByte, MemWriteByte, MemReadWord, FetchWord, PushByteToStack, PushWordToStack, PopByteFromStack, PopWordFromStack, fst_ite, snd_ite, UpdateZN, CompareRegister, SetFlag_testBit, P_ite, testBit_ite, FLAG_CARRY, FLAG_ZERO, FLAG_INTERRUPT, FLAG_DECIMAL, FLAG_BREAK, FLAG_UNUSED, FLAG_OVERFLOW, FLAG_NEGATIVE, h]
  by_cases g29 : opcode = 0x94
  · subst g29; rw [ExecOp_eq_0x94]
    simp +decide [STY, AddrZeroPageX, FetchByte, MemReadByte, MemWriteByte, MemReadWord, FetchWord, PushByteToStack, PushWordToStack, PopByteFromStack, PopWordFromStack, fst_ite, snd_ite, UpdateZN, CompareRegister, SetFlag_testBit, P_ite, testBit_ite, FLAG_CARRY, FLAG_ZERO, FLAG_INTERRUPT, FLAG_DECIMAL, FLAG_BREAK, FLAG_UNUSED, FLAG_OVERFLOW, FLAG_NEGATIVE, h]
  by_cases g30 : opcode = 0x8C
  · subst g30; rw [ExecOp_eq_0x8C]
    simp +decide [STY, AddrAbsolute, FetchByte, MemReadByte, MemWriteByte, MemReadWord, FetchWord, PushByteToStack, PushWordToStack, PopByteFromStack, PopWordFromStack, fst_ite, snd_ite, UpdateZN, CompareRegister, SetFlag_testBit, P_ite, testBit_ite, FLAG_CARRY, FLAG_ZERO, FLAG_INTERRUPT, FLAG_DECIMAL, FLAG_BREAK, FLAG_UNUSED, FLAG_OVERFLOW, FLAG_NEGATIVE, h]
  by_cases g31 : opcode = 0xAA
  · subst g31; rw [ExecOp_eq_0xAA]
    simp +decide [TAX, FetchByte, MemReadByte, MemWriteByte, MemReadWord, FetchWord, PushByteToStack, PushWordToStack, PopByteFromStack, PopWordFromStack, fst_ite, snd_ite, UpdateZN, CompareRegister, SetFlag_testBit, P_ite, testBit_ite, FLAG_CARRY, FLAG_ZERO, FLAG_INTERRUPT, FLAG_DECIMAL, FLAG_BREAK, FLAG_UNUSED, FLAG_OVERFLOW, FLAG_NEGATIVE, h]
  by_cases g32 : opcode = 0xA8
  · subst g32; rw [ExecOp_eq_0xA8]
    simp +decide [TAY, FetchByte, MemReadByte, MemWriteByte, MemReadWord, FetchWord, PushByteToStack, PushWordToStack, PopByteFromStack, PopWordFromStack, fst_ite, snd_ite, UpdateZN, CompareRegister, SetFlag_testBit, P_ite, testBit_ite, FLAG_CARRY, FLAG_ZERO, FLAG_INTERRUPT, FLAG_DECIMAL, FLAG_BREAK, FLAG_UNUSED, FLAG_OVERFLOW, FLAG_NEGATIVE, h]
  by_cases g33 : opcode = 0x8A
  · subst g33; rw [ExecOp_eq_0x8A]
    simp +decide [TXA, FetchByte, MemReadByte, MemWriteByte, MemReadWord, FetchWord, PushByteToStack, PushWordToStack, PopByteFromStack, PopWordFromStack, fst_ite, snd_ite, UpdateZN, CompareRegister, SetFlag_testBit, P_ite, testBit_ite, FLAG_CARRY, FLAG_ZERO, FLAG_INTERRUPT, FLAG_DECIMAL, FLAG_BREAK, FLAG_UNUSED, FLAG_OVERFLOW, FLAG_NEGATIVE, h]
  by_cases g34 : opcode = 0x98
  · subst g34; rw [ExecOp_eq_0x98]
    simp +decide [TYA, FetchByte, MemReadByte, MemWriteByte, MemReadWord, FetchWord, PushByteToStack, PushWordToStack, PopByteFromStack, PopWordFromStack, fst_ite, snd_ite, UpdateZN, CompareRegister, SetFlag_testBit, P_ite, testBit_ite, FLAG_CARRY, FLAG_ZERO, FLAG_INTERRUPT, FLAG_DECIMAL, FLAG_BREAK, FLAG_UNUSED, FLAG_OVERFLOW, FLAG_NEGATIVE, h]
  by_cases g35 : opcode = 0xBA
  · subst g35; rw [ExecOp_eq_0xBA]
    simp +decide [TSX, FetchByte, MemReadByte, MemWriteByte, MemReadWord, FetchWord, PushByteToStack, PushWordToStack, PopByteFromStack, PopWordFromStack, fst_ite, snd_ite, UpdateZN, CompareRegister, SetFlag_testBit, P_ite, testBit_ite, FLAG_CARRY, FLAG_ZERO, FLAG_INTERRUPT, FLAG_DECIMAL, FLAG_BREAK, FLAG_UNUSED, FLAG_OVERFLOW, FLAG_NEGATIVE, h]
  by_cases g36 : opcode = 0x9A
  · subst g36; rw [ExecOp_eq_0x9A]
    simp +decide [TXS, FetchByte, MemReadByte, MemWriteByte, MemReadWord, FetchWord, PushByteToStack, PushWordToStack, PopByteFromStack, PopWordFromStack, fst_ite, snd_ite, UpdateZN, CompareRegister, SetFlag_testBit, P_ite, testBit_ite, FLAG_CARRY, FLAG_ZERO, FLAG_INTERRUPT, FLAG_DECIMAL, FLAG_BREAK, FLAG_UNUSED, FLAG_OVERFLOW, FLAG_NEGATIVE, h]
  by_cases g37 : opcode = 0x48
  · subst g37; rw [ExecOp_eq_0x48]
    simp +decide [PHA, FetchByte, MemReadByte, MemWriteByte, MemReadWord, FetchWord, PushByteToStack, PushWordToStack, PopByteFromStack, PopWordFromStack, fst_ite, snd_ite, UpdateZN, CompareRegister, SetFlag_testBit, P_ite, testBit_ite, FLAG_CARRY, FLAG_ZERO, FLAG_INTERRUPT, FLAG_DECIMAL, FLAG_BREAK, FLAG_UNUSED, FLAG_OVERFLOW, FLAG_NEGATIVE, h]
  by_cases g38 : opcode = 0x08
  · subst g38; rw [ExecOp_eq_0x08]
    simp +decide [PHP, FetchByte, MemReadByte, MemWriteByte, MemReadWord, FetchWord, PushByteToStack, PushWordToStack, PopByteFromStack, PopWordFromStack, fst_ite, snd_ite, UpdateZN, CompareRegister, SetFlag_testBit, P_ite, testBit_ite, FLAG_CARRY, FLAG_ZERO, FLAG_INTERRUPT, FLAG_DECIMAL, FLAG_BREAK, FLAG_UNUSED, FLAG_OVERFLOW, FLAG_NEGATIVE, h]
  by_cases g39 : opcode = 0x68
  · subst g39; rw [ExecOp_eq_0x68]
    simp +decide [PLA, FetchByte, MemReadByte, MemWriteByte, MemReadWord, FetchWord, PushByteToStack, PushWordToStack, PopByteFromStack, PopWordFromStack, fst_ite, snd_ite, UpdateZN, CompareRegister, SetFlag_testBit, P_ite, testBit_ite, FLAG_CARRY, FLAG_ZERO, FLAG_INTERRUPT, FLAG_DECIMAL, FLAG_BREAK, FLAG_UNUSED, FLAG_OVERFLOW, FLAG_NEGATIVE, h]
  by_cases g40 : opcode = 0x28
  · subst g40; rw [ExecOp_eq_0x28]
    simp +decide [PLP, FetchByte, MemReadByte, MemWriteByte, MemReadWord, FetchWord, PushByteToStack, PushWordToStack, PopByteFromStack, PopWordFromStack, fst_ite, snd_ite, UpdateZN, CompareRegister, SetFlag_testBit, P_ite, testBit_ite, FLAG_CARRY, FLAG_ZERO, FLAG_INTERRUPT, FLAG_DECIMAL, FLAG_BREAK, FLAG_UNUSED, FLAG_OVERFLOW, FLAG_NEGATIVE, h]
  by_cases g41 : opcode = 0x29
  · subst g41; rw [ExecOp_eq_0x29]
    simp +decide [AND, AddrImmediate, FetchByte, MemReadByte, MemWriteByte, MemReadWord, FetchWord, PushByteToStack, PushWordToStack, PopByteFromStack, PopWordFromStack, fst_ite, snd_ite, UpdateZN, CompareRegister, SetFlag_testBit, P_ite, testBit_ite, FLAG_CARRY, FLAG_ZERO, FLAG_INTERRUPT, FLAG_DECIMAL, FLAG_BREAK, FLAG_UNUSED, FLAG_OVERFLOW, FLAG_NEGATIVE, h]
  by_cases g42 : opcode = 0x25
  · subst g42; rw [ExecOp_eq_0x25]
    simp +decide [AND, AddrZeroPage, FetchByte, MemReadByte, MemWriteByte, MemReadWord, FetchWord, PushByteToStack, PushWordToStack, PopByteFromStack, PopWordFromStack, fst_ite, snd_ite, UpdateZN, CompareRegister, SetFlag_testBit, P_ite, testBit_ite, FLAG_CARRY, FLAG_ZERO, FLAG_INTERRUPT, FLAG_DECIMAL, FLAG_BREAK, FLAG_UNUSED, FLAG_OVERFLOW, FLAG_NEGATIVE, h]
  by_cases g43 : opcode = 0x35
  · subst g43; rw [ExecOp_eq_0x35]
    simp +decide [AND, AddrZeroPageX, FetchByte, MemReadByte, MemWriteByte, MemReadWord, FetchWord, PushByteToStack, PushWordToStack, PopByteFromStack, PopWordFromStack, fst_ite, snd_ite, UpdateZN, CompareRegister, SetFlag_testBit, P_ite, testBit_ite, FLAG_CARRY, FLAG_ZERO, FLAG_INTERRUPT, FLAG_DECIMAL, FLAG_BREAK, FLAG_UNUSED, FLAG_OVERFLOW, FLAG_NEGATIVE, h]
  by_cases g44 : opcode = 0x2D
  · subst g44; rw [ExecOp_eq_0x2D]
    simp +decide [AND, AddrAbsolute, FetchByte, MemReadByte, MemWriteByte, MemReadWord, FetchWord, PushByteToStack, PushWordToStack, PopByteFromStack, PopWordFromStack, fst_ite, snd_ite, UpdateZN, CompareRegister, SetFlag_testBit, P_ite, testBit_ite, FLAG_CARRY, FLAG_ZERO, FLAG_INTERRUPT, FLAG_DECIMAL, FLAG_BREAK, FLAG_UNUSED, FLAG_OVERFLOW, FLAG_NEGATIVE, h]
  by_cases g45 : opcode = 0x3D
  · subst g45; rw [ExecOp_eq_0x3D]
    simp +decide [AND, AddrAbsoluteX, FetchByte, MemReadByte, MemWriteByte, MemReadWord, FetchWord, PushByteToStack, PushWordToStack, PopByteFromStack, PopWordFromStack, fst_ite, snd_ite, UpdateZN, CompareRegister, SetFlag_testBit, P_ite, testBit_ite, FLAG_CARRY, FLAG_ZERO, FLAG_INTERRUPT, FLAG_DECIMAL, FLAG_BREAK, FLAG_UNUSED, FLAG_OVERFLOW, FLAG_NEGATIVE, h]
  by_cases g46 : opcode = 0x39
  · subst g46; rw [ExecOp_eq_0x39]
    simp +decide [AND, AddrAbsoluteY, FetchByte, MemReadByte, MemWriteByte, MemReadWord, FetchWord, PushByteToStack, PushWordToStack, PopByteFromStack, PopWordFromStack, fst_ite, snd_ite, UpdateZN, CompareRegister, SetFlag_testBit, P_ite, testBit_ite, FLAG_CARRY, FLAG_ZERO, FLAG_INTERRUPT, FLAG_DECIMAL, FLAG_BREAK, FLAG_UNUSED, FLAG_OVERFLOW, FLAG_NEGATIVE, h]
  by_cases g47 : opcode = 0x21
  · subst g47; rw [ExecOp_eq_0x21]
    simp +decide [AND, AddrIndexedIndirect, FetchByte, MemReadByte, MemWriteByte, MemReadWord, FetchWord, PushByteToStack, PushWordToStack, PopByteFromStack, PopWordFromStack, fst_ite, snd_ite, UpdateZN, CompareRegister, SetFlag_testBit, P_ite, testBit_ite, FLAG_CARRY, FLAG_ZERO, FLAG_INTERRUPT, FLAG_DECIMAL, FLAG_BREAK, FLAG_UNUSED, FLAG_OVERFLOW, FLAG_NEGATIVE, h]
  by_cases g48 : opcode = 0x31
  · subst g48; rw [ExecOp_eq_0x31]
    simp +decide [AND, AddrIndirectIndexed, FetchByte, MemReadByte, MemWriteByte, MemReadWord, FetchWord, PushByteToStack, PushWordToStack, PopByteFromStack, PopWordFromStack, fst_ite, snd_ite, UpdateZN, CompareRegister, SetFlag_testBit, P_ite, testBit_ite, FLAG_CARRY, FLAG_ZERO, FLAG_INTERRUPT, FLAG_DECIMAL, FLAG_BREAK, FLAG_UNUSED, FLAG_OVERFLOW, FLAG_NEGATIVE, h]
  by_cases g49 : opcode = 0x09
  · subst g49; rw [ExecOp_eq_0x09]
    simp +decide [ORA, AddrImmediate, FetchByte, MemReadByte, MemWriteByte, MemReadWord, FetchWord, PushByteToStack, PushWordToStack, PopByteFromStack, PopWordFromStack, fst_ite, snd_ite, UpdateZN, CompareRegister, SetFlag_testBit, P_ite, testBit_ite, FLAG_CARRY, FLAG_ZERO, FLAG_INTERRUPT, FLAG_DECIMAL, FLAG_BREAK, FLAG_UNUSED, FLAG_OVERFLOW, FLAG_NEGATIVE, h]
  by_cases g50 : opcode = 0x05
  · subst g50; rw [ExecOp_eq_0x05]
    simp +decide [ORA, AddrZeroPage, FetchByte, MemReadByte, MemWriteByte, MemReadWord, FetchWord, PushByteToStack, PushWordToStack, PopByteFromStack, PopWordFromStack, fst_ite, snd_ite, UpdateZN, CompareRegister, SetFlag_testBit, P_ite, testBit_ite, FLAG_CARRY, FLAG_ZERO, FLAG_INTERRUPT, FLAG_DECIMAL, FLAG_BREAK, FLAG_UNUSED, FLAG_OVERFLOW, FLAG_NEGATIVE, h]
  by_cases g51 : opcode = 0x15
  · subst g51; rw [ExecOp_eq_0x15]
    simp +decide [ORA, AddrZeroPageX, FetchByte, MemReadByte, MemWriteByte, MemReadWord, FetchWord, PushByteToStack, PushWordToStack, PopByteFromStack, PopWordFromStack, fst_ite, snd_ite, UpdateZN, CompareRegister, SetFlag_testBit, P_ite, testBit_ite, FLAG_CARRY, FLAG_ZERO, FLAG_INTERRUPT, FLAG_DECIMAL, FLAG_BREAK, FLAG_UNUSED, FLAG_OVERFLOW, FLAG_NEGATIVE, h]
  by_cases g52 : opcode = 0x0D
  · subst g52; rw [ExecOp_eq_0x0D]
    simp +decide [ORA, AddrAbsolute, FetchByte, MemReadByte, MemWriteByte, MemReadWord, FetchWord, PushByteToStack, PushWordToStack, PopByteFromStack, PopWordFromStack, fst_ite, snd_ite, UpdateZN, CompareRegister, SetFlag_testBit, P_ite, testBit_ite, FLAG_CARRY, FLAG_ZERO, FLAG_INTERRUPT, FLAG_DECIMAL, FLAG_BREAK, FLAG_UNUSED, FLAG_OVERFLOW, FLAG_NEGATIVE, h]
  by_cases g53 : opcode = 0x1D
  · subst g53; rw [ExecOp_eq_0x1D]
    simp +decide [ORA, AddrAbsoluteX, FetchByte, MemReadByte, MemWriteByte, MemReadWord, FetchWord, PushByteToStack, PushWordToStack, PopByteFromStack, PopWordFromStack, fst_ite, snd_ite, UpdateZN, CompareRegister, SetFlag_testBit, P_ite, testBit_ite, FLAG_CARRY, FLAG_ZERO, FLAG_INTERRUPT, FLAG_DECIMAL, FLAG_BREAK, FLAG_UNUSED, FLAG_OVERFLOW, FLAG_NEGATIVE, h]
  by_cases g54 : opcode = 0x19
  · subst g54; rw [ExecOp_eq_0x19]
    simp +decide [ORA, AddrAbsoluteY, FetchByte, MemReadByte, MemWriteByte, MemReadWord, FetchWord, PushByteToStack, PushWordToStack, PopByteFromStack, PopWordFromStack, fst_ite, snd_ite, UpdateZN, CompareRegister, SetFlag_testBit, P_ite, testBit_ite, FLAG_CARRY, FLAG_ZERO, FLAG_INTERRUPT, FLAG_DECIMAL, FLAG_BREAK, FLAG_UNUSED, FLAG_OVERFLOW, FLAG_NEGATIVE, h]
  by_cases g55 : opcode = 0x01
  · subst g55; rw [ExecOp_eq_0x01]
    simp +decide [ORA, AddrIndexedIndirect, FetchByte, MemReadByte, MemWriteByte, MemReadWord, FetchWord, PushByteToStack, PushWordToStack, PopByteFromStack, PopWordFromStack, fst_ite, snd_ite, UpdateZN, CompareRegister, SetFlag_testBit, P_ite, testBit_ite, FLAG_CARRY, FLAG_ZERO, FLAG_INTERRUPT, FLAG_DECIMAL, FLAG_BREAK, FLAG_UNUSED, FLAG_OVERFLOW, FLAG_NEGATIVE, h]
  by_cases g56 : opcode = 0x11
  · subst g56; rw [ExecOp_eq_0x11]
    simp +decide [ORA, AddrIndirectIndexed, FetchByte, MemReadByte, MemWriteByte, MemReadWord, FetchWord, PushByteToStack, PushWordToStack, PopByteFromStack, PopWordFromStack, fst_ite, snd_ite, UpdateZN, CompareRegister, SetFlag_testBit, P_ite, testBit_ite, FLAG_CARRY, FLAG_ZERO, FLAG_INTERRUPT, FLAG_DECIMAL, FLAG_BREAK, FLAG_UNUSED, FLAG_OVERFLOW, FLAG_NEGATIVE, h]
  by_cases g57 : opcode = 0x49
  · subst g57; rw [ExecOp_eq_0x49]
    simp +decide [EOR, AddrImmediate, FetchByte, MemReadByte, MemWriteByte, MemReadWord, FetchWord, PushByteToStack, PushWordToStack, PopByteFromStack, PopWordFromStack, fst_ite, snd_ite, UpdateZN, CompareRegister, SetFlag_testBit, P_ite, testBit_ite, FLAG_CARRY, FLAG_ZERO, FLAG_INTERRUPT, FLAG_DECIMAL, FLAG_BREAK, FLAG_UNUSED, FLAG_OVERFLOW, FLAG_NEGATIVE, h]
  by_cases g58 : opcode = 0x45
  · subst g58; rw [ExecOp_eq_0x45]
    simp +decide [EOR, AddrZeroPage, FetchByte, MemReadByte, MemWriteByte, MemReadWord, FetchWord, PushByteToStack, PushWordToStack, PopByteFromStack, PopWordFromStack, fst_ite, snd_ite, UpdateZN, CompareRegister, SetFlag_testBit, P_ite, testBit_ite, FLAG_CARRY, FLAG_ZERO, FLAG_INTERRUPT, FLAG_DECIMAL, FLAG_BREAK, FLAG_UNUSED, FLAG_OVERFLOW, FLAG_NEGATIVE, h]
  by_cases g59 : opcode = 0x55
  · subst g59; rw [ExecOp_eq_0x55]
    simp +decide [EOR, AddrZeroPageX, FetchByte, MemReadByte, MemWriteByte, MemReadWord, FetchWord, PushByteToStack, PushWordToStack, PopByteFromStack, PopWordFromStack, fst_ite, snd_ite, UpdateZN, CompareRegister, SetFlag_testBit, P_ite, testBit_ite, FLAG_CARRY, FLAG_ZERO, FLAG_INTERRUPT, FLAG_DECIMAL, FLAG_BREAK, FLAG_UNUSED, FLAG_OVERFLOW, FLAG_NEGATIVE, h]
  by_cases g60 : opcode = 0x4D
  · subst g60; rw [ExecOp_eq_0x4D]
    simp +decide [EOR, AddrAbsolute, FetchByte, MemReadByte, MemWriteByte, MemReadWord, FetchWord, PushByteToStack, PushWordToStack, PopByteFromStack, PopWordFromStack, fst_ite, snd_ite, UpdateZN, CompareRegister, SetFlag_testBit, P_ite, testBit_ite, FLAG_CARRY, FLAG_ZERO, FLAG_INTERRUPT, FLAG_DECIMAL, FLAG_BREAK, FLAG_UNUSED, FLAG_OVERFLOW, FLAG_NEGATIVE, h]
  by_cases g61 : opcode = 0x5D
  · subst g61; rw [ExecOp_eq_0x5D]
    simp +decide [EOR, AddrAbsoluteX, FetchByte, MemReadByte, MemWriteByte, MemReadWord, FetchWord, PushByteToStack, PushWordToStack, PopByteFromStack, PopWordFromStack, fst_ite, snd_ite, UpdateZN, CompareRegister, SetFlag_testBit, P_ite, testBit_ite, FLAG_CARRY, FLAG_ZERO, FLAG_INTERRUPT, FLAG_DECIMAL, FLAG_BREAK, FLAG_UNUSED, FLAG_OVERFLOW, FLAG_NEGATIVE, h]
  by_cases g62 : opcode = 0x59
  · subst g62; rw [ExecOp_eq_0x59]
    simp +decide [EOR, AddrAbsoluteY, FetchByte, MemReadByte, MemWriteByte, MemReadWord, FetchWord, PushByteToStack, PushWordToStack, PopByteFromStack, PopWordFromStack, fst_ite, snd_ite, UpdateZN, CompareRegister, SetFlag_testBit, P_ite, testBit_ite, FLAG_CARRY, FLAG_ZERO, FLAG_INTERRUPT, FLAG_DECIMAL, FLAG_BREAK, FLAG_UNUSED, FLAG_OVERFLOW, FLAG_NEGATIVE, h]
  by_cases g63 : opcode = 0x41
  · subst g63; rw [ExecOp_eq_0x41]
    simp +decide [EOR, AddrIndexedIndirect, FetchByte, MemReadByte, MemWriteByte, MemReadWord, FetchWord, PushByteToStack, PushWordToStack, PopByteFromStack, PopWordFromStack, fst_ite, snd_ite, UpdateZN, CompareRegister, SetFlag_testBit, P_ite, testBit_ite, FLAG_CARRY, FLAG_ZERO, FLAG_INTERRUPT, FLAG_DECIMAL, FLAG_BREAK, FLAG_UNUSED, FLAG_OVERFLOW, FLAG_NEGATIVE, h]
  by_cases g64 : opcode = 0x51
  · subst g64; rw [ExecOp_eq_0x51]
    simp +decide [EOR, AddrIndirectIndexed, FetchByte, MemReadByte, MemWriteByte, MemReadWord, FetchWord, PushByteToStack, PushWordToStack, PopByteFromStack, PopWordFromStack, fst_ite, snd_ite, UpdateZN, CompareRegister, SetFlag_testBit, P_ite, testBit_ite, FLAG_CARRY, FLAG_ZERO, FLAG_INTERRUPT, FLAG_DECIMAL, FLAG_BREAK, FLAG_UNUSED, FLAG_OVERFLOW, FLAG_NEGATIVE, h]
  by_cases g65 : opcode = 0x24
  · subst g65; rw [ExecOp_eq_0x24]
    simp +decide [BIT, AddrZeroPage, FetchByte, MemReadByte, MemWriteByte, MemReadWord, FetchWord, PushByteToStack, PushWordToStack, PopByteFromStack, PopWordFromStack, fst_ite, snd_ite, UpdateZN, CompareRegister, SetFlag_testBit, P_ite, testBit_ite, FLAG_CARRY, FLAG_ZERO, FLAG_INTERRUPT, FLAG_DECIMAL, FLAG_BREAK, FLAG_UNUSED, FLAG_OVERFLOW, FLAG_NEGATIVE, h]
  by_cases g66 : opcode = 0x2C
  · subst g66; rw [ExecOp_eq_0x2C]
    simp +decide [BIT, AddrAbsolute, FetchByte, MemReadByte, MemWriteByte, MemReadWord, FetchWord, PushByteToStack, PushWordToStack, PopByteFromStack, PopWordFromStack, fst_ite, snd_ite, UpdateZN, CompareRegister, SetFlag_testBit, P_ite, testBit_ite, FLAG_CARRY, FLAG_ZERO, FLAG_INTERRUPT, FLAG_DECIMAL, FLAG_BREAK, FLAG_UNUSED, FLAG_OVERFLOW, FLAG_NEGATIVE, h]
  by_cases g67 : opcode = 0x69
  · subst g67; rw [ExecOp_eq_0x69]
    simp +decide [ADC, AddrImmediate, FetchByte, MemReadByte, MemWriteByte, MemReadWord, FetchWord, PushByteToStack, PushWordToStack, PopByteFromStack, PopWordFromStack, fst_ite, snd_ite, UpdateZN, CompareRegister, SetFlag_testBit, P_ite, testBit_ite, FLAG_CARRY, FLAG_ZERO, FLAG_INTERRUPT, FLAG_DECIMAL, FLAG_BREAK, FLAG_UNUSED, FLAG_OVERFLOW, FLAG_NEGATIVE, h]
  by_cases g68 : opcode = 0x65
  · subst g68; rw [ExecOp_eq_0x65]
    simp +decide [ADC, AddrZeroPage, FetchByte, MemReadByte, MemWriteByte, MemReadWord, FetchWord, PushByteToStack, PushWordToStack, PopByteFromStack, PopWordFromStack, fst_ite, snd_ite, UpdateZN, CompareRegister, SetFlag_testBit, P_ite, testBit_ite, FLAG_CARRY, FLAG_ZERO, FLAG_INTERRUPT, FLAG_DECIMAL, FLAG_BREAK, FLAG_UNUSED, FLAG_OVERFLOW, FLAG_NEGATIVE, h]
  by_cases g69 : opcode = 0x75
  · subst g69; rw [ExecOp_eq_0x75]
    simp +decide [ADC, AddrZeroPageX, FetchByte, MemReadByte, MemWriteByte, MemReadWord, FetchWord, PushByteToStack, PushWordToStack, PopByteFromStack, PopWordFromStack, fst_ite, snd_ite, UpdateZN, CompareRegister, SetFlag_testBit, P_ite, testBit_ite, FLAG_CARRY, FLAG_ZERO, FLAG_INTERRUPT, FLAG_DECIMAL, FLAG_BREAK, FLAG_UNUSED, FLAG_OVERFLOW, FLAG_NEGATIVE, h]
  by_cases g70 : opcode = 0x6D
  · subst g70; rw [ExecOp_eq_0x6D]
    simp +decide [ADC, AddrAbsolute, FetchByte, MemReadByte, MemWriteByte, MemReadWord, FetchWord, PushByteToStack, PushWordToStack, PopByteFromStack, PopWordFromStack, fst_ite, snd_ite, UpdateZN, CompareRegister, SetFlag_testBit, P_ite, testBit_ite, FLAG_CARRY, FLAG_ZERO, FLAG_INTERRUPT, FLAG_DECIMAL, FLAG_BREAK, FLAG_UNUSED, FLAG_OVERFLOW, FLAG_NEGATIVE, h]
  by_cases g71 : opcode = 0x7D
  · subst g71; rw [ExecOp_eq_0x7D]
    simp +decide [ADC, AddrAbsoluteX, FetchByte, MemReadByte, MemWriteByte, MemReadWord, FetchWord, PushByteToStack, PushWordToStack, PopByteFromStack, PopWordFromStack, fst_ite, snd_ite, UpdateZN, CompareRegister, SetFlag_testBit, P_ite, testBit_ite, FLAG_CARRY, FLAG_ZERO, FLAG_INTERRUPT, FLAG_DECIMAL, FLAG_BREAK, FLAG_UNUSED, FLAG_OVERFLOW, FLAG_NEGATIVE, h]
  by_cases g72 : opcode = 0x79
  · subst g72; rw [ExecOp_eq_0x79]
    simp +decide [ADC, AddrAbsoluteY, FetchByte, MemReadByte, MemWriteByte, MemReadWord, FetchWord, PushByteToStack, PushWordToStack, PopByteFromStack, PopWordFromStack, fst_ite, snd_ite, UpdateZN, CompareRegister, SetFlag_testBit, P_ite, testBit_ite, FLAG_CARRY, FLAG_ZERO, FLAG_INTERRUPT, FLAG_DECIMAL, FLAG_BREAK, FLAG_UNUSED, FLAG_OVERFLOW, FLAG_NEGATIVE, h]
  by_cases g73 : opcode = 0x61
  · subst g73; rw [ExecOp_eq_0x61]
    simp +decide [ADC, AddrIndexedIndirect, FetchByte, MemReadByte, MemWriteByte, MemReadWord, FetchWord, PushByteToStack, PushWordToStack, PopByteFromStack, PopWordFromStack, fst_ite, snd_ite, UpdateZN, CompareRegister, SetFlag_testBit, P_ite, testBit_ite, FLAG_CARRY, FLAG_ZERO, FLAG_INTERRUPT, FLAG_DECIMAL, FLAG_BREAK, FLAG_UNUSED, FLAG_OVERFLOW, FLAG_NEGATIVE, h]
  by_cases g74 : opcode = 0x71
  · subst g74; rw [ExecOp_eq_0x71]
    simp +decide [ADC, AddrIndirectIndexed, FetchByte, MemReadByte, MemWriteByte, MemReadWord, FetchWord, PushByteToStack, PushWordToStack, PopByteFromStack, PopWordFromStack, fst_ite, snd_ite, UpdateZN, CompareRegister, SetFlag_testBit, P_ite, testBit_ite, FLAG_CARRY, FLAG_ZERO, FLAG_INTERRUPT, FLAG_DECIMAL, FLAG_BREAK, FLAG_UNUSED, FLAG_OVERFLOW, FLAG_NEGATIVE, h]
  by_cases g75 : opcode = 0xE9
  · subst g75; rw [ExecOp_eq_0xE9]
    simp +decide [SBC, AddrImmediate, FetchByte, MemReadByte, MemWriteByte, MemReadWord, FetchWord, PushByteToStack, PushWordToStack, PopByteFromStack, PopWordFromStack, fst_ite, snd_ite, UpdateZN, CompareRegister, SetFlag_testBit, P_ite, testBit_ite, FLAG_CARRY, FLAG_ZERO, FLAG_INTERRUPT, FLAG_DECIMAL, FLAG_BREAK, FLAG_UNUSED, FLAG_OVERFLOW, FLAG_NEGATIVE, h]
  by_cases g76 : opcode = 0xE5
  · subst g76; rw [ExecOp_eq_0xE5]
    simp +decide [SBC, AddrZeroPage, FetchByte, MemReadByte, MemWriteByte, MemReadWord, FetchWord, PushByteToStack, PushWordToStack, PopByteFromStack, PopWordFromStack, fst_ite, snd_ite, UpdateZN, CompareRegister, SetFlag_testBit, P_ite, testBit_ite, FLAG_CARRY, FLAG_ZERO, FLAG_INTERRUPT, FLAG_DECIMAL, FLAG_BREAK, FLAG_UNUSED, FLAG_OVERFLOW, FLAG_NEGATIVE, h]
  by_cases g77 : opcode = 0xF5
  · subst g77; rw [ExecOp_eq_0xF5]
    simp +decide [SBC, AddrZeroPageX, FetchByte, MemReadByte, MemWriteByte, MemReadWord, FetchWord, PushByteToStack, PushWordToStack, PopByteFromStack, PopWordFromStack, fst_ite, snd_ite, UpdateZN, CompareRegister, SetFlag_testBit, P_ite, testBit_ite, FLAG_CARRY, FLAG_ZERO, FLAG_INTERRUPT, FLAG_DECIMAL, FLAG_BREAK, FLAG_UNUSED, FLAG_OVERFLOW, FLAG_NEGATIVE, h]
  by_cases g78 : opcode = 0xED
  · subst g78; rw [ExecOp_eq_0xED]
    simp +decide [SBC, AddrAbsolute, FetchByte, MemReadByte, MemWriteByte, MemReadWord, FetchWord, PushByteToStack, PushWordToStack, PopByteFromStack, PopWordFromStack, fst_ite, snd_ite, UpdateZN, CompareRegister, SetFlag_testBit, P_ite, testBit_ite, FLAG_CARRY, FLAG_ZERO, FLAG_INTERRUPT, FLAG_DECIMAL, FLAG_BREAK, FLAG_UNUSED, FLAG_OVERFLOW, FLAG_NEGATIVE, h]
  by_cases g79 : opcode = 0xFD
  · subst g79; rw [ExecOp_eq_0xFD]
    simp +decide [SBC, AddrAbsoluteX, FetchByte, MemReadByte, MemWriteByte, MemReadWord, FetchWord, PushByteToStack, PushWordToStack, PopByteFromStack, PopWordFromStack, fst_ite, snd_ite, UpdateZN, CompareRegister, SetFlag_testBit, P_ite, testBit_ite, FLAG_CARRY, FLAG_ZERO, FLAG_INTERRUPT, FLAG_DECIMAL, FLAG_BREAK, FLAG_UNUSED, FLAG_OVERFLOW, FLAG_NEGATIVE, h]
  by_cases g80 : opcode = 0xF9
  · subst g80; rw [ExecOp_eq_0xF9]
    simp +decide [SBC, AddrAbsoluteY, FetchByte, MemReadByte, MemWriteByte, MemReadWord, FetchWord, PushByteToStack, PushWordToStack, PopByteFromStack, PopWordFromStack, fst_ite, snd_ite, UpdateZN, CompareRegister, SetFlag_testBit, P_ite, testBit_ite, FLAG_CARRY, FLAG_ZERO, FLAG_INTERRUPT, FLAG_DECIMAL, FLAG_BREAK, FLAG_UNUSED, FLAG_OVERFLOW, FLAG_NEGATIVE, h]
  by_cases g81 : opcode = 0xE1
  · subst g81; rw [ExecOp_eq_0xE1]
    simp +decide [SBC, AddrIndexedIndirect, FetchByte, MemReadByte, MemWriteByte, MemReadWord, FetchWord, PushByteToStack, PushWordToStack, PopByteFromStack, PopWordFromStack, fst_ite, snd_ite, UpdateZN, CompareRegister, SetFlag_testBit, P_ite, testBit_ite, FLAG_CARRY, FLAG_ZERO, FLAG_INTERRUPT, FLAG_DECIMAL, FLAG_BREAK, FLAG_UNUSED, FLAG_OVERFLOW, FLAG_NEGATIVE, h]
  by_cases g82 : opcode = 0xF1
  · subst g82; rw [ExecOp_eq_0xF1]
    simp +decide [SBC, AddrIndirectIndexed, FetchByte, MemReadByte, MemWriteByte, MemReadWord, FetchWord, PushByteToStack, PushWordToStack, PopByteFromStack, PopWordFromStack, fst_ite, snd_ite, UpdateZN, CompareRegister, SetFlag_testBit, P_ite, testBit_ite, FLAG_CARRY, FLAG_ZERO, FLAG_INTERRUPT, FLAG_DECIMAL, FLAG_BREAK, FLAG_UNUSED, FLAG_OVERFLOW, FLAG_NEGATIVE, h]
  by_cases g83 : opcode = 0xC9
  · subst g83; rw [ExecOp_eq_0xC9]
    simp +decide [CMP, AddrImmediate, FetchByte, MemReadByte, MemWriteByte, MemReadWord, FetchWord, PushByteToStack, PushWordToStack, PopByteFromStack, PopWordFromStack, fst_ite, snd_ite, UpdateZN, CompareRegister, SetFlag_testBit, P_ite, testBit_ite, FLAG_CARRY, FLAG_ZERO, FLAG_INTERRUPT, FLAG_DECIMAL, FLAG_BREAK, FLAG_UNUSED, FLAG_OVERFLOW, FLAG_NEGATIVE, h]
  by_cases g84 : opcode = 0xC5
  · subst g84; rw [ExecOp_eq_0xC5]
    simp +decide [CMP, AddrZeroPage, FetchByte, MemReadByte, MemWriteByte, MemReadWord, FetchWord, PushByteToStack, PushWordToStack, PopByteFromStack, PopWordFromStack, fst_ite, snd_ite, UpdateZN, CompareRegister, SetFlag_testBit, P_ite, testBit_ite, FLAG_CARRY, FLAG_ZERO, FLAG_INTERRUPT, FLAG_DECIMAL, FLAG_BREAK, FLAG_UNUSED, FLAG_OVERFLOW, FLAG_NEGATIVE, h]
  by_cases g85 : opcode = 0xD5
  · subst g85; rw [ExecOp_eq_0xD5]
    simp +decide [CMP, AddrZeroPageX, FetchByte, MemReadByte, MemWriteByte, MemReadWord, FetchWord, PushByteToStack, PushWordToStack, PopByteFromStack, PopWordFromStack, fst_ite, snd_ite, UpdateZN, CompareRegister, SetFlag_testBit, P_ite, testBit_ite, FLAG_CARRY, FLAG_ZERO, FLAG_INTERRUPT, FLAG_DECIMAL, FLAG_BREAK, FLAG_UNUSED, FLAG_OVERFLOW, FLAG_NEGATIVE, h]
  by_cases g86 : opcode = 0xCD
  · subst g86; rw [ExecOp_eq_0xCD]
    simp +decide [CMP, AddrAbsolute, FetchByte, MemReadByte, MemWriteByte, MemReadWord, FetchWord, PushByteToStack, PushWordToStack, PopByteFromStack, PopWordFromStack, fst_ite, snd_ite, UpdateZN, CompareRegister, SetFlag_testBit, P_ite, testBit_ite, FLAG_CARRY, FLAG_ZERO, FLAG_INTERRUPT, FLAG_DECIMAL, FLAG_BREAK, FLAG_UNUSED, FLAG_OVERFLOW, FLAG_NEGATIVE, h]
  by_cases g87 : opcode = 0xDD
  · subst g87; rw [ExecOp_eq_0xDD]
    simp +decide [CMP, AddrAbsoluteX, FetchByte, MemReadByte, MemWriteByte, MemReadWord, FetchWord, PushByteToStack, PushWordToStack, PopByteFromStack, PopWordFromStack, fst_ite, snd_ite, UpdateZN, CompareRegister, SetFlag_testBit, P_ite, testBit_ite, FLAG_CARRY, FLAG_ZERO, FLAG_INTERRUPT, FLAG_DECIMAL, FLAG_BREAK, FLAG_UNUSED, FLAG_OVERFLOW, FLAG_NEGATIVE, h]
  by_cases g88 : opcode = 0xD9
  · subst g88; rw [ExecOp_eq_0xD9]
    simp +decide [CMP, AddrAbsoluteY, FetchByte, MemReadByte, MemWriteByte, MemReadWord, FetchWord, PushByteToStack, PushWordToStack, PopByteFromStack, PopWordFromStack, fst_ite, snd_ite, UpdateZN, CompareRegister, SetFlag_testBit, P_ite, testBit_ite, FLAG_CARRY, FLAG_ZERO, FLAG_INTERRUPT, FLAG_DECIMAL, FLAG_BREAK, FLAG_UNUSED, FLAG_OVERFLOW, FLAG_NEGATIVE, h]
  by_cases g89 : opcode = 0xC1
  · subst g89; rw [ExecOp_eq_0xC1]
    simp +decide [CMP, AddrIndexedIndirect, FetchByte, MemReadByte, MemWriteByte, MemReadWord, FetchWord, PushByteToStack, PushWordToStack, PopByteFromStack, PopWordFromStack, fst_ite, snd_ite, UpdateZN, CompareRegister, SetFlag_testBit, P_ite, testBit_ite, FLAG_CARRY, FLAG_ZERO, FLAG_INTERRUPT, FLAG_DECIMAL, FLAG_BREAK, FLAG_UNUSED, FLAG_OVERFLOW, FLAG_NEGATIVE, h]
  by_cases g90 : opcode = 0xD1
  · subst g90; rw [ExecOp_eq_0xD1]
    simp +decide [CMP, AddrIndirectIndexed, FetchByte, MemReadByte, MemWriteByte, MemReadWord, FetchWord, PushByteToStack, PushWordToStack, PopByteFromStack, PopWordFromStack, fst_ite, snd_ite, UpdateZN, CompareRegister, SetFlag_testBit, P_ite, testBit_ite, FLAG_CARRY, FLAG_ZERO, FLAG_INTERRUPT, FLAG_DECIMAL, FLAG_BREAK, FLAG_UNUSED, FLAG_OVERFLOW, FLAG_NEGATIVE, h]
  by_cases g91 : opcode = 0xE0
  · subst g91; rw [ExecOp_eq_0xE0]
    simp +decide [CPX, AddrImmediate, FetchByte, MemReadByte, MemWriteByte, MemReadWord, FetchWord, PushByteToStack, PushWordToStack, PopByteFromStack, PopWordFromStack, fst_ite, snd_ite, UpdateZN, CompareRegister, SetFlag_testBit, P_ite, testBit_ite, FLAG_CARRY, FLAG_ZERO, FLAG_INTERRUPT, FLAG_DECIMAL, FLAG_BREAK, FLAG_UNUSED, FLAG_OVERFLOW, FLAG_NEGATIVE, h]
  by_cases g92 : opcode = 0xE4
  · subst g92; rw [ExecOp_eq_0xE4]
    simp +decide [CPX, AddrZeroPage, FetchByte, MemReadByte, MemWriteByte, MemReadWord, FetchWord, PushByteToStack, PushWordToStack, PopByteFromStack, PopWordFromStack, fst_ite, snd_ite, UpdateZN, CompareRegister, SetFlag_testBit, P_ite, testBit_ite, FLAG_CARRY, FLAG_ZERO, FLAG_INTERRUPT, FLAG_DECIMAL, FLAG_BREAK, FLAG_UNUSED, FLAG_OVERFLOW, FLAG_NEGATIVE, h]
  by_cases g93 : opcode = 0xEC
  · subst g93; rw [ExecOp_eq_0xEC]
    simp +decide [CPX, AddrAbsolute, FetchByte, MemReadByte, MemWriteByte, MemReadWord, FetchWord, PushByteToStack, PushWordToStack, PopByteFromStack, PopWordFromStack, fst_ite, snd_ite, UpdateZN, CompareRegister, SetFlag_testBit, P_ite, testBit_ite, FLAG_CARRY, FLAG_ZERO, FLAG_INTERRUPT, FLAG_DECIMAL, FLAG_BREAK, FLAG_UNUSED, FLAG_OVERFLOW, FLAG_NEGATIVE, h]
  by_cases g94 : opcode = 0xC0
  · subst g94; rw [ExecOp_eq_0xC0]
    simp +decide [CPY, AddrImmediate, FetchByte, MemReadByte, MemWriteByte, MemReadWord, FetchWord, PushByteToStack, PushWordToStack, PopByteFromStack, PopWordFromStack, fst_ite, snd_ite, UpdateZN, CompareRegister, SetFlag_testBit, P_ite, testBit_ite, FLAG_CARRY, FLAG_ZERO, FLAG_INTERRUPT, FLAG_DECIMAL, FLAG_BREAK, FLAG_UNUSED, FLAG_OVERFLOW, FLAG_NEGATIVE, h]
  by_cases g95 : opcode = 0xC4
  · subst g95; rw [ExecOp_eq_0xC4]
    simp +decide [CPY, AddrZeroPage, FetchByte, MemReadByte, MemWriteByte, MemReadWord, FetchWord, PushByteToStack, PushWordToStack, PopByteFromStack, PopWordFromStack, fst_ite, snd_ite, UpdateZN, CompareRegister, SetFlag_testBit, P_ite, testBit_ite, FLAG_CARRY, FLAG_ZERO, FLAG_INTERRUPT, FLAG_DECIMAL, FLAG_BREAK, FLAG_UNUSED, FLAG_OVERFLOW, FLAG_NEGATIVE, h]
  by_cases g96 : opcode = 0xCC
  · subst g96; rw [ExecOp_eq_0xCC]
    simp +decide [CPY, AddrAbsolute, FetchByte, MemReadByte, MemWriteByte, MemReadWord, FetchWord, PushByteToStack, PushWordToStack, PopByteFromStack, PopWordFromStack, fst_ite, snd_ite, UpdateZN, CompareRegister, SetFlag_testBit, P_ite, testBit_ite, FLAG_CARRY, FLAG_ZERO, FLAG_INTERRUPT, FLAG_DECIMAL, FLAG_BREAK, FLAG_UNUSED, FLAG_OVERFLOW, FLAG_NEGATIVE, h]
  by_cases g97 : opcode = 0xE6
  · subst g97; rw [ExecOp_eq_0xE6]
    simp +decide [INC, AddrZeroPage, FetchByte, MemReadByte, MemWriteByte, MemReadWord, FetchWord, PushByteToStack, PushWordToStack, PopByteFromStack, PopWordFromStack, fst_ite, snd_ite, UpdateZN, CompareRegister, SetFlag_testBit, P_ite, testBit_ite, FLAG_CARRY, FLAG_ZERO, FLAG_INTERRUPT, FLAG_DECIMAL, FLAG_BREAK, FLAG_UNUSED, FLAG_OVERFLOW, FLAG_NEGATIVE, h]
  by_cases g98 : opcode = 0xF6
  · subst g98; rw [ExecOp_eq_0xF6]
    simp +decide [INC, AddrZeroPageX, FetchByte, MemReadByte, MemWriteByte, MemReadWord, FetchWord, PushByteToStack, PushWordToStack, PopByteFromStack, PopWordFromStack, fst_ite, snd_ite, UpdateZN, CompareRegister, SetFlag_testBit, P_ite, testBit_ite, FLAG_CARRY, FLAG_ZERO, FLAG_INTERRUPT, FLAG_DECIMAL, FLAG_BREAK, FLAG_UNUSED, FLAG_OVERFLOW, FLAG_NEGATIVE, h]
  by_cases g99 : opcode = 0xEE
  · subst g99; rw [ExecOp_eq_0xEE]
    simp +decide [INC, AddrAbsolute, FetchByte, MemReadByte, MemWriteByte, MemReadWord, FetchWord, PushByteToStack, PushWordToStack, PopByteFromStack, PopWordFromStack, fst_ite, snd_ite, UpdateZN, CompareRegister, SetFlag_testBit, P_ite, testBit_ite, FLAG_CARRY, FLAG_ZERO, FLAG_INTERRUPT, FLAG_DECIMAL, FLAG_BREAK, FLAG_UNUSED, FLAG_OVERFLOW, FLAG_NEGATIVE, h]
  by_cases g100 : opcode = 0xFE
  · subst g100; rw [ExecOp_eq_0xFE]
    simp +decide [INC, AddrAbsoluteX, FetchByte, MemReadByte, MemWriteByte, MemReadWord, FetchWord, PushByteToStack, PushWordToStack, PopByteFromStack, PopWordFromStack, fst_ite, snd_ite, UpdateZN, CompareRegister, SetFlag_testBit, P_ite, testBit_ite, FLAG_CARRY, FLAG_ZERO, FLAG_INTERRUPT, FLAG_DECIMAL, FLAG_BREAK, FLAG_UNUSED, FLAG_OVERFLOW, FLAG_NEGATIVE, h]
  by_cases g101 : opcode = 0xE8
  · subst g101; rw [ExecOp_eq_0xE8]
    simp +decide [INX, FetchByte, MemReadByte, MemWriteByte, MemReadWord, FetchWord, PushByteToStack, PushWordToStack, PopByteFromStack, PopWordFromStack, fst_ite, snd_ite, UpdateZN, CompareRegister, SetFlag_testBit, P_ite, testBit_ite, FLAG_CARRY, FLAG_ZERO, FLAG_INTERRUPT, FLAG_DECIMAL, FLAG_BREAK, FLAG_UNUSED, FLAG_OVERFLOW, FLAG_NEGATIVE, h]
  by_cases g102 : opcode = 0xC8
  · subst g102; rw [ExecOp_eq_0xC8]
    simp +decide [INY, FetchByte, MemReadByte, MemWriteByte, MemReadWord, FetchWord, PushByteToStack, PushWordToStack, PopByteFromStack, PopWordFromStack, fst_ite, snd_ite, UpdateZN, CompareRegister, SetFlag_testBit, P_ite, testBit_ite, FLAG_CARRY, FLAG_ZERO, FLAG_INTERRUPT, FLAG_DECIMAL, FLAG_BREAK, FLAG_UNUSED, FLAG_OVERFLOW, FLAG_NEGATIVE, h]
  by_cases g103 : opcode = 0xC6
  · subst g103; rw [ExecOp_eq_0xC6]
    simp +decide [DEC, AddrZeroPage, FetchByte, MemReadByte, MemWriteByte, MemReadWord, FetchWord, PushByteToStack, PushWordToStack, PopByteFromStack, PopWordFromStack, fst_ite, snd_ite, UpdateZN, CompareRegister, SetFlag_testBit, P_ite, testBit_ite, FLAG_CARRY, FLAG_ZERO, FLAG_INTERRUPT, FLAG_DECIMAL, FLAG_BREAK, FLAG_UNUSED, FLAG_OVERFLOW, FLAG_NEGATIVE, h]
  by_cases g104 : opcode = 0xD6
  · subst g104; rw [ExecOp_eq_0xD6]
    simp +decide [DEC, AddrZeroPageX, FetchByte, MemReadByte, MemWriteByte, MemReadWord, FetchWord, PushByteToStack, PushWordToStack, PopByteFromStack, PopWordFromStack, fst_ite, snd_ite, UpdateZN, CompareRegister, SetFlag_testBit, P_ite, testBit_ite, FLAG_CARRY, FLAG_ZERO, FLAG_INTERRUPT, FLAG_DECIMAL, FLAG_BREAK, FLAG_UNUSED, FLAG_OVERFLOW, FLAG_NEGATIVE, h]
  by_cases g105 : opcode = 0xCE
  · subst g105; rw [ExecOp_eq_0xCE]
    simp +decide [DEC, AddrAbsolute, FetchByte, MemReadByte, MemWriteByte, MemReadWord, FetchWord, PushByteToStack, PushWordToStack, PopByteFromStack, PopWordFromStack, fst_ite, snd_ite, UpdateZN, CompareRegister, SetFlag_testBit, P_ite, testBit_ite, FLAG_CARRY, FLAG_ZERO, FLAG_INTERRUPT, FLAG_DECIMAL, FLAG_BREAK, FLAG_UNUSED, FLAG_OVERFLOW, FLAG_NEGATIVE, h]
  by_cases g106 : opcode = 0xDE
  · subst g106; rw [ExecOp_eq_0xDE]
    simp +decide [DEC, AddrAbsoluteX, FetchByte, MemReadByte, MemWriteByte, MemReadWord, FetchWord, PushByteToStack, PushWordToStack, PopByteFromStack, PopWordFromStack, fst_ite, snd_ite, UpdateZN, CompareRegister, SetFlag_testBit, P_ite, testBit_ite, FLAG_CARRY, FLAG_ZERO, FLAG_INTERRUPT, FLAG_DECIMAL, FLAG_BREAK, FLAG_UNUSED, FLAG_OVERFLOW, FLAG_NEGATIVE, h]
  by_cases g107 : opcode = 0xCA
  · subst g107; rw [ExecOp_eq_0xCA]
    simp +decide [DEX, FetchByte, MemReadByte, MemWriteByte, MemReadWord, FetchWord, PushByteToStack, PushWordToStack, PopByteFromStack, PopWordFromStack, fst_ite, snd_ite, UpdateZN, CompareRegister, SetFlag_testBit, P_ite, testBit_ite, FLAG_CARRY, FLAG_ZERO, FLAG_INTERRUPT, FLAG_DECIMAL, FLAG_BREAK, FLAG_UNUSED, FLAG_OVERFLOW, FLAG_NEGATIVE, h]
  by_cases g108 : opcode = 0x88
  · subst g108; rw [ExecOp_eq_0x88]
    simp +decide [DEY, FetchByte, MemReadByte, MemWriteByte, MemReadWord, FetchWord, PushByteToStack, PushWordToStack, PopByteFromStack, PopWordFromStack, fst_ite, snd_ite, UpdateZN, CompareRegister, SetFlag_testBit, P_ite, testBit_ite, FLAG_CARRY, FLAG_ZERO, FLAG_INTERRUPT, FLAG_DECIMAL, FLAG_BREAK, FLAG_UNUSED, FLAG_OVERFLOW, FLAG_NEGATIVE, h]
  by_cases g109 : opcode = 0x0A
  · subst g109; rw [ExecOp_eq_0x0A]
    simp +decide [ASL_ACC, FetchByte, MemReadByte, MemWriteByte, MemReadWord, FetchWord, PushByteToStack, PushWordToStack, PopByteFromStack, PopWordFromStack, fst_ite, snd_ite, UpdateZN, CompareRegister, SetFlag_testBit, P_ite, testBit_ite, FLAG_CARRY, FLAG_ZERO, FLAG_INTERRUPT, FLAG_DECIMAL, FLAG_BREAK, FLAG_UNUSED, FLAG_OVERFLOW, FLAG_NEGATIVE, h]
  by_cases g110 : opcode = 0x06
  · subst g110; rw [ExecOp_eq_0x06]
    simp +decide [ASL_MEM, AddrZeroPage, FetchByte, MemReadByte, MemWriteByte, MemReadWord, FetchWord, PushByteToStack, PushWordToStack, PopByteFromStack, PopWordFromStack, fst_ite, snd_ite, UpdateZN, CompareRegister, SetFlag_testBit, P_ite, testBit_ite, FLAG_CARRY, FLAG_ZERO, FLAG_INTERRUPT, FLAG_DECIMAL, FLAG_BREAK, FLAG_UNUSED, FLAG_OVERFLOW, FLAG_NEGATIVE, h]
  by_cases g111 : opcode = 0x16
  · subst g111; rw [ExecOp_eq_0x16]
    simp +decide [ASL_MEM, AddrZeroPageX, FetchByte, MemReadByte, MemWriteByte, MemReadWord, FetchWord, PushByteToStack, PushWordToStack, PopByteFromStack, PopWordFromStack, fst_ite, snd_ite, UpdateZN, CompareRegister, SetFlag_testBit, P_ite, testBit_ite, FLAG_CARRY, FLAG_ZERO, FLAG_INTERRUPT, FLAG_DECIMAL, FLAG_BREAK, FLAG_UNUSED, FLAG_OVERFLOW, FLAG_NEGATIVE, h]
  by_cases g112 : opcode = 0x0E
  · subst g112; rw [ExecOp_eq_0x0E]
    simp +decide [ASL_MEM, AddrAbsolute, FetchByte, MemReadByte, MemWriteByte, MemReadWord, FetchWord, PushByteToStack, PushWordToStack, PopByteFromStack, PopWordFromStack, fst_ite, snd_ite, UpdateZN, CompareRegister, SetFlag_testBit, P_ite, testBit_ite, FLAG_CARRY, FLAG_ZERO, FLAG_INTERRUPT, FLAG_DECIMAL, FLAG_BREAK, FLAG_UNUSED, FLAG_OVERFLOW, FLAG_NEGATIVE, h]
  by_cases g113 : opcode = 0x1E
  · subst g113; rw [ExecOp_eq_0x1E]
    simp +decide [ASL_MEM, AddrAbsoluteX, FetchByte, MemReadByte, MemWriteByte, MemReadWord, FetchWord, PushByteToStack, PushWordToStack, PopByteFromStack, PopWordFromStack, fst_ite, snd_ite, UpdateZN, CompareRegister, SetFlag_testBit, P_ite, testBit_ite, FLAG_CARRY, FLAG_ZERO, FLAG_INTERRUPT, FLAG_DECIMAL, FLAG_BREAK, FLAG_UNUSED, FLAG_OVERFLOW, FLAG_NEGATIVE, h]
  by_cases g114 : opcode = 0x4A
  · subst g114; rw [ExecOp_eq_0x4A]
    simp +decide [LSR_ACC, FetchByte, MemReadByte, MemWriteByte, MemReadWord, FetchWord, PushByteToStack, PushWordToStack, PopByteFromStack, PopWordFromStack, fst_ite, snd_ite, UpdateZN, CompareRegister, SetFlag_testBit, P_ite, testBit_ite, FLAG_CARRY, FLAG_ZERO, FLAG_INTERRUPT, FLAG_DECIMAL, FLAG_BREAK, FLAG_UNUSED, FLAG_OVERFLOW, FLAG_NEGATIVE, h]
  by_cases g115 : opcode = 0x46
  · subst g115; rw [ExecOp_eq_0x46]
    simp +decide [LSR_MEM, AddrZeroPage, FetchByte, MemReadByte, MemWriteByte, MemReadWord, FetchWord, PushByteToStack, PushWordToStack, PopByteFromStack, PopWordFromStack, fst_ite, snd_ite, UpdateZN, CompareRegister, SetFlag_testBit, P_ite, testBit_ite, FLAG_CARRY, FLAG_ZERO, FLAG_INTERRUPT, FLAG_DECIMAL, FLAG_BREAK, FLAG_UNUSED, FLAG_OVERFLOW, FLAG_NEGATIVE, h]
  by_cases g116 : opcode = 0x56
  · subst g116; rw [ExecOp_eq_0x56]
    simp +decide [LSR_MEM, AddrZeroPageX, FetchByte, MemReadByte, MemWriteByte, MemReadWord, FetchWord, PushByteToStack, PushWordToStack, PopByteFromStack, PopWordFromStack, fst_ite, snd_ite, UpdateZN, CompareRegister, SetFlag_testBit, P_ite, testBit_ite, FLAG_CARRY, FLAG_ZERO, FLAG_INTERRUPT, FLAG_DECIMAL, FLAG_BREAK, FLAG_UNUSED, FLAG_OVERFLOW, FLAG_NEGATIVE, h]
  by_cases g117 : opcode = 0x4E
  · subst g117; rw [ExecOp_eq_0x4E]
    simp +decide [LSR_MEM, AddrAbsolute, FetchByte, MemReadByte, MemWriteByte, MemReadWord, FetchWord, PushByteToStack, PushWordToStack, PopByteFromStack, PopWordFromStack, fst_ite, snd_ite, UpdateZN, CompareRegister, SetFlag_testBit, P_ite, testBit_ite, FLAG_CARRY, FLAG_ZERO, FLAG_INTERRUPT, FLAG_DECIMAL, FLAG_BREAK, FLAG_UNUSED, FLAG_OVERFLOW, FLAG_NEGATIVE, h]
  by_cases g118 : opcode = 0x5E
  · subst g118; rw [ExecOp_eq_0x5E]
    simp +decide [LSR_MEM, AddrAbsoluteX, FetchByte, MemReadByte, MemWriteByte, MemReadWord, FetchWord, PushByteToStack, PushWordToStack, PopByteFromStack, PopWordFromStack, fst_ite, snd_ite, UpdateZN, CompareRegister, SetFlag_testBit, P_ite, testBit_ite, FLAG_CARRY, FLAG_ZERO, FLAG_INTERRUPT, FLAG_DECIMAL, FLAG_BREAK, FLAG_UNUSED, FLAG_OVERFLOW, FLAG_NEGATIVE, h]
  by_cases g119 : opcode = 0x2A
  · subst g119; rw [ExecOp_eq_0x2A]
    simp +decide [ROL_ACC, FetchByte, MemReadByte, MemWriteByte, MemReadWord, FetchWord, PushByteToStack, PushWordToStack, PopByteFromStack, PopWordFromStack, fst_ite, snd_ite, UpdateZN, CompareRegister, SetFlag_testBit, P_ite, testBit_ite, FLAG_CARRY, FLAG_ZERO, FLAG_INTERRUPT, FLAG_DECIMAL, FLAG_BREAK, FLAG_UNUSED, FLAG_OVERFLOW, FLAG_NEGATIVE, h]
  by_cases g120 : opcode = 0x26
  · subst g120; rw [ExecOp_eq_0x26]
    simp +decide [ROL_MEM, AddrZeroPage, FetchByte, MemReadByte, MemWriteByte, MemReadWord, FetchWord, PushByteToStack, PushWordToStack, PopByteFromStack, PopWordFromStack, fst_ite, snd_ite, UpdateZN, CompareRegister, SetFlag_testBit, P_ite, testBit_ite, FLAG_CARRY, FLAG_ZERO, FLAG_INTERRUPT, FLAG_DECIMAL, FLAG_BREAK, FLAG_UNUSED, FLAG_OVERFLOW, FLAG_NEGATIVE, h]
  by_cases g121 : opcode = 0x36
  · subst g121; rw [ExecOp_eq_0x36]
    simp +decide [ROL_MEM, AddrZeroPageX, FetchByte, MemReadByte, MemWriteByte, MemReadWord, FetchWord, PushByteToStack, PushWordToStack, PopByteFromStack, PopWordFromStack, fst_ite, snd_ite, UpdateZN, CompareRegister, SetFlag_testBit, P_ite, testBit_ite, FLAG_CARRY, FLAG_ZERO, FLAG_INTERRUPT, FLAG_DECIMAL, FLAG_BREAK, FLAG_UNUSED, FLAG_OVERFLOW, FLAG_NEGATIVE, h]
  by_cases g122 : opcode = 0x2E
  · subst g122; rw [ExecOp_eq_0x2E]
    simp +decide [ROL_MEM, AddrAbsolute, FetchByte, MemReadByte, MemWriteByte, MemReadWord, FetchWord, PushByteToStack, PushWordToStack, PopByteFromStack, PopWordFromStack, fst_ite, snd_ite, UpdateZN, CompareRegister, SetFlag_testBit, P_ite, testBit_ite, FLAG_CARRY, FLAG_ZERO, FLAG_INTERRUPT, FLAG_DECIMAL, FLAG_BREAK, FLAG_UNUSED, FLAG_OVERFLOW, FLAG_NEGATIVE, h]
  by_cases g123 : opcode = 0x3E
  · subst g123; rw [ExecOp_eq_0x3E]
    simp +decide [ROL_MEM, AddrAbsoluteX, FetchByte, MemReadByte, MemWriteByte, MemReadWord, FetchWord, PushByteToStack, PushWordToStack, PopByteFromStack, PopWordFromStack, fst_ite, snd_ite, UpdateZN, CompareRegister, SetFlag_testBit, P_ite, testBit_ite, FLAG_CARRY, FLAG_ZERO, FLAG_INTERRUPT, FLAG_DECIMAL, FLAG_BREAK, FLAG_UNUSED, FLAG_OVERFLOW, FLAG_NEGATIVE, h]
  by_cases g124 : opcode = 0x6A
  · subst g124; rw [ExecOp_eq_0x6A]
    simp +decide [ROR_ACC, FetchByte, MemReadByte, MemWriteByte, MemReadWord, FetchWord, PushByteToStack, PushWordToStack, PopByteFromStack, PopWordFromStack, fst_ite, snd_ite, UpdateZN, CompareRegister, SetFlag_testBit, P_ite, testBit_ite, FLAG_CARRY, FLAG_ZERO, FLAG_INTERRUPT, FLAG_DECIMAL, FLAG_BREAK, FLAG_UNUSED, FLAG_OVERFLOW, FLAG_NEGATIVE, h]
  by_cases g125 : opcode = 0x66
  · subst g125; rw [ExecOp_eq_0x66]
    simp +decide [ROR_MEM, AddrZeroPage, FetchByte, MemReadByte, MemWriteByte, MemReadWord, FetchWord, PushByteToStack, PushWordToStack, PopByteFromStack, PopWordFromStack, fst_ite, snd_ite, UpdateZN, CompareRegister, SetFlag_testBit, P_ite, testBit_ite, FLAG_CARRY, FLAG_ZERO, FLAG_INTERRUPT, FLAG_DECIMAL, FLAG_BREAK, FLAG_UNUSED, FLAG_OVERFLOW, FLAG_NEGATIVE, h]
  by_cases g126 : opcode = 0x76
  · subst g126; rw [ExecOp_eq_0x76]
    simp +decide [ROR_MEM, AddrZeroPageX, FetchByte, MemReadByte, MemWriteByte, MemReadWord, FetchWord, PushByteToStack, PushWordToStack, PopByteFromStack, PopWordFromStack, fst_ite, snd_ite, UpdateZN, CompareRegister, SetFlag_testBit, P_ite, testBit_ite, FLAG_CARRY, FLAG_ZERO, FLAG_INTERRUPT, FLAG_DECIMAL, FLAG_BREAK, FLAG_UNUSED, FLAG_OVERFLOW, FLAG_NEGATIVE, h]
  by_cases g127 : opcode = 0x6E
  · subst g127; rw [ExecOp_eq_0x6E]
    simp +decide [ROR_MEM, AddrAbsolute, FetchByte, MemReadByte, MemWriteByte, MemReadWord, FetchWord, PushByteToStack, PushWordToStack, PopByteFromStack, PopWordFromStack, fst_ite, snd_ite, UpdateZN, CompareRegister, SetFlag_testBit, P_ite, testBit_ite, FLAG_CARRY, FLAG_ZERO, FLAG_INTERRUPT, FLAG_DECIMAL, FLAG_BREAK, FLAG_UNUSED, FLAG_OVERFLOW, FLAG_NEGATIVE, h]
  by_cases g128 : opcode = 0x7E
  · subst g128; rw [ExecOp_eq_0x7E]
    simp +decide [ROR_MEM, AddrAbsoluteX, FetchByte, MemReadByte, MemWriteByte, MemReadWord, FetchWord, PushByteToStack, PushWordToStack, PopByteFromStack, PopWordFromStack, fst_ite, snd_ite, UpdateZN, CompareRegister, SetFlag_testBit, P_ite, testBit_ite, FLAG_CARRY, FLAG_ZERO, FLAG_INTERRUPT, FLAG_DECIMAL, FLAG_BREAK, FLAG_UNUSED, FLAG_OVERFLOW, FLAG_NEGATIVE, h]
  by_cases g129 : opcode = 0x4C
  · subst g129; rw [ExecOp_eq_0x4C]
    simp +decide [JMP, AddrAbsolute, FetchByte, MemReadByte, MemWriteByte, MemReadWord, FetchWord, PushByteToStack, PushWordToStack, PopByteFromStack, PopWordFromStack, fst_ite, snd_ite, UpdateZN, CompareRegister, SetFlag_testBit, P_ite, testBit_ite, FLAG_CARRY, FLAG_ZERO, FLAG_INTERRUPT, FLAG_DECIMAL, FLAG_BREAK, FLAG_UNUSED, FLAG_OVERFLOW, FLAG_NEGATIVE, h]
  by_cases g130 : opcode = 0x6C
  · subst g130; rw [ExecOp_eq_0x6C]
    simp +decide [JMP, FetchWord, MemReadWord, FetchByte, MemReadByte, MemWriteByte, MemReadWord, FetchWord, PushByteToStack, PushWordToStack, PopByteFromStack, PopWordFromStack, fst_ite, snd_ite, UpdateZN, CompareRegister, SetFlag_testBit, P_ite, testBit_ite, FLAG_CARRY, FLAG_ZERO, FLAG_INTERRUPT, FLAG_DECIMAL, FLAG_BREAK, FLAG_UNUSED, FLAG_OVERFLOW, FLAG_NEGATIVE, h]
  by_cases g131 : opcode = 0x20
  · subst g131; rw [ExecOp_eq_0x20]
    simp +decide [JSR, AddrAbsolute, FetchByte, MemReadByte, MemWriteByte, MemReadWord, FetchWord, PushByteToStack, PushWordToStack, PopByteFromStack, PopWordFromStack, fst_ite, snd_ite, UpdateZN, CompareRegister, SetFlag_testBit, P_ite, testBit_ite, FLAG_CARRY, FLAG_ZERO, FLAG_INTERRUPT, FLAG_DECIMAL, FLAG_BREAK, FLAG_UNUSED, FLAG_OVERFLOW, FLAG_NEGATIVE, h]
  by_cases g132 : opcode = 0x60
  · subst g132; rw [ExecOp_eq_0x60]
    simp +decide [RTS, FetchByte, MemReadByte, MemWriteByte, MemReadWord, FetchWord, PushByteToStack, PushWordToStack, PopByteFromStack, PopWordFromStack, fst_ite, snd_ite, UpdateZN, CompareRegister, SetFlag_testBit, P_ite, testBit_ite, FLAG_CARRY, FLAG_ZERO, FLAG_INTERRUPT, FLAG_DECIMAL, FLAG_BREAK, FLAG_UNUSED, FLAG_OVERFLOW, FLAG_NEGATIVE, h]
  by_cases g133 : opcode = 0x40
  · subst g133; rw [ExecOp_eq_0x40]
    simp +decide [RTI, FetchByte, MemReadByte, MemWriteByte, MemReadWord, FetchWord, PushByteToStack, PushWordToStack, PopByteFromStack, PopWordFromStack, fst_ite, snd_ite, UpdateZN, CompareRegister, SetFlag_testBit, P_ite, testBit_ite, FLAG_CARRY, FLAG_ZERO, FLAG_INTERRUPT, FLAG_DECIMAL, FLAG_BREAK, FLAG_UNUSED, FLAG_OVERFLOW, FLAG_NEGATIVE, h]
  by_cases g134 : opcode = 0x90
  · subst g134; rw [ExecOp_eq_0x90]
    simp +decide [BranchIf, FetchByte, MemReadByte, MemWriteByte, MemReadWord, FetchWord, PushByteToStack, PushWordToStack, PopByteFromStack, PopWordFromStack, fst_ite, snd_ite, UpdateZN, CompareRegister, SetFlag_testBit, P_ite, testBit_ite, FLAG_CARRY, FLAG_ZERO, FLAG_INTERRUPT, FLAG_DECIMAL, FLAG_BREAK, FLAG_UNUSED, FLAG_OVERFLOW, FLAG_NEGATIVE, h]
  by_cases g135 : opcode = 0xB0
  · subst g135; rw [ExecOp_eq_0xB0]
    simp +decide [BranchIf, FetchByte, MemReadByte, MemWriteByte, MemReadWord, FetchWord, PushByteToStack, PushWordToStack, PopByteFromStack, PopWordFromStack, fst_ite, snd_ite, UpdateZN, CompareRegister, SetFlag_testBit, P_ite, testBit_ite, FLAG_CARRY, FLAG_ZERO, FLAG_INTERRUPT, FLAG_DECIMAL, FLAG_BREAK, FLAG_UNUSED, FLAG_OVERFLOW, FLAG_NEGATIVE, h]
  by_cases g136 : opcode = 0xF0
  · subst g136; rw [ExecOp_eq_0xF0]
    simp +decide [BranchIf, FetchByte, MemReadByte, MemWriteByte, MemReadWord, FetchWord, PushByteToStack, PushWordToStack, PopByteFromStack, PopWordFromStack, fst_ite, snd_ite, UpdateZN, CompareRegister, SetFlag_testBit, P_ite, testBit_ite, FLAG_CARRY, FLAG_ZERO, FLAG_INTERRUPT, FLAG_DECIMAL, FLAG_BREAK, FLAG_UNUSED, FLAG_OVERFLOW, FLAG_NEGATIVE, h]
  by_cases g137 : opcode = 0x30
  · subst g137; rw [ExecOp_eq_0x30]
    simp +decide [BranchIf, FetchByte, MemReadByte, MemWriteByte, MemReadWord, FetchWord, PushByteToStack, PushWordToStack, PopByteFromStack, PopWordFromStack, fst_ite, snd_ite, UpdateZN, CompareRegister, SetFlag_testBit, P_ite, testBit_ite, FLAG_CARRY, FLAG_ZERO, FLAG_INTERRUPT, FLAG_DECIMAL, FLAG_BREAK, FLAG_UNUSED, FLAG_OVERFLOW, FLAG_NEGATIVE, h]
  by_cases g138 : opcode = 0xD0
  · subst g138; rw [ExecOp_eq_0xD0]
    simp +decide [BranchIf, FetchByte, MemReadByte, MemWriteByte, MemReadWord, FetchWord, PushByteToStack, PushWordToStack, PopByteFromStack, PopWordFromStack, fst_ite, snd_ite, UpdateZN, CompareRegister, SetFlag_testBit, P_ite, testBit_ite, FLAG_CARRY, FLAG_ZERO, FLAG_INTERRUPT, FLAG_DECIMAL, FLAG_BREAK, FLAG_UNUSED, FLAG_OVERFLOW, FLAG_NEGATIVE, h]
  by_cases g139 : opcode = 0x10
  · subst g139; rw [ExecOp_eq_0x10]
    simp +decide [BranchIf, FetchByte, MemReadByte, MemWriteByte, MemReadWord, FetchWord, PushByteToStack, PushWordToStack, PopByteFromStack, PopWordFromStack, fst_ite, snd_ite, UpdateZN, CompareRegister, SetFlag_testBit, P_ite, testBit_ite, FLAG_CARRY, FLAG_ZERO, FLAG_INTERRUPT, FLAG_DECIMAL, FLAG_BREAK, FLAG_UNUSED, FLAG_OVERFLOW, FLAG_NEGATIVE, h]
  by_cases g140 : opcode = 0x50
  · subst g140; rw [ExecOp_eq_0x50]
    simp +decide [BranchIf, FetchByte, MemReadByte, MemWriteByte, MemReadWord, FetchWord, PushByteToStack, PushWordToStack, PopByteFromStack, PopWordFromStack, fst_ite, snd_ite, UpdateZN, CompareRegister, SetFlag_testBit, P_ite, testBit_ite, FLAG_CARRY, FLAG_ZERO, FLAG_INTERRUPT, FLAG_DECIMAL, FLAG_BREAK, FLAG_UNUSED, FLAG_OVERFLOW, FLAG_NEGATIVE, h]
  by_cases g141 : opcode = 0x70
  · subst g141; rw [ExecOp_eq_0x70]
    simp +decide [BranchIf, FetchByte, MemReadByte, MemWriteByte, MemReadWord, FetchWord, PushByteToStack, PushWordToStack, PopByteFromStack, PopWordFromStack, fst_ite, snd_ite, UpdateZN, CompareRegister, SetFlag_testBit, P_ite, testBit_ite, FLAG_CARRY, FLAG_ZERO, FLAG_INTERRUPT, FLAG_DECIMAL, FLAG_BREAK, FLAG_UNUSED, FLAG_OVERFLOW, FLAG_NEGATIVE, h]
  by_cases g142 : opcode = 0x18
  · subst g142; rw [ExecOp_eq_0x18]
    simp +decide [CLC, FetchByte, MemReadByte, MemWriteByte, MemReadWord, FetchWord, PushByteToStack, PushWordToStack, PopByteFromStack, PopWordFromStack, fst_ite, snd_ite, UpdateZN, CompareRegister, SetFlag_testBit, P_ite, testBit_ite, FLAG_CARRY, FLAG_ZERO, FLAG_INTERRUPT, FLAG_DECIMAL, FLAG_BREAK, FLAG_UNUSED, FLAG_OVERFLOW, FLAG_NEGATIVE, h]
  by_cases g143 : opcode = 0xD8
  · subst g143; rw [ExecOp_eq_0xD8]
    simp +decide [CLD, FetchByte, MemReadByte, MemWriteByte, MemReadWord, FetchWord, PushByteToStack, PushWordToStack, PopByteFromStack, PopWordFromStack, fst_ite, snd_ite, UpdateZN, CompareRegister, SetFlag_testBit, P_ite, testBit_ite, FLAG_CARRY, FLAG_ZERO, FLAG_INTERRUPT, FLAG_DECIMAL, FLAG_BREAK, FLAG_UNUSED, FLAG_OVERFLOW, FLAG_NEGATIVE, h]
  by_cases g144 : opcode = 0x58
  · subst g144; rw [ExecOp_eq_0x58]
    simp +decide [CLI, FetchByte, MemReadByte, MemWriteByte, MemReadWord, FetchWord, PushByteToStack, PushWordToStack, PopByteFromStack, PopWordFromStack, fst_ite, snd_ite, UpdateZN, CompareRegister, SetFlag_testBit, P_ite, testBit_ite, FLAG_CARRY, FLAG_ZERO, FLAG_INTERRUPT, FLAG_DECIMAL, FLAG_BREAK, FLAG_UNUSED, FLAG_OVERFLOW, FLAG_NEGATIVE, h]
  by_cases g145 : opcode = 0xB8
  · subst g145; rw [ExecOp_eq_0xB8]
    simp +decide [CLV, FetchByte, MemReadByte, MemWriteByte, MemReadWord, FetchWord, PushByteToStack, PushWordToStack, PopByteFromStack, PopWordFromStack, fst_ite, snd_ite, UpdateZN, CompareRegister, SetFlag_testBit, P_ite, testBit_ite, FLAG_CARRY, FLAG_ZERO, FLAG_INTERRUPT, FLAG_DECIMAL, FLAG_BREAK, FLAG_UNUSED, FLAG_OVERFLOW, FLAG_NEGATIVE, h]
  by_cases g146 : opcode = 0x38
  · subst g146; rw [ExecOp_eq_0x38]
    simp +decide [SEC, FetchByte, MemReadByte, MemWriteByte, MemReadWord, FetchWord, PushByteToStack, PushWordToStack, PopByteFromStack, PopWordFromStack, fst_ite, snd_ite, UpdateZN, CompareRegister, SetFlag_testBit, P_ite, testBit_ite, FLAG_CARRY, FLAG_ZERO, FLAG_INTERRUPT, FLAG_DECIMAL, FLAG_BREAK, FLAG_UNUSED, FLAG_OVERFLOW, FLAG_NEGATIVE, h]
  by_cases g147 : opcode = 0xF8
  · subst g147; rw [ExecOp_eq_0xF8]
    simp +decide [SED, FetchByte, MemReadByte, MemWriteByte, MemReadWord, FetchWord, PushByteToStack, PushWordToStack, PopByteFromStack, PopWordFromStack, fst_ite, snd_ite, UpdateZN, CompareRegister, SetFlag_testBit, P_ite, testBit_ite, FLAG_CARRY, FLAG_ZERO, FLAG_INTERRUPT, FLAG_DECIMAL, FLAG_BREAK, FLAG_UNUSED, FLAG_OVERFLOW, FLAG_NEGATIVE, h]
  by_cases g148 : opcode = 0x78
  · subst g148; rw [ExecOp_eq_0x78]
    simp +decide [SEI, FetchByte, MemReadByte, MemWriteByte, MemReadWord, FetchWord, PushByteToStack, PushWordToStack, PopByteFromStack, PopWordFromStack, fst_ite, snd_ite, UpdateZN, CompareRegister, SetFlag_testBit, P_ite, testBit_ite, FLAG_CARRY, FLAG_ZERO, FLAG_INTERRUPT, FLAG_DECIMAL, FLAG_BREAK, FLAG_UNUSED, FLAG_OVERFLOW, FLAG_NEGATIVE, h]
  by_cases g149 : opcode = 0x00
  · subst g149; rw [ExecOp_eq_0x00]
    simp +decide [BRK, FetchByte, MemReadByte, MemWriteByte, MemReadWord, FetchWord, PushByteToStack, PushWordToStack, PopByteFromStack, PopWordFromStack, fst_ite, snd_ite, UpdateZN, CompareRegister, SetFlag_testBit, P_ite, testBit_ite, FLAG_CARRY, FLAG_ZERO, FLAG_INTERRUPT, FLAG_DECIMAL, FLAG_BREAK, FLAG_UNUSED, FLAG_OVERFLOW, FLAG_NEGATIVE, h]
  by_cases g150 : opcode = 0xEA
  · subst g150; rw [ExecOp_eq_0xEA]
    simp +decide [NOP, FetchByte, MemReadByte, MemWriteByte, MemReadWord, FetchWord, PushByteToStack, PushWordToStack, PopByteFromStack, PopWordFromStack, fst_ite, snd_ite, UpdateZN, CompareRegister, SetFlag_testBit, P_ite, testBit_ite, FLAG_CARRY, FLAG_ZERO, FLAG_INTERRUPT, FLAG_DECIMAL, FLAG_BREAK, FLAG_UNUSED, FLAG_OVERFLOW, FLAG_NEGATIVE, h]
  rw [ExecOp_eq_default opcode s cy g0 g1 g2 g3 g4 g5 g6 g7 g8 g9 g10 g11 g12 g13 g14 g15 g16 g17 g18 g19 g20 g21 g22 g23 g24 g25 g26 g27 g28 g29 g30 g31 g32 g33 g34 g35 g36 g37 g38 g39 g40 g41 g42 g43 g44 g45 g46 g47 g48 g49 g50 g51 g52 g53 g54 g55 g56 g57 g58 g59 g60 g61 g62 g63 g64 g65 g66 g67 g68 g69 g70 g71 g72 g73 g74 g75 g76 g77 g78 g79 g80 g81 g82 g83 g84 g85 g86 g87 g88 g89 g90 g91 g92 g93 g94 g95 g96 g97 g98 g99 g100 g101 g102 g103 g104 g105 g106 g107 g108 g109 g110 g111 g112 g113 g114 g115 g116 g117 g118 g119 g120 g121 g122 g123 g124 g125 g126 g127 g128 g129 g130 g131 g132 g133 g134 g135 g136 g137 g138 g139 g140 g141 g142 g143 g144 g145 g146 g147 g148 g149 g150]
  exact h


/-- One `Execute` step always charges at least the opcode-fetch cycle. -/
theorem Execute_cy_pos (s : St) : 1 ≤ (Execute s).2 := by
  have h := ExecOp_cy_le (s.mem (s.PC % 65536) % 256) { s with PC := (s.PC + 1) % 65536 } 1
  simpa [Execute, FetchByte, MemReadByte] using h

/-- The loop body of `CPU::Execute(Cycles, Memory&)`
(src/Instructions.cpp): repeatedly execute whole instructions while
`cyclesExecuted < cycles`.  Terminates because every step charges at
least one cycle. -/
def ExecuteLoop (s : St) (cycles cyclesExecuted : Nat) : St × Nat :=
  if h : cyclesExecuted < cycles then
    let r := Execute s
    ExecuteLoop r.1 cycles (cyclesExecuted + r.2)
  else
    (s, cyclesExecuted)
termination_by cycles - cyclesExecuted
decreasing_by
  have := Execute_cy_pos s
  omega

/-- `CPU::Execute(Cycles, Memory&)`: run whole instructions until the
cycle budget is met, returning the cycles actually executed. -/
def ExecuteBudget (s : St) (cycles : Nat) : St × Nat :=
  ExecuteLoop s cycles 0


-- ====================================================================
-- Claim theorems
-- ====================================================================

/-- C8: for every memory image, reset sets PC to the little-endian
word at 0xFFFC/0xFFFD, SP to 0xFD, P to 0x24, zeroes A, X and Y, and
adds exactly 8 cycles to TotalCycles. -/
theorem reset_spec (s : St) :
    (Reset s).PC = (s.mem 0xFFFD % 256) * 256 + s.mem 0xFFFC % 256 ∧
    (Reset s).SP = 0xFD ∧
    (Reset s).P = 0x24 ∧
    (Reset s).A = 0 ∧ (Reset s).X = 0 ∧ (Reset s).Y = 0 ∧
    (Reset s).TotalCycles = s.TotalCycles + 8 := by
  simp [Reset, MemReadWord, MemReadByte, SetFlag, VECTOR_RESET,
    STACK_POINTER_RESET, FLAG_UNUSED, FLAG_INTERRUPT]

/-- C10: reset never writes to memory — every byte is unchanged. -/
theorem reset_mem_frame (s : St) (a : Nat) : (Reset s).mem a = s.mem a := by
  simp [Reset, MemReadWord, MemReadByte]

/-- Concrete input for C1: `STA $10F0,X` at 0x1000 with X = 0x20, so
adding X crosses a page (0x10F0 + 0x20 = 0x1110). -/
def c1mem : Mem := fun a =>
  if a = 0x1000 then 0x9D else if a = 0x1001 then 0xF0 else
  if a = 0x1002 then 0x10 else 0

def c1st : St :=
  { A := 0x55, X := 0x20, Y := 0, PC := 0x1000, SP := 0xFD, P := 0x24,
    TotalCycles := 0, mem := c1mem }

/-- Concrete input for C1: `STA $1080,X` at 0x1000 with X = 0x10 — no
page cross (0x1080 + 0x10 = 0x1090). -/
def c1memNC : Mem := fun a =>
  if a = 0x1000 then 0x9D else if a = 0x1001 then 0x80 else
  if a = 0x1002 then 0x10 else 0

def c1stNC : St :=
  { A := 0x55, X := 0x10, Y := 0, PC := 0x1000, SP := 0xFD, P := 0x24,
    TotalCycles := 0, mem := c1memNC }

/-- C1: a step executing `STA abs,X` charges 4 cycles whether or not
the indexed address crosses a page — a fixed count independent of
crossing, but 4, not the 5 the specification states.  The store itself
is performed (the byte lands at the effective address). -/
theorem sta_absx_four_cycles :
    (Execute c1st).2 = 4 ∧ (Execute c1st).1.mem 0x1110 = 0x55 ∧
    (Execute c1stNC).2 = 4 ∧ (Execute c1stNC).1.mem 0x1090 = 0x55 := by
  refine ⟨by decide, by decide, by decide, by decide⟩

/-- Concrete input for C2: decimal mode, V set, carry set (no borrow),
A = 0x00, `SBC #$00` (P = 0x69 = V | Unused | D | C). -/
def c2mem : Mem := fun a =>
  if a = 0x1000 then 0xE9 else if a = 0x1001 then 0x00 else 0

def c2st : St :=
  { A := 0x00, X := 0, Y := 0, PC := 0x1000, SP := 0xFD, P := 0x69,
    TotalCycles := 0, mem := c2mem }

/-- C2: a decimal-mode SBC leaves the V flag untouched (here it stays
set), although the binary-mode rule `(A ^ sum) & ((M ^ 0xFF) ^ sum) & 0x80`
— which the claim says applies to every decimal-mode SBC on a real
NMOS 6502 — evaluates to 0 at this input.  A and the other flags show
the instruction really executed: A = 0 - 0 = 0, carry still set. -/
theorem sbc_decimal_v_flag_untouched :
    GetFlag (Execute c2st).1 FLAG_OVERFLOW = true ∧
    (((c2st.A ^^^ (c2st.A + (0x00 ^^^ 0xFF) + 1)) &&&
        ((0x00 ^^^ 0xFF) ^^^ (c2st.A + (0x00 ^^^ 0xFF) + 1))) &&& 0x80) = 0 ∧
    (Execute c2st).1.A = 0 ∧
    GetFlag (Execute c2st).1 FLAG_CARRY = true := by
  refine ⟨by decide, by decide, by decide, by decide⟩


/-- Instance of `SetFlag_testBit` at bit 0 (Carry). -/
theorem SetFlag_tb0 (P m : Nat) (b : Bool) :
    (SetFlag P m b).testBit 0 = if m.testBit 0 then b else P.testBit 0 :=
  SetFlag_testBit P m b 0 (by decide)

/-- Instance of `SetFlag_testBit` at bit 1 (Zero). -/
theorem SetFlag_tb1 (P m : Nat) (b : Bool) :
    (SetFlag P m b).testBit 1 = if m.testBit 1 then b else P.testBit 1 :=
  SetFlag_testBit P m b 1 (by decide)

/-- Instance of `SetFlag_testBit` at bit 5 (Unused). -/
theorem SetFlag_tb5 (P m : Nat) (b : Bool) :
    (SetFlag P m b).testBit 5 = if m.testBit 5 then b else P.testBit 5 :=
  SetFlag_testBit P m b 5 (by decide)

/-- Instance of `SetFlag_testBit` at bit 6 (Overflow). -/
theorem SetFlag_tb6 (P m : Nat) (b : Bool) :
    (SetFlag P m b).testBit 6 = if m.testBit 6 then b else P.testBit 6 :=
  SetFlag_testBit P m b 6 (by decide)

/-- Instance of `SetFlag_testBit` at bit 7 (Negative). -/
theorem SetFlag_tb7 (P m : Nat) (b : Bool) :
    (SetFlag P m b).testBit 7 = if m.testBit 7 then b else P.testBit 7 :=
  SetFlag_testBit P m b 7 (by decide)

/-- C4: indirect JMP reproduces the NMOS page-boundary bug — when the
low byte of the pointer is 0xFF the high byte of the target comes from
`pointer AND 0xFF00` (the same page), otherwise the target is the
little-endian word at the pointer. -/
theorem jmp_indirect_page_bug (s : St) (h : s.mem (s.PC % 65536) % 256 = 0x6C) :
    (Execute s).1.PC =
      (let ptr := (s.mem ((s.PC + 2) % 65536) % 256) * 256 + s.mem ((s.PC + 1) % 65536) % 256
       if ptr &&& 0xFF = 0xFF then
         (s.mem (ptr &&& 0xFF00) % 256) * 256 + s.mem ptr % 256
       else
         (s.mem ((ptr + 1) % 65536) % 256) * 256 + s.mem ptr % 256) := by
  have hPC2 : ((s.PC + 1) % 65536 + 1) % 65536 = (s.PC + 2) % 65536 := by omega
  have hPC1 : (s.PC + 1) % 65536 % 65536 = (s.PC + 1) % 65536 := by omega
  simp only [Execute, FetchByte, MemReadByte, h]
  rw [ExecOp_eq_0x6C]
  simp only [FetchWord, MemReadWord, MemReadByte, JMP, hPC1, hPC2]
  set ptr := (s.mem ((s.PC + 2) % 65536) % 256) * 256 + s.mem ((s.PC + 1) % 65536) % 256 with hptr
  have hlt : ptr < 65536 := by omega
  have hmod : ptr % 65536 = ptr := Nat.mod_eq_of_lt hlt
  have hand : (ptr &&& 0xFF00) % 65536 = ptr &&& 0xFF00 :=
    Nat.mod_eq_of_lt (lt_of_le_of_lt Nat.and_le_left hlt)
  split_ifs with hc
  · simp [hmod, hand]
  · simp [hmod]

/-- Concrete input for C4: `JMP ($10FF)` at 0x2000 with
mem[0x10FF] = 0x34, mem[0x1000] = 0x12, mem[0x1100] = 0x56. -/
def c4mem : Mem := fun a =>
  if a = 0x2000 then 0x6C else if a = 0x2001 then 0xFF else if a = 0x2002 then 0x10 else
  if a = 0x10FF then 0x34 else if a = 0x1000 then 0x12 else if a = 0x1100 then 0x56 else 0

def c4st : St :=
  { A := 0, X := 0, Y := 0, PC := 0x2000, SP := 0xFD, P := 0x24,
    TotalCycles := 0, mem := c4mem }

/-- Witness for C4: the target is 0x1234 (high byte from 0x1000, not
from 0x1100). -/
theorem jmp_indirect_page_bug_witness :
    c4st.mem (c4st.PC % 65536) % 256 = 0x6C ∧ (Execute c4st).1.PC = 0x1234 := by
  refine ⟨by decide, ?_⟩
  have h := jmp_indirect_page_bug c4st (by decide)
  rw [h]
  decide

/-- The spec's decimal-mode ADC algorithm, written from the spec's own
words (section 4.4): low nibble `(A & 0x0F) + (M & 0x0F) + C`, +6 when it
exceeds 9; combined with the high nibbles; N and Z from the
intermediate result, V from `(A^r)&(M^r)&0x80`; +0x60 when the high
nibble exceeds 9; C iff the final result exceeds 0x99.  Returns
`(A, N, Z, V, C)`. -/
def ADC_decimalSpec (A M : Nat) (carryIn : Bool) : Nat × Bool × Bool × Bool × Bool :=
  let lo := (A &&& 0x0F) + (M &&& 0x0F) + (if carryIn then 1 else 0)
  let lo := if lo > 9 then lo + 6 else lo
  let r := (A &&& 0xF0) + (M &&& 0xF0) + (if lo > 0x0F then 0x10 else 0) + (lo &&& 0x0F)
  let N := (r &&& 0x80) != 0
  let Z := (r &&& 0xFF) == 0
  let V := (((A ^^^ r) &&& (M ^^^ r)) &&& 0x80) != 0
  let r := if (r &&& 0xF0) > 0x90 then r + 0x60 else r
  let C := decide (r > 0x99)
  (r &&& 0xFF, N, Z, V, C)

/-- Concrete input for C5: D=1, C=0, A=0x15, `ADC #$27` at 0x1000. -/
def c5mem : Mem := fun a =>
  if a = 0x1000 then 0x69 else if a = 0x1001 then 0x27 else 0

def c5st : St :=
  { A := 0x15, X := 0, Y := 0, PC := 0x1000, SP := 0xFD, P := 0x28,
    TotalCycles := 0, mem := c5mem }

/-- C5: with the Decimal flag set, ADC computes accumulator and the
N/Z/V/C flags exactly per the spec's NMOS BCD algorithm; and the
concrete example D=1, C=0, A=0x15, `ADC #$27` yields A=0x42 with
C=0, N=0, Z=0. -/
theorem adc_decimal_nmos :
    (∀ (s : St) (cy addr : Nat), GetFlag s FLAG_DECIMAL = true →
      ((ADC s cy addr).1.A,
        (ADC s cy addr).1.P.testBit 7, (ADC s cy addr).1.P.testBit 1,
        (ADC s cy addr).1.P.testBit 6, (ADC s cy addr).1.P.testBit 0) =
      ADC_decimalSpec s.A (s.mem (addr % 65536) % 256) (GetFlag s FLAG_CARRY)) ∧
    ((Execute c5st).1.A = 0x42 ∧ GetFlag (Execute c5st).1 FLAG_CARRY = false ∧
      GetFlag (Execute c5st).1 FLAG_NEGATIVE = false ∧
      GetFlag (Execute c5st).1 FLAG_ZERO = false) := by
  constructor
  · intro s cy addr hD
    simp only [ADC, MemReadByte]
    simp only [hD, if_true, eq_self_iff_true, ite_true]
    simp only [ADC_decimalSpec, FLAG_CARRY, FLAG_ZERO, FLAG_OVERFLOW, FLAG_NEGATIVE,
      SetFlag_tb0, SetFlag_tb1, SetFlag_tb6, SetFlag_tb7]
    simp +decide
  · exact ⟨by decide, by decide, by decide, by decide⟩

/-- Witness for C5: the general decimal-ADC theorem applied at the
concrete claim example. -/
theorem adc_decimal_nmos_witness :
    GetFlag c5st FLAG_DECIMAL = true ∧
    ((ADC c5st 0 0x1001).1.A,
      (ADC c5st 0 0x1001).1.P.testBit 7, (ADC c5st 0 0x1001).1.P.testBit 1,
      (ADC c5st 0 0x1001).1.P.testBit 6, (ADC c5st 0 0x1001).1.P.testBit 0) =
      ADC_decimalSpec c5st.A (c5st.mem (0x1001 % 65536) % 256) (GetFlag c5st FLAG_CARRY) :=
  ⟨by decide, adc_decimal_nmos.1 c5st 0 0x1001 (by decide)⟩

/-- The condition tested by each of the eight branch opcodes in the
dispatch (src/Instructions.cpp branch cases). -/
def branchCond (op : Nat) (s : St) : Option Bool :=
  if op = 0x90 then some (!(GetFlag s FLAG_CARRY)) else
  if op = 0xB0 then some (GetFlag s FLAG_CARRY) else
  if op = 0xF0 then some (GetFlag s FLAG_ZERO) else
  if op = 0x30 then some (GetFlag s FLAG_NEGATIVE) else
  if op = 0xD0 then some (!(GetFlag s FLAG_ZERO)) else
  if op = 0x10 then some (!(GetFlag s FLAG_NEGATIVE)) else
  if op = 0x50 then some (!(GetFlag s FLAG_OVERFLOW)) else
  if op = 0x70 then some (GetFlag s FLAG_OVERFLOW) else none

/-- C6: for every branch instruction, a not-taken branch costs exactly
2 cycles and leaves PC just past the offset byte; a taken branch sets
PC to the post-operand PC plus the sign-extended offset, costing 3
cycles on the same page and 4 across pages. -/
theorem branch_step (s : St) (c : Bool)
    (h : branchCond (s.mem (s.PC % 65536) % 256) s = some c) :
    let offset := s.mem ((s.PC + 1) % 65536) % 256
    let basePC := (s.PC + 2) % 65536
    let target := u16 ((basePC : Int) +
      (if offset < 128 then (offset : Int) else (offset : Int) - 256))
    (Execute s).1.PC = (if c then target else basePC) ∧
    (Execute s).2 = (if c then (if basePC &&& 0xFF00 = target &&& 0xFF00 then 3 else 4) else 2) := by
  have hPC2 : ((s.PC + 1) % 65536 + 1) % 65536 = (s.PC + 2) % 65536 := by omega
  have hPC1 : (s.PC + 1) % 65536 % 65536 = (s.PC + 1) % 65536 := by omega
  unfold branchCond at h
  split_ifs at h with h1 h2 h3 h4 h5 h6 h7 h8
  · injection h with hc; subst hc
    simp only [Execute, FetchByte, MemReadByte, h1]
    rw [ExecOp_eq_0x90]
    simp only [BranchIf, FetchByte, MemReadByte, GetFlag, hPC1, hPC2,
      FLAG_CARRY, FLAG_ZERO, FLAG_NEGATIVE, FLAG_OVERFLOW, fst_ite, snd_ite, P_ite]
    split_ifs <;> simp_all <;> omega
  · injection h with hc; subst hc
    simp only [Execute, FetchByte, MemReadByte, h2]
    rw [ExecOp_eq_0xB0]
    simp only [BranchIf, FetchByte, MemReadByte, GetFlag, hPC1, hPC2,
      FLAG_CARRY, FLAG_ZERO, FLAG_NEGATIVE, FLAG_OVERFLOW, fst_ite, snd_ite, P_ite]
    split_ifs <;> simp_all <;> omega
  · injection h with hc; subst hc
    simp only [Execute, FetchByte, MemReadByte, h3]
    rw [ExecOp_eq_0xF0]
    simp only [BranchIf, FetchByte, MemReadByte, GetFlag, hPC1, hPC2,
      FLAG_CARRY, FLAG_ZERO, FLAG_NEGATIVE, FLAG_OVERFLOW, fst_ite, snd_ite, P_ite]
    split_ifs <;> simp_all <;> omega
  · injection h with hc; subst hc
    simp only [Execute, FetchByte, MemReadByte, h4]
    rw [ExecOp_eq_0x30]
    simp only [BranchIf, FetchByte, MemReadByte, GetFlag, hPC1, hPC2,
      FLAG_CARRY, FLAG_ZERO, FLAG_NEGATIVE, FLAG_OVERFLOW, fst_ite, snd_ite, P_ite]
    split_ifs <;> simp_all <;> omega
  · injection h with hc; subst hc
    simp only [Execute, FetchByte, MemReadByte, h5]
    rw [ExecOp_eq_0xD0]
    simp only [BranchIf, FetchByte, MemReadByte, GetFlag, hPC1, hPC2,
      FLAG_CARRY, FLAG_ZERO, FLAG_NEGATIVE, FLAG_OVERFLOW, fst_ite, snd_ite, P_ite]
    split_ifs <;> simp_all <;> omega
  · injection h with hc; subst hc
    simp only [Execute, FetchByte, MemReadByte, h6]
    rw [ExecOp_eq_0x10]
    simp only [BranchIf, FetchByte, MemReadByte, GetFlag, hPC1, hPC2,
      FLAG_CARRY, FLAG_ZERO, FLAG_NEGATIVE, FLAG_OVERFLOW, fst_ite, snd_ite, P_ite]
    split_ifs <;> simp_all <;> omega
  · injection h with hc; subst hc
    simp only [Execute, FetchByte, MemReadByte, h7]
    rw [ExecOp_eq_0x50]
    simp only [BranchIf, FetchByte, MemReadByte, GetFlag, hPC1, hPC2,
      FLAG_CARRY, FLAG_ZERO, FLAG_NEGATIVE, FLAG_OVERFLOW, fst_ite, snd_ite, P_ite]
    split_ifs <;> simp_all <;> omega
  · injection h with hc; subst hc
    simp only [Execute, FetchByte, MemReadByte, h8]
    rw [ExecOp_eq_0x70]
    simp only [BranchIf, FetchByte, MemReadByte, GetFlag, hPC1, hPC2,
      FLAG_CARRY, FLAG_ZERO, FLAG_NEGATIVE, FLAG_OVERFLOW, fst_ite, snd_ite, P_ite]
    split_ifs <;> simp_all <;> omega

/-- Concrete inputs for C6: `BNE -16` at 0x1001 with Z clear — taken,
crossing from page 0x10 to page 0x0F (target 0x0FF3); and the same
program with Z set — not taken. -/
def c6mem : Mem := fun a =>
  if a = 0x1001 then 0xD0 else if a = 0x1002 then 0xF0 else 0

def c6st : St :=
  { A := 0, X := 0, Y := 0, PC := 0x1001, SP := 0xFD, P := 0x24,
    TotalCycles := 0, mem := c6mem }

def c6stNT : St :=
  { A := 0, X := 0, Y := 0, PC := 0x1001, SP := 0xFD, P := 0x26,
    TotalCycles := 0, mem := c6mem }

/-- Witness for C6: taken page-crossing branch costs 4 and lands at
0x0FF3; not-taken branch costs 2 and lands at 0x1003. -/
theorem branch_step_witness :
    branchCond (c6st.mem (c6st.PC % 65536) % 256) c6st = some true ∧
    (Execute c6st).1.PC = 0x0FF3 ∧ (Execute c6st).2 = 4 ∧
    branchCond (c6stNT.mem (c6stNT.PC % 65536) % 256) c6stNT = some false ∧
    (Execute c6stNT).1.PC = 0x1003 ∧ (Execute c6stNT).2 = 2 := by
  have h1 := branch_step c6st true (by decide)
  have h2 := branch_step c6stNT false (by decide)
  refine ⟨by decide, ?_, ?_, by decide, ?_, ?_⟩
  · rw [h1.1]; decide
  · rw [h1.2]; decide
  · rw [h2.1]; decide
  · rw [h2.2]; decide

/-- If the fetched byte is not a legal opcode, the dispatch falls
through to the default case: state untouched, one extra cycle. -/
theorem ExecOp_unknown (op : Nat) (s : St) (cy : Nat) (h : isLegal op = false) :
    ExecOp op s cy = (s, cy + 1) := by
  have hm : op ∉ legalList := by
    simpa [isLegal] using h
  exact ExecOp_eq_default op s cy
    (fun he => hm (by rw [he]; decide))
    (fun he => hm (by rw [he]; decide))
    (fun he => hm (by rw [he]; decide))
    (fun he => hm (by rw [he]; decide))
    (fun he => hm (by rw [he]; decide))
    (fun he => hm (by rw [he]; decide))
    (fun he => hm (by rw [he]; decide))
    (fun he => hm (by rw [he]; decide))
    (fun he => hm (by rw [he]; decide))
    (fun he => hm (by rw [he]; decide))
    (fun he => hm (by rw [he]; decide))
    (fun he => hm (by rw [he]; decide))
    (fun he => hm (by rw [he]; decide))
    (fun he => hm (by rw [he]; decide))
    (fun he => hm (by rw [he]; decide))
    (fun he => hm (by rw [he]; decide))
    (fun he => hm (by rw [he]; decide))
    (fun he => hm (by rw [he]; decide))
    (fun he => hm (by rw [he]; decide))
    (fun he => hm (by rw [he]; decide))
    (fun he => hm (by rw [he]; decide))
    (fun he => hm (by rw [he]; decide))
    (fun he => hm (by rw [he]; decide))
    (fun he => hm (by rw [he]; decide))
    (fun he => hm (by rw [he]; decide))
    (fun he => hm (by rw [he]; decide))
    (fun he => hm (by rw [he]; decide))
    (fun he => hm (by rw [he]; decide))
    (fun he => hm (by rw [he]; decide))
    (fun he => hm (by rw [he]; decide))
    (fun he => hm (by rw [he]; decide))
    (fun he => hm (by rw [he]; decide))
    (fun he => hm (by rw [he]; decide))
    (fun he => hm (by rw [he]; decide))
    (fun he => hm (by rw [he]; decide))
    (fun he => hm (by rw [he]; decide))
    (fun he => hm (by rw [he]; decide))
    (fun he => hm (by rw [he]; decide))
    (fun he => hm (by rw [he]; decide))
    (fun he => hm (by rw [he]; decide))
    (fun he => hm (by rw [he]; decide))
    (fun he => hm (by rw [he]; decide))
    (fun he => hm (by rw [he]; decide))
    (fun he => hm (by rw [he]; decide))
    (fun he => hm (by rw [he]; decide))
    (fun he => hm (by rw [he]; decide))
    (fun he => hm (by rw [he]; decide))
    (fun he => hm (by rw [he]; decide))
    (fun he => hm (by rw [he]; decide))
    (fun he => hm (by rw [he]; decide))
    (fun he => hm (by rw [he]; decide))
    (fun he => hm (by rw [he]; decide))
    (fun he => hm (by rw [he]; decide))
    (fun he => hm (by rw [he]; decide))
    (fun he => hm (by rw [he]; decide))
    (fun he => hm (by rw [he]; decide))
    (fun he => hm (by rw [he]; decide))
    (fun he => hm (by rw [he]; decide))
    (fun he => hm (by rw [he]; decide))
    (fun he => hm (by rw [he]; decide))
    (fun he => hm (by rw [he]; decide))
    (fun he => hm (by rw [he]; decide))
    (fun he => hm (by rw [he]; decide))
    (fun he => hm (by rw [he]; decide))
    (fun he => hm (by rw [he]; decide))
    (fun he => hm (by rw [he]; decide))
    (fun he => hm (by rw [he]; decide))
    (fun he => hm (by rw [he]; decide))
    (fun he => hm (by rw [he]; decide))
    (fun he => hm (by rw [he]; decide))
    (fun he => hm (by rw [he]; decide))
    (fun he => hm (by rw [he]; decide))
    (fun he => hm (by rw [he]; decide))
    (fun he => hm (by rw [he]; decide))
    (fun he => hm (by rw [he]; decide))
    (fun he => hm (by rw [he]; decide))
    (fun he => hm (by rw [he]; decide))
    (fun he => hm (by rw [he]; decide))
    (fun he => hm (by rw [he]; decide))
    (fun he => hm (by rw [he]; decide))
    (fun he => hm (by rw [he]; decide))
    (fun he => hm (by rw [he]; decide))
    (fun he => hm (by rw [he]; decide))
    (fun he => hm (by rw [he]; decide))
    (fun he => hm (by rw [he]; decide))
    (fun he => hm (by rw [he]; decide))
    (fun he => hm (by rw [he]; decide))
    (fun he => hm (by rw [he]; decide))
    (fun he => hm (by rw [he]; decide))
    (fun he => hm (by rw [he]; decide))
    (fun he => hm (by rw [he]; decide))
    (fun he => hm (by rw [he]; decide))
    (fun he => hm (by rw [he]; decide))
    (fun he => hm (by rw [he]; decide))
    (fun he => hm (by rw [he]; decide))
    (fun he => hm (by rw [he]; decide))
    (fun he => hm (by rw [he]; decide))
    (fun he => hm (by rw [he]; decide))
    (fun he => hm (by rw [he]; decide))
    (fun he => hm (by rw [he]; decide))
    (fun he => hm (by rw [he]; decide))
    (fun he => hm (by rw [he]; decide))
    (fun he => hm (by rw [he]; decide))
    (fun he => hm (by rw [he]; decide))
    (fun he => hm (by rw [he]; decide))
    (fun he => hm (by rw [he]; decide))
    (fun he => hm (by rw [he]; decide))
    (fun he => hm (by rw [he]; decide))
    (fun he => hm (by rw [he]; decide))
    (fun he => hm (by rw [he]; decide))
    (fun he => hm (by rw [he]; decide))
    (fun he => hm (by rw [he]; decide))
    (fun he => hm (by rw [he]; decide))
    (fun he => hm (by rw [he]; decide))
    (fun he => hm (by rw [he]; decide))
    (fun he => hm (by rw [he]; decide))
    (fun he => hm (by rw [he]; decide))
    (fun he => hm (by rw [he]; decide))
    (fun he => hm (by rw [he]; decide))
    (fun he => hm (by rw [he]; decide))
    (fun he => hm (by rw [he]; decide))
    (fun he => hm (by rw [he]; decide))
    (fun he => hm (by rw [he]; decide))
    (fun he => hm (by rw [he]; decide))
    (fun he => hm (by rw [he]; decide))
    (fun he => hm (by rw [he]; decide))
    (fun he => hm (by rw [he]; decide))
    (fun he => hm (by rw [he]; decide))
    (fun he => hm (by rw [he]; decide))
    (fun he => hm (by rw [he]; decide))
    (fun he => hm (by rw [he]; decide))
    (fun he => hm (by rw [he]; decide))
    (fun he => hm (by rw [he]; decide))
    (fun he => hm (by rw [he]; decide))
    (fun he => hm (by rw [he]; decide))
    (fun he => hm (by rw [he]; decide))
    (fun he => hm (by rw [he]; decide))
    (fun he => hm (by rw [he]; decide))
    (fun he => hm (by rw [he]; decide))
    (fun he => hm (by rw [he]; decide))
    (fun he => hm (by rw [he]; decide))
    (fun he => hm (by rw [he]; decide))
    (fun he => hm (by rw [he]; decide))
    (fun he => hm (by rw [he]; decide))
    (fun he => hm (by rw [he]; decide))
    (fun he => hm (by rw [he]; decide))
    (fun he => hm (by rw [he]; decide))
    (fun he => hm (by rw [he]; decide))
    (fun he => hm (by rw [he]; decide))
    (fun he => hm (by rw [he]; decide))
    (fun he => hm (by rw [he]; decide))

/-- C7: a step executing any byte outside the 151 legal opcodes
returns normally with exactly 2 cycles (one beyond the opcode fetch),
advances PC by one, and leaves the registers, P and every byte of
memory unchanged. -/
theorem step_unknown_opcode (s : St)
    (h : isLegal (s.mem (s.PC % 65536) % 256) = false) :
    (Execute s).2 = 2 ∧
    (Execute s).1.PC = (s.PC + 1) % 65536 ∧
    (Execute s).1.A = s.A ∧ (Execute s).1.X = s.X ∧ (Execute s).1.Y = s.Y ∧
    (Execute s).1.SP = s.SP ∧ (Execute s).1.P = s.P ∧
    (Execute s).1.TotalCycles = s.TotalCycles + 2 ∧
    (∀ a, (Execute s).1.mem a = s.mem a) := by
  simp only [Execute, FetchByte, MemReadByte]
  rw [ExecOp_unknown _ _ _ h]
  simp

/-- Concrete input for C7: illegal byte 0x02 at 0x1000. -/
def c7mem : Mem := fun a => if a = 0x1000 then 0x02 else 0

def c7st : St :=
  { A := 1, X := 2, Y := 3, PC := 0x1000, SP := 0xFD, P := 0x24,
    TotalCycles := 5, mem := c7mem }

/-- Witness for C7: executing illegal byte 0x02 charges 2 cycles,
bumps PC to 0x1001 and leaves P alone. -/
theorem step_unknown_opcode_witness :
    isLegal (c7st.mem (c7st.PC % 65536) % 256) = false ∧
    (Execute c7st).2 = 2 ∧ (Execute c7st).1.PC = 0x1001 ∧
    (Execute c7st).1.P = c7st.P := by
  have h := step_unknown_opcode c7st (by decide)
  exact ⟨by decide, h.1, by rw [h.2.1]; decide, h.2.2.2.2.2.2.1⟩


/-- Counterexample for C3: a freshly constructed CPU has P = 0, so the Unused
bit (bit 5) is clear — construction is a public operation after which
the bit is observed to be 0. -/
theorem cpu_construct_unused_bit_clear :
    ((CPUinit (fun _ => 0)).P).testBit 5 = false := by decide

/-- C3 (amended): reset sets the Unused bit; every step preserves it
once set; PLP and RTI force it; PHP and BRK push a status byte with it
forced — but construction leaves P = 0, so the invariant holds only
from reset onward. -/
theorem unused_bit_invariant :
    (∀ s : St, ((Reset s).P).testBit 5 = true) ∧
    (∀ s : St, s.P.testBit 5 = true → (((Execute s).1).P).testBit 5 = true) ∧
    (∀ (s : St) (cy : Nat), (((PLP s cy).1).P).testBit 5 = true) ∧
    (∀ (s : St) (cy : Nat), (((RTI s cy).1).P).testBit 5 = true) ∧
    (∀ (s : St) (cy : Nat), (((PHP s cy).1).mem ((0x100 + s.SP) % 65536)).testBit 5 = true) ∧
    (∀ (s : St) (cy : Nat),
      (((BRK s cy).1).mem ((0x100 + (s.SP + 254) % 256) % 65536)).testBit 5 = true) := by
  refine ⟨?_, ?_, ?_, ?_, ?_, ?_⟩
  · intro s
    simp +decide [Reset, MemReadWord, MemReadByte, SetFlag, FLAG_UNUSED, FLAG_INTERRUPT]
  · intro s h
    simp only [Execute, FetchByte, MemReadByte]
    exact ExecOp_P_bit5 _ _ _ h
  · intro s cy
    simp +decide [PLP, PopByteFromStack, MemReadByte, SetFlag_tb5, FLAG_UNUSED]
  · intro s cy
    simp +decide [RTI, PopByteFromStack, PopWordFromStack, MemReadByte, SetFlag_tb5, FLAG_UNUSED]
  · intro s cy
    simp +decide [PHP, PushByteToStack, MemWriteByte, STACK_BASE, FLAG_BREAK, FLAG_UNUSED,
      testBit5_mod256, Nat.testBit_or]
  · intro s cy
    have hsp : ((s.SP + 255) % 256 + 255) % 256 = (s.SP + 254) % 256 := by omega
    simp +decide [BRK, PushWordToStack, PushByteToStack, MemWriteByte, MemReadWord,
      MemReadByte, STACK_BASE, FLAG_BREAK, FLAG_UNUSED, hsp, testBit5_mod256, Nat.testBit_or]

/-- Concrete input for C3's preservation part: a NOP at 0x1000 with
P = 0x24 (Unused set). -/
def c3mem : Mem := fun a => if a = 0x1000 then 0xEA else 0

def c3st : St :=
  { A := 0, X := 0, Y := 0, PC := 0x1000, SP := 0xFD, P := 0x24,
    TotalCycles := 0, mem := c3mem }

/-- Witness for C3: a step from a state with the Unused bit set keeps
it set. -/
theorem unused_bit_invariant_witness :
    c3st.P.testBit 5 = true ∧ (((Execute c3st).1).P).testBit 5 = true :=
  ⟨by decide, unused_bit_invariant.2.1 c3st (by decide)⟩

/-- Loop invariant of `CPU::Execute(Cycles, Memory&)`: once entered
with `e < b`, the loop returns at least `b` cycles, and overshoots `b`
by less than the cost of the final instruction executed. -/
theorem ExecuteLoop_spec (b : Nat) :
    ∀ (n e : Nat) (s : St), b - e ≤ n → e < b →
      b ≤ (ExecuteLoop s b e).2 ∧ ∃ t, (ExecuteLoop s b e).2 < b + (Execute t).2 := by
  intro n
  induction n with
  | zero => intro e s hn he; omega
  | succ n ih =>
    intro e s hn he
    rw [ExecuteLoop, dif_pos he]
    by_cases h2 : e + (Execute s).2 < b
    · have hr := Execute_cy_pos s
      exact ih (e + (Execute s).2) (Execute s).1 (by omega) h2
    · rw [ExecuteLoop, dif_neg h2]
      exact ⟨by omega, ⟨s, by omega⟩⟩

/-- C9: `run_for` terminates (each step charges at least one cycle —
its very definition is by well-founded recursion on that fact), the
cycle count it returns meets any positive budget, and it exceeds the
budget by less than the cost of the final instruction executed. -/
theorem run_for_budget (s : St) (b : Nat) (hb : 0 < b) :
    (∀ t : St, 1 ≤ (Execute t).2) ∧
    b ≤ (ExecuteBudget s b).2 ∧
    ∃ t : St, (ExecuteBudget s b).2 < b + (Execute t).2 := by
  have h := ExecuteLoop_spec b b 0 s (by omega) hb
  exact ⟨Execute_cy_pos, h.1, h.2⟩

/-- Concrete input for C9: memory full of NOPs. -/
def c9st : St :=
  { A := 0, X := 0, Y := 0, PC := 0x1000, SP := 0xFD, P := 0x24,
    TotalCycles := 0, mem := fun _ => 0xEA }

/-- Witness for C9: with budget 2 the loop returns at least 2 cycles
and overshoots by less than one instruction. -/
theorem run_for_budget_witness :
    (0 : Nat) < 2 ∧ 2 ≤ (ExecuteBudget c9st 2).2 ∧
    ∃ t : St, (ExecuteBudget c9st 2).2 < 2 + (Execute t).2 :=
  ⟨by decide, (run_for_budget c9st 2 (by decide)).2.1, (run_for_budget c9st 2 (by decide)).2.2⟩

end M6502
